import Mathlib

/-!
# CI-V message recognition and field decoding (`CIV.cpp`, `Tuner.cpp`)

A shallow embedding of `check_CIV` and of the tables it works on, of
`getByteResponse` and of `selectFrequency`, followed by the properties established
about them.

Conventions of the embedding

* `uint8_t` arrays (`cmd`, `datafield`, `cmdData`) are lists of naturals read
  through `byteAt`, which reduces the element modulo 256 and reads 0 past the
  end of the list (the zero padding of a partially initialised C array).
* unsigned machine integers are naturals reduced modulo `2 ^ w` at the places
  where the C code stores them; signed ones are integers.
* the global arrays `bandmem`, `modeList` and `user_settings` are functions
  from the index to the record.
* the result of `civ.readMsg(CIV_ADDR)` is an argument of `check_CIV`.
-/

namespace CIV

/-! ## Bytes and machine integers -/

/-- Element `i` of a `uint8_t` array. -/
def byteAt (a : List Nat) (i : Nat) : Nat :=
  a.getD i 0 % 256

/-- Conversion of an unsigned value to `uint8_t`. -/
def toU8 (x : Nat) : Nat :=
  x % 256

/-- Conversion of an unsigned value to `uint64_t`. -/
def toU64 (x : Nat) : Nat :=
  x % 2 ^ 64

/-- Modelled from the spec: `bcdByte` is a helper of the CIVmaster library whose
definition is not part of the sources at hand. Section 4.1 of the specification
gives it as `(byte >> 4) * 10 + (byte & 0x0F)` on a byte. -/
def bcdByte (b : Nat) : Nat :=
  ((b % 256) >>> 4) * 10 + ((b % 256) &&& 0x0F)

/-! ## Transport result (`CIVresult_t`) -/

/-- Values of `retVal_t`, in the order given by `retValStr` in `CIV.h`. -/
def CIV_OK : Nat := 0

/-- Second value of `retVal_t`: a message with data is available. -/
def CIV_OK_DAV : Nat := 1

/-- Third value of `retVal_t`. -/
def CIV_NOK : Nat := 2

/-- The fields of `CIVresult_t` that `check_CIV` reads. -/
structure CIVresult_t where
  retVal : Nat
  cmd : List Nat
  datafield : List Nat
  value : Nat
deriving DecidableEq, Repr

/-! ## Command identifiers and the command table

The enumeration of the command identifiers is declared in a header that is not
part of the sources at hand. `check_CIV` uses the loop index into `cmd_List` as
the selector of its `switch`, so the identifiers are taken to be numbered in
the order of the initialisers of `cmd_List`, with `End_of_Cmd_List` last. -/

def CIV_C_F_SEND : Nat := 0
def CIV_C_F1_SEND : Nat := 1
def CIV_C_F_READ : Nat := 2
def CIV_C_F26 : Nat := 3
def CIV_C_F26A : Nat := 4
def CIV_C_F26B : Nat := 5
def CIV_C_F25A_SEND : Nat := 6
def CIV_C_F25B_SEND : Nat := 7
def CIV_C_MOD_READ : Nat := 8
def CIV_C_MOD_SET : Nat := 9
def CIV_C_MOD_SEND : Nat := 10
def CIV_C_MOD1_SEND : Nat := 11
def CIV_C_MOD_USB_F1_SEND : Nat := 12
def CIV_C_MOD_USB_SEND : Nat := 13
def CIV_C_USB_D0_F2_SEND : Nat := 14
def CIV_C_USB_D1_F2_SEND : Nat := 15
def CIV_C_LSB_D0_F2_SEND : Nat := 16
def CIV_C_LSB_D1_F2_SEND : Nat := 17
def CIV_C_FM_D1_F1_SEND : Nat := 18
def CIV_C_ATTN_READ : Nat := 19
def CIV_C_ATTN_OFF : Nat := 20
def CIV_C_ATTN_ON : Nat := 21
def CIV_C_SPLIT_READ : Nat := 22
def CIV_C_SPLIT_OFF_SEND : Nat := 23
def CIV_C_SPLIT_ON_SEND : Nat := 24
def CIV_C_RFGAIN : Nat := 25
def CIV_C_AFGAIN : Nat := 26
def CIV_C_RFPOWER : Nat := 27
def CIV_C_S_MTR_LVL : Nat := 28
def CIV_C_PREAMP_READ : Nat := 29
def CIV_C_PREAMP_OFF : Nat := 30
def CIV_C_PREAMP_ON : Nat := 31
def CIV_C_PREAMP_ON2 : Nat := 32
def CIV_C_AGC_READ : Nat := 33
def CIV_C_AGC_FAST : Nat := 34
def CIV_C_AGC_MID : Nat := 35
def CIV_C_AGC_SLOW : Nat := 36
def CIV_C_CW_MSGS : Nat := 37
def CIV_C_BSTACK : Nat := 38
def CIV_C_MY_POSIT_READ : Nat := 39
def CIV_C_MY_POSIT_DATA : Nat := 40
def CIV_C_RF_POW : Nat := 41
def CIV_C_TRX_ON_OFF : Nat := 42
def CIV_C_TRX_ID : Nat := 43
def CIV_C_TX : Nat := 44
def CIV_C_DATE : Nat := 45
def CIV_C_TIME : Nat := 46
def CIV_C_UTC_READ_905 : Nat := 47
def CIV_C_UTC_READ_705 : Nat := 48
def CIV_C_DUPLEX_READ : Nat := 49
def CIV_C_DUPLEX_SEND : Nat := 50
def CIV_C_RIT_XIT : Nat := 51
def CIV_C_RIT_ON_OFF : Nat := 52
def CIV_C_XIT_ON_OFF : Nat := 53
def CIV_C_RADIO_OFF : Nat := 54
def CIV_C_RADIO_ON : Nat := 55
def End_of_Cmd_List : Nat := 56

/-- One row of the command table: the identifier and the signature bytes
`cmdData`, whose element 0 is the declared length. -/
structure cmdList where
  cmdNum : Nat
  cmdData : List Nat
deriving DecidableEq, Repr

/-- The command table of `CIV.cpp`, lines 37-103, in source order. -/
def cmd_List : List cmdList := [
  ⟨CIV_C_F_SEND, [1, 0x00]⟩,
  ⟨CIV_C_F1_SEND, [1, 0x05]⟩,
  ⟨CIV_C_F_READ, [1, 0x03]⟩,
  ⟨CIV_C_F26, [1, 0x26]⟩,
  ⟨CIV_C_F26A, [2, 0x26, 0x00]⟩,
  ⟨CIV_C_F26B, [2, 0x26, 0x01]⟩,
  ⟨CIV_C_F25A_SEND, [2, 0x25, 0x00]⟩,
  ⟨CIV_C_F25B_SEND, [2, 0x25, 0x01]⟩,
  ⟨CIV_C_MOD_READ, [1, 0x04]⟩,
  ⟨CIV_C_MOD_SET, [3, 0x06, 0x23, 0x02]⟩,
  ⟨CIV_C_MOD_SEND, [1, 0x01]⟩,
  ⟨CIV_C_MOD1_SEND, [1, 0x06]⟩,
  ⟨CIV_C_MOD_USB_F1_SEND, [3, 0x06, 0x01, 0x01]⟩,
  ⟨CIV_C_MOD_USB_SEND, [2, 0x06, 0x01]⟩,
  ⟨CIV_C_USB_D0_F2_SEND, [5, 0x26, 0x00, 0x01, 0x00, 0x02]⟩,
  ⟨CIV_C_USB_D1_F2_SEND, [5, 0x26, 0x00, 0x01, 0x01, 0x02]⟩,
  ⟨CIV_C_LSB_D0_F2_SEND, [5, 0x26, 0x00, 0x00, 0x00, 0x02]⟩,
  ⟨CIV_C_LSB_D1_F2_SEND, [5, 0x26, 0x00, 0x00, 0x01, 0x02]⟩,
  ⟨CIV_C_FM_D1_F1_SEND, [5, 0x26, 0x00, 0x05, 0x01, 0x01]⟩,
  ⟨CIV_C_ATTN_READ, [1, 0x11]⟩,
  ⟨CIV_C_ATTN_OFF, [2, 0x11, 0x00]⟩,
  ⟨CIV_C_ATTN_ON, [2, 0x11, 0x10]⟩,
  ⟨CIV_C_SPLIT_READ, [1, 0x0F]⟩,
  ⟨CIV_C_SPLIT_OFF_SEND, [2, 0x0F, 0x00]⟩,
  ⟨CIV_C_SPLIT_ON_SEND, [2, 0x0F, 0x01]⟩,
  ⟨CIV_C_RFGAIN, [2, 0x14, 0x02]⟩,
  ⟨CIV_C_AFGAIN, [2, 0x14, 0x01]⟩,
  ⟨CIV_C_RFPOWER, [2, 0x14, 0x0A]⟩,
  ⟨CIV_C_S_MTR_LVL, [2, 0x15, 0x02]⟩,
  ⟨CIV_C_PREAMP_READ, [2, 0x16, 0x02]⟩,
  ⟨CIV_C_PREAMP_OFF, [3, 0x16, 0x02, 0x00]⟩,
  ⟨CIV_C_PREAMP_ON, [3, 0x16, 0x02, 0x00]⟩,
  ⟨CIV_C_PREAMP_ON2, [3, 0x16, 0x02, 0x02]⟩,
  ⟨CIV_C_AGC_READ, [2, 0x16, 0x12]⟩,
  ⟨CIV_C_AGC_FAST, [3, 0x16, 0x12, 0x01]⟩,
  ⟨CIV_C_AGC_MID, [3, 0x16, 0x12, 0x02]⟩,
  ⟨CIV_C_AGC_SLOW, [3, 0x16, 0x12, 0x03]⟩,
  ⟨CIV_C_CW_MSGS, [1, 0x17]⟩,
  ⟨CIV_C_BSTACK, [2, 0x1A, 0x01]⟩,
  ⟨CIV_C_MY_POSIT_READ, [2, 0x23, 0x00]⟩,
  ⟨CIV_C_MY_POSIT_DATA, [1, 0x23]⟩,
  ⟨CIV_C_RF_POW, [2, 0x14, 0x0A]⟩,
  ⟨CIV_C_TRX_ON_OFF, [1, 0x18]⟩,
  ⟨CIV_C_TRX_ID, [2, 0x19, 0x00]⟩,
  ⟨CIV_C_TX, [2, 0x1C, 0x00]⟩,
  ⟨CIV_C_DATE, [4, 0x1A, 0x05, 0x00, 0x94]⟩,
  ⟨CIV_C_TIME, [4, 0x1A, 0x05, 0x00, 0x95]⟩,
  ⟨CIV_C_UTC_READ_905, [4, 0x1A, 0x05, 0x01, 0x81]⟩,
  ⟨CIV_C_UTC_READ_705, [4, 0x1A, 0x05, 0x01, 0x70]⟩,
  ⟨CIV_C_DUPLEX_READ, [1, 0x0C]⟩,
  ⟨CIV_C_DUPLEX_SEND, [1, 0x0D]⟩,
  ⟨CIV_C_RIT_XIT, [2, 0x21, 0x00]⟩,
  ⟨CIV_C_RIT_ON_OFF, [2, 0x21, 0x01]⟩,
  ⟨CIV_C_XIT_ON_OFF, [2, 0x21, 0x02]⟩,
  ⟨CIV_C_RADIO_OFF, [2, 0x18, 0x00]⟩,
  ⟨CIV_C_RADIO_ON, [2, 0x18, 0x01]⟩]

/-! ## The matcher (lines 159-178) -/

/-- Inner loop `for (int i = 0; i <= cmd[0]; i++)`. The first argument counts
the iterations that remain (`cmd[0] + 1 - i`), the last one is the `uint8_t`
counter `match`. A differing byte resets the counter to 0 and leaves the loop. -/
def matchLoop (cmdData cmd : List Nat) : Nat → Nat → Nat → Nat
  | 0, _, matchCnt => matchCnt
  | left + 1, i, matchCnt =>
    if byteAt cmdData i ≠ byteAt cmd i then 0
    else matchLoop cmdData cmd left (i + 1) (toU8 (matchCnt + 1))

/-- Outer loop `for (cmd_num = CIV_C_F_SEND; cmd_num < End_of_Cmd_List; cmd_num++)`
over the rows that remain. It returns the value of `cmd_num` when the loop is
left: the index of the row at which `match == cmd[0] + 1` held, or the index past
the last row. -/
def scanLoop (cmd : List Nat) : List cmdList → Nat → Nat → Nat
  | [], cmd_num, _ => cmd_num
  | e :: rest, cmd_num, matchCnt =>
    let m := matchLoop e.cmdData cmd (byteAt cmd 0 + 1) 0 matchCnt
    if m = byteAt cmd 0 + 1 then cmd_num else scanLoop cmd rest (cmd_num + 1) m

/-- An entry of the table agrees with the body: the length byte (index 0) is the
same and the payload bytes at the indices `1 .. length` are the same. -/
def sigMatches (e : cmdList) (cmd : List Nat) : Prop :=
  byteAt e.cmdData 0 = byteAt cmd 0 ∧
    ∀ i, i < byteAt e.cmdData 0 → byteAt e.cmdData (i + 1) = byteAt cmd (i + 1)

instance (e : cmdList) (cmd : List Nat) : Decidable (sigMatches e cmd) := by
  unfold sigMatches; infer_instance

/-! ## Program state

The record types `Band_Memory` and `Modes_List` are declared in a header that is
not part of the sources at hand; the fields below are the ones `CIV.cpp` and
`Tuner.cpp` access, stored without narrowing. -/

/-- One band record of `bandmem[]`. The field `data_A_1` is never accessed by the
sources at hand and is carried for the second register slot by analogy with
`data_A` and `data_A_2`; no operation of the model writes it. -/
structure Band_Memory where
  vfo_A_last : Nat
  vfo_A_last_1 : Nat
  vfo_A_last_2 : Nat
  mode_A : Nat
  mode_A_1 : Nat
  mode_A_2 : Nat
  filter_A : Nat
  filter_A_1 : Nat
  filter_A_2 : Nat
  data_A : Nat
  data_A_1 : Nat
  data_A_2 : Nat
  attenuator : Nat
  preamp : Nat
  agc_mode : Nat
  split : Nat
  tune_step : Nat
deriving DecidableEq, Repr

/-- One row of the mode table `modeList[]`. -/
structure Modes_List where
  mode_num : Nat
  data : Nat
  mode_label : String
  Width : Nat
deriving DecidableEq, Repr

/-- Arguments of one call of `setTime(hr, min, sec, day, month, yr)`. -/
structure TimeArgs where
  hr : Int
  min : Int
  sec : Int
  day : Int
  month : Int
  yr : Int
deriving DecidableEq, Repr

/-- Constants and helpers that `check_CIV` takes from headers and files outside
the sources at hand: the radio address, the length of the mode table, the `UTC`
switch, the band indices, the attenuator, preamp and AGC codes, and `hexToDec`
applied to the decimal text of a `uint8_t`. -/
structure Build where
  CIV_ADDR : Nat
  MODES_NUM : Nat
  UTC : Nat
  BAND144 : Nat
  BAND432 : Nat
  BAND1296 : Nat
  BAND2400 : Nat
  BAND5760 : Nat
  BAND10G : Nat
  ATTN_OFF : Nat
  ATTN_ON : Nat
  PREAMP_OFF : Nat
  PREAMP_ON : Nat
  AGC_FAST : Nat
  AGC_MID : Nat
  AGC_SLOW : Nat
  hexToDec : Nat → Nat

/-- Address of the IC-705 (`RadioConfig.h`, line 41). -/
def CIV_ADDR_705 : Nat := 0xA4

/-- Address of the IC-905 (`RadioConfig.h`, line 42). -/
def CIV_ADDR_905 : Nat := 0xAC

/-- The configuration of `RadioConfig.h`: `CIV_ADDR` is `CIV_ADDR_705` and `UTC`
is 1. The other values are not fixed by the sources at hand and are sample
values: the band indices follow the band order of `RadioConfig.h` (160M first),
the mode table has 12 rows, the codes are 0 for off and 1 for on, and `hexToDec`
reads the decimal digits of its argument as hexadecimal digits. -/
def defaultBuild : Build where
  CIV_ADDR := CIV_ADDR_705
  MODES_NUM := 12
  UTC := 1
  BAND144 := 11
  BAND432 := 13
  BAND1296 := 15
  BAND2400 := 16
  BAND5760 := 18
  BAND10G := 19
  ATTN_OFF := 0
  ATTN_ON := 1
  PREAMP_OFF := 0
  PREAMP_ON := 1
  AGC_FAST := 1
  AGC_MID := 2
  AGC_SLOW := 3
  hexToDec := fun n => (n / 100) * 256 + ((n / 10) % 10) * 16 + n % 10

/-- The globals and function statics that `check_CIV` reads or writes.
`setTime_calls` records the calls of `setTime` in order, `xmit i` is
`user_settings[i].xmit`. -/
structure State where
  cmd_num : Nat
  TX_last : Nat
  freqReceived : Bool
  CIVresultL : CIVresult_t
  curr_band : Nat
  user_Profile : Nat
  radio_VFO : Nat
  radio_mode : Nat
  radio_filter : Nat
  radio_data : Nat
  radio_RIT : Int
  radio_DUP : Int
  radio_RIT_On_Off : Nat
  radio_XIT_On_Off : Nat
  hr_off : Int
  min_off : Int
  shift_dir : Int
  bandmem : Nat → Band_Memory
  modeList : Nat → Modes_List
  xmit : Nat → Nat
  setTime_calls : List TimeArgs

/-- Assignment to fields of `bandmem[b]`. -/
def State.setBand (s : State) (b : Nat) (f : Band_Memory → Band_Memory) : State :=
  { s with bandmem := Function.update s.bandmem b (f (s.bandmem b)) }

/-- Assignment `modeList[i].Width = w`. -/
def State.setWidth (s : State) (i w : Nat) : State :=
  { s with modeList := Function.update s.modeList i { s.modeList i with Width := w } }

/-! ## Decoders used by the branches of the switch -/

/-- The loop of lines 268-271: `left` iterations remain, `idx` is the index into
`rxBuffer`, `mul` and `bstack_freq` are the two `uint64_t` accumulators. -/
def bstackFreqLoop (rxBuffer : List Nat) : Nat → Nat → Nat → Nat → Nat
  | 0, _, _, bstack_freq => bstack_freq
  | left + 1, idx, mul, bstack_freq =>
    let f1 := toU64 (bstack_freq + toU64 ((byteAt rxBuffer idx &&& 0x0f) * mul))
    let mul1 := toU64 (mul * 10)
    let f2 := toU64 (f1 + toU64 ((byteAt rxBuffer idx >>> 4) * mul1))
    let mul2 := toU64 (mul1 * 10)
    bstackFreqLoop rxBuffer left (idx + 1) mul2 f2

/-- Frequency decode of lines 260-271 on a buffer of `F_len` bytes. -/
def decodeFreq (rxBuffer : List Nat) (F_len : Nat) : Nat :=
  bstackFreqLoop rxBuffer F_len 0 1 0

/-- Number of frequency bytes (lines 251-254). -/
def F_len (B : Build) : Nat :=
  if B.CIV_ADDR = CIV_ADDR_905 then 6 else 5

/-- The copy loop of lines 264-265: `rxBuffer[idx - DstartIdx] = datafield[idx]`
for `idx` from `DstartIdx` to `DstopIdx - 1`. -/
def copyFreqBytes (datafield : List Nat) (DstartIdx n : Nat) : List Nat :=
  (List.range n).map fun k => byteAt datafield (DstartIdx + k)

/-- Value of `bstack_freq` after line 271 for a band-stack report. -/
def bstack_freq (B : Build) (datafield : List Nat) : Nat :=
  decodeFreq (copyFreqBytes datafield 3 (F_len B)) (F_len B)

/-- The lookup loops of lines 280-287 and 341-348:
`for (i = 0; i < MODES_NUM; i++) if (modeList[i].mode_num == m && modeList[i].data == d)`;
the result is the first matching index, if the loop finds one before `MODES_NUM`. -/
def findModeData (modeList : Nat → Modes_List) (m d : Nat) : Nat → Nat → Option Nat
  | 0, _ => none
  | left + 1, i =>
    if (modeList i).mode_num = m ∧ (modeList i).data = d then some i
    else findModeData modeList m d left (i + 1)

/-- The lookup loop of lines 216-223, which compares `mode_num` only. -/
def findMode (modeList : Nat → Modes_List) (m : Nat) : Nat → Nat → Option Nat
  | 0, _ => none
  | left + 1, i =>
    if (modeList i).mode_num = m then some i
    else findMode modeList m left (i + 1)

/-- Band index for a band code of a band-stack report (lines 291-300). -/
def bstackBand (B : Build) (bstack_band : Nat) : Nat :=
  if bstack_band = 1 then B.BAND144
  else if bstack_band = 2 then B.BAND432
  else if bstack_band = 3 then B.BAND1296
  else if bstack_band = 4 then B.BAND2400
  else if bstack_band = 5 then B.BAND5760
  else if bstack_band = 6 then B.BAND10G
  else B.BAND144

/-- Conversion of a byte to `int8_t`. -/
def toI8 (x : Nat) : Int :=
  if x % 256 < 128 then ((x % 256 : Nat) : Int) else ((x % 256 : Nat) : Int) - 256

/-- Conversion of an integer to a signed type of `w` bits. -/
def wrapInt (w : Nat) (x : Int) : Int :=
  (x + 2 ^ (w - 1)) % 2 ^ w - 2 ^ (w - 1)

/-! ## The branches of the switch (lines 195-599)

Each branch takes the state after lines 146-182 and returns `msg_type` with the
state at `return msg_type`. Debug printing and the display refresh calls
(`displayPreamp`, `displayAttn`, `displayAgc`, `AGC`) are outside the sources at
hand and outside the modelled state. -/

/-- Lines 197-206: `CIV_C_F_READ`, `CIV_C_F_SEND`, `CIV_C_F1_SEND`. -/
def caseFreq (msg : CIVresult_t) (s : State) : Nat × State :=
  (1, { s with radio_VFO := toU64 msg.value, freqReceived := true })

/-- Lines 208-232: `CIV_C_MOD_READ`, `CIV_C_MOD_SEND`. -/
def caseMode (B : Build) (msg : CIVresult_t) (s : State) : Nat × State :=
  let raw := toU8 (msg.value / 100)
  let radio_mode :=
    match findMode s.modeList (B.hexToDec raw) B.MODES_NUM 0 with
    | some i => i
    | none => raw
  let radio_filter := toU8 (msg.value - (msg.value / 100) * 100)
  (2, { s with radio_mode := radio_mode, radio_filter := radio_filter, freqReceived := false })

/-- Lines 235-327: `CIV_C_BSTACK`. -/
def caseBstack (B : Build) (msg : CIVresult_t) (s : State) : Nat × State :=
  let bstack_band := byteAt msg.datafield 1
  let bstack_reg := byteAt msg.datafield 2
  let DstopIdx := 3 + F_len B
  let freq := bstack_freq B msg.datafield
  let raw := byteAt msg.datafield DstopIdx
  let radio_filter := byteAt msg.datafield (DstopIdx + 1)
  let radio_data := byteAt msg.datafield (DstopIdx + 2)
  let radio_mode :=
    match findModeData s.modeList raw radio_data B.MODES_NUM 0 with
    | some i => i
    | none => raw
  let band := bstackBand B bstack_band
  let s1 : State :=
    { s with radio_mode := radio_mode, radio_filter := radio_filter, radio_data := radio_data }
  let s2 : State :=
    if bstack_reg = 1 then
      let a := s1.setBand band fun r =>
        { r with vfo_A_last := freq, mode_A := radio_mode, filter_A := radio_filter }
      let b := a.setWidth (a.bandmem band).mode_A radio_filter
      b.setBand band fun r => { r with data_A := radio_data }
    else if bstack_reg = 2 then
      let a := s1.setBand band fun r =>
        { r with vfo_A_last_1 := freq, mode_A_1 := radio_mode, filter_A_1 := radio_filter }
      let b := a.setWidth (a.bandmem band).mode_A radio_filter
      b.setBand band fun r => { r with data_A_2 := radio_data }
    else if bstack_reg = 3 then
      let a := s1.setBand band fun r =>
        { r with vfo_A_last_2 := freq, mode_A_2 := radio_mode, filter_A_2 := radio_filter }
      let b := a.setWidth (a.bandmem band).mode_A radio_filter
      b.setBand band fun r => { r with data_A_2 := radio_data }
    else s1
  (3, { s2 with freqReceived := false })

/-- Lines 329-355: `CIV_C_F26A`, `CIV_C_F26B`, `CIV_C_F26`. -/
def caseF26 (B : Build) (msg : CIVresult_t) (s : State) : Nat × State :=
  let raw := byteAt msg.datafield 2
  let radio_data := byteAt msg.datafield 3
  let radio_filter := byteAt msg.datafield 4
  let s1 := s.setBand s.curr_band fun r => { r with data_A := radio_data }
  let s2 := s1.setBand s.curr_band fun r => { r with filter_A := radio_filter }
  let s3 := s2.setWidth (s2.bandmem s.curr_band).mode_A radio_filter
  let s4 : State :=
    match findModeData s3.modeList raw radio_data B.MODES_NUM 0 with
    | some i =>
      { s3.setBand s.curr_band fun r => { r with mode_A := i } with radio_mode := i }
    | none => { s3 with radio_mode := raw }
  let s5 := s4.setWidth s4.radio_mode radio_filter
  (4, { s5 with radio_data := radio_data, radio_filter := radio_filter, freqReceived := false })

/-- Lines 358-377: `CIV_C_TX`; `TX_last` is the function static. -/
def caseTX (msg : CIVresult_t) (s : State) : Nat × State :=
  let TX := toU8 msg.value
  if TX ≠ s.TX_last then
    let s1 : State :=
      if TX = 1 then { s with xmit := Function.update s.xmit s.user_Profile 1 } else s
    let s2 : State :=
      if TX = 0 then { s1 with xmit := Function.update s1.xmit s1.user_Profile 0 } else s1
    (5, { s2 with TX_last := TX, freqReceived := false })
  else (0, { s with freqReceived := false })

/-- Lines 382-411: `CIV_C_MY_POSIT_DATA`. -/
def casePosit (B : Build) (msg : CIVresult_t) (s : State) : Nat × State :=
  let _hr : Int := bcdByte (byteAt msg.datafield 26)
  let _min : Int := bcdByte (byteAt msg.datafield 27)
  let _sec : Int := bcdByte (byteAt msg.datafield 28)
  let _month : Int := bcdByte (byteAt msg.datafield 24)
  let _day : Int := bcdByte (byteAt msg.datafield 25)
  let _yr : Int := bcdByte (byteAt msg.datafield 23)
  let s1 : State :=
    { s with setTime_calls := s.setTime_calls ++ [⟨_hr, _min, _sec, _day, _month, _yr⟩] }
  let s2 : State :=
    if B.UTC = 0 then
      { s1 with setTime_calls := s1.setTime_calls ++
          [⟨wrapInt 32 (_hr + s.hr_off), wrapInt 32 (_min + s.min_off), _sec, _day, _month, _yr⟩] }
    else s1
  (6, { s2 with freqReceived := false })

/-- Lines 415-442: `CIV_C_UTC_READ_905`, `CIV_C_UTC_READ_705`. -/
def caseUTC (msg : CIVresult_t) (s : State) : Nat × State :=
  let hr_off : Int := bcdByte (byteAt msg.datafield 1)
  let min_off : Int := bcdByte (byteAt msg.datafield 2)
  let shift_dir : Int := bcdByte (byteAt msg.datafield 3)
  let s1 : State := { s with hr_off := hr_off, min_off := min_off, shift_dir := shift_dir }
  let s2 : State :=
    if shift_dir ≠ 0 then
      { s1 with hr_off := wrapInt 32 (hr_off * -1), min_off := wrapInt 32 (min_off * -1) }
    else s1
  (7, { s2 with freqReceived := false })

/-- Lines 444-467: `CIV_C_PREAMP_READ`. -/
def casePreamp (B : Build) (msg : CIVresult_t) (s : State) : Nat × State :=
  let _val := toU8 msg.value
  let s1 : State :=
    if _val > 0 then
      s.setBand s.curr_band fun r => { r with attenuator := B.ATTN_OFF, preamp := B.PREAMP_ON }
    else s
  let s2 : State :=
    if _val = 0 then s1.setBand s.curr_band fun r => { r with preamp := B.PREAMP_OFF } else s1
  (8, { s2 with freqReceived := false })

/-- Lines 469-485: `CIV_C_SPLIT_READ`. The branch assigns neither `msg_type` nor
`freqReceived`. -/
def caseSplit (msg : CIVresult_t) (s : State) : Nat × State :=
  let _val := toU8 msg.value
  let s1 : State :=
    if _val > 0 then s.setBand s.curr_band fun r => { r with split := 1 } else s
  let s2 : State :=
    if _val = 0 then s1.setBand s.curr_band fun r => { r with split := 0 } else s1
  (0, s2)

/-- Lines 487-509: `CIV_C_ATTN_READ`, `CIV_C_ATTN_ON`, `CIV_C_ATTN_OFF`. -/
def caseAttn (B : Build) (msg : CIVresult_t) (s : State) : Nat × State :=
  let _val := toU8 msg.value
  let s1 : State :=
    if _val > 0 then
      s.setBand s.curr_band fun r => { r with preamp := B.PREAMP_OFF, attenuator := B.ATTN_ON }
    else s
  let s2 : State :=
    if _val = 0 then s1.setBand s.curr_band fun r => { r with attenuator := B.ATTN_OFF } else s1
  (9, { s2 with freqReceived := false })

/-- Lines 511-526: `CIV_C_AGC_READ`. -/
def caseAgc (B : Build) (msg : CIVresult_t) (s : State) : Nat × State :=
  let _val := toU8 msg.value
  let s1 : State :=
    if _val = 1 then s.setBand s.curr_band fun r => { r with agc_mode := B.AGC_FAST } else s
  let s2 : State :=
    if _val = 2 then s1.setBand s.curr_band fun r => { r with agc_mode := B.AGC_MID } else s1
  let s3 : State :=
    if _val = 3 then s2.setBand s.curr_band fun r => { r with agc_mode := B.AGC_SLOW } else s2
  (10, { s3 with freqReceived := false })

/-- Lines 528-557: `CIV_C_DUPLEX_READ`, `CIV_C_DUPLEX_SEND`; `radio_DUP` is an
`int32_t`. -/
def caseDuplex (msg : CIVresult_t) (s : State) : Nat × State :=
  let d0 : Int := wrapInt 32 ((bcdByte (byteAt msg.datafield 3) : Int) * 1000)
  let d1 : Int := wrapInt 32 (d0 + (bcdByte (byteAt msg.datafield 2) : Int) * 10)
  let d2 : Int := wrapInt 32 (d1 + (bcdByte (byteAt msg.datafield 1) : Int))
  let d3 : Int := wrapInt 32 (d2 * 1000)
  (11, { s with radio_DUP := d3, freqReceived := false })

/-- Lines 559-577: `CIV_C_RIT_XIT`; `radio_RIT` is an `int16_t`, `RIT_MINUS` an
`int8_t`. -/
def caseRit (msg : CIVresult_t) (s : State) : Nat × State :=
  let RIT_MINUS : Int := toI8 (byteAt msg.datafield 3)
  let r0 : Int := wrapInt 16 ((bcdByte (byteAt msg.datafield 2) : Int) * 100)
  let r1 : Int := wrapInt 16 (r0 + (bcdByte (byteAt msg.datafield 1) : Int))
  let r2 : Int := wrapInt 16 (if RIT_MINUS ≠ 0 then r1 * -1 else r1)
  (12, { s with radio_RIT := r2, freqReceived := false })

/-- Lines 579-587: `CIV_C_RIT_ON_OFF`. -/
def caseRitOnOff (msg : CIVresult_t) (s : State) : Nat × State :=
  (13, { s with radio_RIT_On_Off := toU8 (bcdByte (byteAt msg.datafield 1)),
                freqReceived := false })

/-- Lines 589-597: `CIV_C_XIT_ON_OFF`. -/
def caseXitOnOff (msg : CIVresult_t) (s : State) : Nat × State :=
  (14, { s with radio_XIT_On_Off := toU8 (bcdByte (byteAt msg.datafield 1)),
                freqReceived := false })

/-- The `switch (cmd_num)` of lines 195-600; a command without a `case` leaves
`msg_type` at 0 and the state as it is. -/
def dispatch (B : Build) (msg : CIVresult_t) (cmd_num : Nat) (s : State) : Nat × State :=
  if cmd_num = CIV_C_F_READ ∨ cmd_num = CIV_C_F_SEND ∨ cmd_num = CIV_C_F1_SEND then
    caseFreq msg s
  else if cmd_num = CIV_C_MOD_READ ∨ cmd_num = CIV_C_MOD_SEND then caseMode B msg s
  else if cmd_num = CIV_C_BSTACK then caseBstack B msg s
  else if cmd_num = CIV_C_F26A ∨ cmd_num = CIV_C_F26B ∨ cmd_num = CIV_C_F26 then
    caseF26 B msg s
  else if cmd_num = CIV_C_TX then caseTX msg s
  else if cmd_num = CIV_C_MY_POSIT_DATA then casePosit B msg s
  else if cmd_num = CIV_C_UTC_READ_905 ∨ cmd_num = CIV_C_UTC_READ_705 then caseUTC msg s
  else if cmd_num = CIV_C_PREAMP_READ then casePreamp B msg s
  else if cmd_num = CIV_C_SPLIT_READ then caseSplit msg s
  else if cmd_num = CIV_C_ATTN_READ ∨ cmd_num = CIV_C_ATTN_ON ∨ cmd_num = CIV_C_ATTN_OFF then
    caseAttn B msg s
  else if cmd_num = CIV_C_AGC_READ then caseAgc B msg s
  else if cmd_num = CIV_C_DUPLEX_READ ∨ cmd_num = CIV_C_DUPLEX_SEND then caseDuplex msg s
  else if cmd_num = CIV_C_RIT_XIT then caseRit msg s
  else if cmd_num = CIV_C_RIT_ON_OFF then caseRitOnOff msg s
  else if cmd_num = CIV_C_XIT_ON_OFF then caseXitOnOff msg s
  else (0, s)

/-- Value of `cmd_num` after the matching loops of lines 159-178. -/
def matchCmd (cmd : List Nat) : Nat :=
  scanLoop cmd cmd_List CIV_C_F_SEND 0

/-- The test of line 180, `cmd_num >= End_of_Cmd_List - 1`, which guards the
exit "Loop Completed, NO match found". -/
def noMatchExit (cmd : List Nat) : Prop :=
  matchCmd cmd ≥ End_of_Cmd_List - 1

instance (cmd : List Nat) : Decidable (noMatchExit cmd) := by
  unfold noMatchExit; infer_instance

/-- The function `check_CIV` (lines 140-619). `msg` is the value returned by
`civ.readMsg(CIV_ADDR)`; the parameter `time_current_baseloop` is not used by the
source and is left out. The result is the returned `msg_type` and the state at
the return. -/
def check_CIV (B : Build) (msg : CIVresult_t) (s : State) : Nat × State :=
  let s0 : State := { s with CIVresultL := msg, freqReceived := false }
  if msg.retVal ≤ CIV_NOK then
    if msg.retVal = CIV_OK_DAV then
      let cmd_num := matchCmd msg.cmd
      if cmd_num ≥ End_of_Cmd_List - 1 then
        (0, { s0 with cmd_num := cmd_num - 1 })
      else
        dispatch B msg cmd_num { s0 with cmd_num := cmd_num }
    else (0, s0)
  else (0, s0)

/-! ## `getByteResponse` (lines 650-657) -/

/-- The function `getByteResponse`. The parameters `m_Counter` and `offset` are
`uint8_t`; the sums `offset + 3` and `offset + 1` are computed as `int` and do not
wrap; `ret` is a `uint8_t`, reduced at each of its two assignments. -/
def getByteResponse (m_Counter offset : Nat) (buffer : List Nat) : Nat :=
  let m := toU8 m_Counter
  let o := toU8 offset
  if m < o + 3 then 0
  else
    let ret := toU8 (bcdByte (byteAt buffer o) * 100)
    toU8 (ret + bcdByte (byteAt buffer (o + 1)))

/-! ## `selectFrequency` (`Tuner.cpp`)

The build of `RadioConfig.h` defines neither `PANADAPTER` nor `SV1AFN_BPF`, so the
function consists of lines 38-54, 63-77 and 105-106. -/

/-- The lower frequency limit `bottomFreq` of line 31. -/
def bottomFreq : Nat := 1000000

/-- Conversion of a signed value to `uint64_t`. -/
def intToU64 (x : Int) : Nat :=
  (x % 2 ^ 64).toNat

/-- The globals that `selectFrequency` reads or writes: `tstep i` is
`tstep[i].step`, `xmit i` and `sub_VFO i` are the fields of `user_settings[i]`, and
`SetFreq_calls` records the arguments of the calls of `SetFreq` in order. -/
structure TunerState where
  curr_band : Nat
  user_Profile : Nat
  VFOA : Nat
  bandmem : Nat → Band_Memory
  xmit : Nat → Nat
  sub_VFO : Nat → Nat
  tstep : Nat → Nat
  rit_offset : Int
  xit_offset : Int
  xvtr_offset : Int
  Fc : Int
  SetFreq_calls : List Nat

/-- The local `uint16_t fstep` of line 38. -/
def fstepOf (t : TunerState) : Nat :=
  t.tstep (t.bandmem t.curr_band).tune_step % 2 ^ 16

/-- The condition of lines 41 and 63,
`bandmem[curr_band].split && user_settings[user_Profile].xmit`. -/
def splitTransmit (t : TunerState) : Prop :=
  (t.bandmem t.curr_band).split ≠ 0 ∧ t.xmit t.user_Profile ≠ 0

instance (t : TunerState) : Decidable (splitTransmit t) := by
  unfold splitTransmit; infer_instance

/-- The function `selectFrequency` (lines 36-108). `Freq` is a `uint64_t`; the
signed terms `newFreq * fstep`, `xit_offset - xvtr_offset`, `rit_offset - xvtr_offset`
and `Fc` are 64-bit and are added modulo `2 ^ 64`. For `fstep = 0` the C expression
`VFOA % fstep` is undefined; the model then follows the value of the remainder on
the naturals. -/
def selectFrequency (newFreq : Int) (t : TunerState) : TunerState :=
  let fstep := fstepOf t
  let Freq0 : Nat :=
    if splitTransmit t then toU64 (t.sub_VFO t.user_Profile)
    else toU64 (t.VFOA - t.VFOA % fstep)
  let Freq1 : Nat := intToU64 ((Freq0 : Int) + wrapInt 64 (newFreq * (fstep : Int)))
  let Freq2 : Nat := if Freq1 ≤ bottomFreq then bottomFreq else Freq1
  let t1 : TunerState :=
    if splitTransmit t then
      { t with sub_VFO := Function.update t.sub_VFO t.user_Profile Freq2 }
    else
      { t with VFOA := Freq2,
               bandmem := Function.update t.bandmem t.curr_band
                 { t.bandmem t.curr_band with vfo_A_last := Freq2 } }
  let off : Int :=
    if t.xmit t.user_Profile ≠ 0 then wrapInt 64 (t.xit_offset - t.xvtr_offset)
    else wrapInt 64 (t.rit_offset - t.xvtr_offset)
  let Freq3 : Nat := intToU64 ((Freq2 : Int) + off)
  let Freq4 : Nat := intToU64 ((Freq3 : Int) + t.Fc)
  { t1 with SetFreq_calls := t1.SetFreq_calls ++ [Freq4] }

/-! ## Reference definitions for the BCD codec -/

/-- Value of the two digits of a byte, the low nibble as units and the high
nibble as tens. -/
def digitPair (b : Nat) : Nat :=
  (b &&& 0x0F) + 10 * (b >>> 4)

/-- Exact value, over the naturals, of the `n` bytes of `rxBuffer` that start at
`idx`, least significant byte first, two decimal digits per byte. -/
def bcdValue (rxBuffer : List Nat) : Nat → Nat → Nat
  | _, 0 => 0
  | idx, n + 1 => digitPair (byteAt rxBuffer idx) + 100 * bcdValue rxBuffer (idx + 1) n

/-- Largest value of `n` bytes when nibbles above 9 are allowed (each byte at most
`15 + 10 * 15`). -/
def accBound : Nat → Nat
  | 0 => 0
  | n + 1 => 165 + 100 * accBound n

/-- Reference encoder: the `N`-byte little-endian BCD encoding of `n`, byte `i`
being `16 * ((n / (10 * 100^i)) mod 10) + ((n / 100^i) mod 10)`. -/
def bcdEncode (N n : Nat) : List Nat :=
  (List.range N).map fun i => 16 * ((n / (10 * 100 ^ i)) % 10) + (n / 100 ^ i) % 10

/-- Every nibble of the byte is a decimal digit. -/
def validBcd (b : Nat) : Prop :=
  b >>> 4 ≤ 9 ∧ b &&& 0x0F ≤ 9

instance (b : Nat) : Decidable (validBcd b) := by
  unfold validBcd; infer_instance

/-- The band memory, the mode table and the decoded radio variables of `t` are
those of `s`. -/
def sameDecodedState (s t : State) : Prop :=
  t.bandmem = s.bandmem ∧ t.modeList = s.modeList ∧ t.radio_VFO = s.radio_VFO ∧
  t.radio_mode = s.radio_mode ∧ t.radio_filter = s.radio_filter ∧
  t.radio_data = s.radio_data ∧ t.radio_RIT = s.radio_RIT ∧ t.radio_DUP = s.radio_DUP ∧
  t.radio_RIT_On_Off = s.radio_RIT_On_Off ∧ t.radio_XIT_On_Off = s.radio_XIT_On_Off ∧
  t.hr_off = s.hr_off ∧ t.min_off = s.min_off ∧ t.shift_dir = s.shift_dir ∧
  t.xmit = s.xmit ∧ t.TX_last = s.TX_last ∧ t.setTime_calls = s.setTime_calls

/-- The loop of lines 268-271 carried out over the naturals, without reduction to
64 bits: the two products and every value assigned to `bstack_freq` and to `mul`,
in the order in which the loop computes them. -/
def exactTrace (rxBuffer : List Nat) : Nat → Nat → Nat → Nat → List Nat
  | 0, _, _, _ => []
  | left + 1, idx, mul, bstack_freq =>
    let p1 := (byteAt rxBuffer idx &&& 0x0f) * mul
    let f1 := bstack_freq + p1
    let mul1 := mul * 10
    let p2 := (byteAt rxBuffer idx >>> 4) * mul1
    let f2 := f1 + p2
    let mul2 := mul1 * 10
    p1 :: f1 :: mul1 :: p2 :: f2 :: mul2 :: exactTrace rxBuffer left (idx + 1) mul2 f2

/-! ## Reference definitions for the mode lookup and the switch entry -/

/-- Row `i` of the mode table carries the raw code `m` and the data flag `d`. -/
def modeMatches (modeList : Nat → Modes_List) (m d i : Nat) : Prop :=
  (modeList i).mode_num = m ∧ (modeList i).data = d

instance (modeList : Nat → Modes_List) (m d i : Nat) : Decidable (modeMatches modeList m d i) := by
  unfold modeMatches; infer_instance

/-- The pair `(m, d)` occurs in the first `n` rows of the mode table. -/
def pairOccurs (modeList : Nat → Modes_List) (n m d : Nat) : Prop :=
  ∃ i, i < n ∧ modeMatches modeList m d i

/-- Index `k` is the smallest index below `n` whose row carries the pair `(m, d)`. -/
def isFirstMode (modeList : Nat → Modes_List) (n m d k : Nat) : Prop :=
  k < n ∧ modeMatches modeList m d k ∧ ∀ j, j < k → ¬ modeMatches modeList m d j

/-- State at the `switch` of line 195 for a message that passed the test of line
180: `CIVresultL`, `freqReceived` and the static `cmd_num` have been assigned. -/
def enterSwitch (msg : CIVresult_t) (s : State) : State :=
  { s with CIVresultL := msg, freqReceived := false, cmd_num := matchCmd msg.cmd }

/-- The message is an extended-mode report: the matcher stops at `CIV_C_F26`,
`CIV_C_F26A` or `CIV_C_F26B`. -/
def isF26 (msg : CIVresult_t) : Prop :=
  msg.retVal = CIV_OK_DAV ∧
    (matchCmd msg.cmd = CIV_C_F26 ∨ matchCmd msg.cmd = CIV_C_F26A ∨
      matchCmd msg.cmd = CIV_C_F26B)

instance (msg : CIVresult_t) : Decidable (isF26 msg) := by
  unfold isF26; infer_instance

/-- The message is a band-stack report: the matcher stops at `CIV_C_BSTACK`. -/
def isBstack (msg : CIVresult_t) : Prop :=
  msg.retVal = CIV_OK_DAV ∧ matchCmd msg.cmd = CIV_C_BSTACK

instance (msg : CIVresult_t) : Decidable (isBstack msg) := by
  unfold isBstack; infer_instance

/-- Index of the mode byte of a band-stack report, `DstopIdx` of line 258. -/
def DstopIdx (B : Build) : Nat :=
  3 + F_len B

/-- No band record has the preamp and the attenuator on together. -/
def mutualExclusion (B : Build) (bandmem : Nat → Band_Memory) : Prop :=
  ∀ b, ¬ ((bandmem b).preamp = B.PREAMP_ON ∧ (bandmem b).attenuator = B.ATTN_ON)

/-- The test of line 173 for one table row, with the counter `match` at 0 when the
inner loop starts: the row is accepted when the counter reaches `cmd[0] + 1`. -/
def accepts (e : cmdList) (cmd : List Nat) : Prop :=
  matchLoop e.cmdData cmd (byteAt cmd 0 + 1) 0 0 = byteAt cmd 0 + 1

instance (e : cmdList) (cmd : List Nat) : Decidable (accepts e cmd) := by
  unfold accepts; infer_instance

/-- The matching loops of lines 159-178 run over an arbitrary table. -/
def matchIn (table : List cmdList) (cmd : List Nat) : Nat :=
  scanLoop cmd table 0 0

/-- Sign factor of a sign byte: `-1` when the byte is nonzero, `+1` when it is 0. -/
def signOf (d : Nat) : Int :=
  if d ≠ 0 then -1 else 1

/-- Signature bytes of row `n` of the command table, `cmd_List[n].cmdData`. -/
def cmdDataAt (n : Nat) : List Nat :=
  (cmd_List.getD n ⟨0, []⟩).cmdData

/-- Every mode index kept in a band record (`mode_A`, `mode_A_1`, `mode_A_2`) and
`radio_mode` are below `MODES_NUM`. -/
def modeIndicesValid (B : Build) (s : State) : Prop :=
  s.radio_mode < B.MODES_NUM ∧
    ∀ b, (s.bandmem b).mode_A < B.MODES_NUM ∧ (s.bandmem b).mode_A_1 < B.MODES_NUM ∧
      (s.bandmem b).mode_A_2 < B.MODES_NUM

/-- Successive calls of `check_CIV`, one for each message the transport delivers:
the returned message types in order and the state after the last call. -/
def runCIV (B : Build) : List CIVresult_t → State → List Nat × State
  | [], s => ([], s)
  | m :: ms, s =>
    let r := check_CIV B m s
    let rest := runCIV B ms r.2
    (r.1 :: rest.1, rest.2)

/-- The message is a TX-state report: it carries data and the body `02 1C 00`. -/
def isTxReport (msg : CIVresult_t) : Prop :=
  msg.retVal = CIV_OK_DAV ∧ msg.cmd = [0x02, 0x1C, 0x00]

instance (msg : CIVresult_t) : Decidable (isTxReport msg) := by
  unfold isTxReport; infer_instance

/-- Return codes expected for a sequence of reported TX values: 5 when the low 8
bits of a value differ from `prev`, the low 8 bits of the value before it, and 0
otherwise. -/
def txCodes (prev : Nat) : List Nat → List Nat
  | [] => []
  | v :: vs => (if v % 256 ≠ prev then 5 else 0) :: txCodes (v % 256) vs

/-- Transmit flag expected after a sequence of reported TX values: on a change of
the low 8 bits the flag becomes 1 when they are 1, 0 when they are 0, and stays as
it is for any other low 8 bits; without a change it stays as it is. -/
def txFlag (prev flag : Nat) : List Nat → Nat
  | [] => flag
  | v :: vs =>
    txFlag (v % 256)
      (if v % 256 ≠ prev then
        (if v % 256 = 1 then 1 else if v % 256 = 0 then 0 else flag)
       else flag) vs

/-! ## Sample data for the concrete instances -/

/-- A band record with every field 0. -/
def zeroBand : Band_Memory :=
  ⟨0, 0, 0, 0, 0, 0, 0, 0, 0, 0, 0, 0, 0, 0, 0, 0, 0⟩

/-- A state in which every variable is 0 and every table row is zero. -/
def zeroState : State where
  cmd_num := 0
  TX_last := 0
  freqReceived := false
  CIVresultL := ⟨0, [], [], 0⟩
  curr_band := 0
  user_Profile := 0
  radio_VFO := 0
  radio_mode := 0
  radio_filter := 0
  radio_data := 0
  radio_RIT := 0
  radio_DUP := 0
  radio_RIT_On_Off := 0
  radio_XIT_On_Off := 0
  hr_off := 0
  min_off := 0
  shift_dir := 0
  bandmem := fun _ => zeroBand
  modeList := fun _ => ⟨0, 0, "", 0⟩
  xmit := fun _ => 0
  setTime_calls := []

/-- A sample mode table of 12 rows (raw code, data flag, label, filter width); the
table of the program is defined outside the sources at hand. -/
def sampleModes : List Modes_List := [
  ⟨0x00, 0, "LSB", 2⟩, ⟨0x01, 0, "USB", 2⟩, ⟨0x02, 0, "AM", 1⟩, ⟨0x03, 0, "CW", 3⟩,
  ⟨0x04, 0, "RTTY", 2⟩, ⟨0x05, 0, "FM", 1⟩, ⟨0x07, 0, "CW-R", 3⟩, ⟨0x08, 0, "RTTY-R", 2⟩,
  ⟨0x00, 1, "LSB-D", 2⟩, ⟨0x01, 1, "USB-D", 2⟩, ⟨0x02, 1, "AM-D", 1⟩, ⟨0x05, 1, "FM-D", 1⟩]

/-- The zero state with the sample mode table and band 11 as the current band. -/
def sampleState : State :=
  { zeroState with modeList := fun i => sampleModes.getD i ⟨0, 0, "", 0⟩, curr_band := 11 }

/-- The zero state with the attenuator of every band on (code 1). -/
def attnOnState : State :=
  { zeroState with bandmem := fun _ => { zeroBand with attenuator := 1 } }

/-- The zero state with the preamp of every band on (code 1). -/
def preampOnState : State :=
  { zeroState with bandmem := fun _ => { zeroBand with preamp := 1 } }

/-- The datafield of the position and time message documented at lines 387-389 of
`CIV.cpp`: the length, the sub command `00`, then latitude, longitude, altitude,
course, speed, year `20 24`, month `07`, day `20` and time `23 32 45`. -/
def gpsSample : List Nat :=
  [28, 0x00, 0x47, 0x46, 0x92, 0x50, 0x01, 0x01, 0x22, 0x01, 0x98, 0x70, 0x00,
   0x00, 0x15, 0x59, 0x00, 0x01, 0x05, 0x00, 0x00, 0x07, 0x20, 0x24, 0x07, 0x20,
   0x23, 0x32, 0x45]

/-- A tuner state outside split and transmit with the given `VFOA`, every row of
the step table at `step`, and all offsets 0. -/
def tunerSample (VFOA step : Nat) : TunerState where
  curr_band := 0
  user_Profile := 0
  VFOA := VFOA
  bandmem := fun _ => zeroBand
  xmit := fun _ => 0
  sub_VFO := fun _ => 0
  tstep := fun _ => step
  rit_offset := 0
  xit_offset := 0
  xvtr_offset := 0
  Fc := 0
  SetFreq_calls := []

/-! ## Auxiliary facts: bytes and bit operations -/

theorem shr4_eq (b : Nat) : b >>> 4 = b / 16 := by
  rw [Nat.shiftRight_eq_div_pow]

theorem and15_eq (b : Nat) : b &&& 0x0F = b % 16 := by
  have h := Nat.and_pow_two_sub_one_eq_mod b 4
  simpa using h

theorem bcdByte_eq_div_mod (b : Nat) (hb : b < 256) : bcdByte b = b / 16 * 10 + b % 16 := by
  unfold bcdByte
  rw [Nat.mod_eq_of_lt hb, shr4_eq, and15_eq]

/-! ## Auxiliary facts: the matcher -/

theorem toU8_lt (x : Nat) : toU8 x < 256 := Nat.mod_lt _ (by decide)

theorem byteAt_lt (a : List Nat) (i : Nat) : byteAt a i < 256 := Nat.mod_lt _ (by decide)

/-- The inner loop returns 0 at the first differing byte and otherwise the
counter advanced by the number of iterations, reduced to eight bits. -/
theorem matchLoop_eq (cmdData cmd : List Nat) :
    ∀ (left i m : Nat), m < 256 →
      matchLoop cmdData cmd left i m =
        if ∀ k, k < left → byteAt cmdData (i + k) = byteAt cmd (i + k)
        then (m + left) % 256 else 0 := by
  intro left
  induction left with
  | zero =>
    intro i m hm
    simp [matchLoop, Nat.mod_eq_of_lt hm]
  | succ n ih =>
    intro i m hm
    unfold matchLoop
    by_cases h0 : byteAt cmdData i = byteAt cmd i
    · rw [if_neg (not_not.mpr h0), ih (i + 1) (toU8 (m + 1)) (toU8_lt _)]
      have hiff : (∀ k, k < n → byteAt cmdData (i + 1 + k) = byteAt cmd (i + 1 + k)) ↔
          (∀ k, k < n + 1 → byteAt cmdData (i + k) = byteAt cmd (i + k)) := by
        constructor
        · intro h k hk
          cases k with
          | zero => simpa using h0
          | succ j =>
            have := h j (by omega)
            rwa [show i + 1 + j = i + (j + 1) by omega] at this
        · intro h k hk
          have := h (k + 1) (by omega)
          rwa [show i + (k + 1) = i + 1 + k by omega] at this
      by_cases hall : ∀ k, k < n + 1 → byteAt cmdData (i + k) = byteAt cmd (i + k)
      · rw [if_pos (hiff.mpr hall), if_pos hall]
        unfold toU8
        omega
      · rw [if_neg (fun h => hall (hiff.mp h)), if_neg hall]
    · rw [if_pos h0, if_neg]
      intro h
      exact h0 (by simpa using h 0 (by omega))

/-- Acceptance test of one table row, as the outer loop performs it with the
counter at 0. -/
theorem accept_iff (e : cmdList) (cmd : List Nat) :
    matchLoop e.cmdData cmd (byteAt cmd 0 + 1) 0 0 = byteAt cmd 0 + 1 ↔
      byteAt cmd 0 < 255 ∧ sigMatches e cmd := by
  rw [matchLoop_eq _ _ _ _ _ (by decide)]
  have hlen := byteAt_lt cmd 0
  have hsig : sigMatches e cmd ↔
      ∀ k, k < byteAt cmd 0 + 1 → byteAt e.cmdData (0 + k) = byteAt cmd (0 + k) := by
    unfold sigMatches
    constructor
    · rintro ⟨h0, h⟩ k hk
      cases k with
      | zero => simpa using h0
      | succ j =>
        have := h j (by omega)
        simpa using this
    · intro h
      have h0 : byteAt e.cmdData 0 = byteAt cmd 0 := by simpa using h 0 (by omega)
      refine ⟨h0, fun i hi => ?_⟩
      have := h (i + 1) (by omega)
      simpa using this
  by_cases hs : sigMatches e cmd
  · rw [if_pos (hsig.mp hs)]
    constructor
    · intro h
      refine ⟨?_, hs⟩
      omega
    · rintro ⟨h, _⟩
      omega
  · rw [if_neg (fun h => hs (hsig.mpr h))]
    constructor
    · intro h; omega
    · rintro ⟨_, h⟩; exact absurd h hs

/-- A row that is not accepted leaves the counter at 0. -/
theorem reject_zero (e : cmdList) (cmd : List Nat)
    (h : matchLoop e.cmdData cmd (byteAt cmd 0 + 1) 0 0 ≠ byteAt cmd 0 + 1) :
    matchLoop e.cmdData cmd (byteAt cmd 0 + 1) 0 0 = 0 := by
  rw [matchLoop_eq _ _ _ _ _ (by decide)] at h ⊢
  have hlen := byteAt_lt cmd 0
  split
  · rename_i hall
    rw [if_pos hall] at h
    omega
  · rfl

/-- Result of the outer loop on a table whose length bytes are below 255: either
it stops at the first row that agrees with the body, or no row agrees and it runs
to the end. -/
theorem scanLoop_spec (cmd : List Nat) :
    ∀ (t : List cmdList) (n : Nat), (∀ e ∈ t, byteAt e.cmdData 0 < 255) →
      (∃ k e, scanLoop cmd t n 0 = n + k ∧ t[k]? = some e ∧ sigMatches e cmd ∧
          ∀ j e1, j < k → t[j]? = some e1 → ¬ sigMatches e1 cmd) ∨
      (scanLoop cmd t n 0 = n + t.length ∧ ∀ e ∈ t, ¬ sigMatches e cmd) := by
  intro t
  induction t with
  | nil =>
    intro n _
    right
    simp [scanLoop]
  | cons e rest ih =>
    intro n hlen
    have hlen_e : byteAt e.cmdData 0 < 255 := hlen e (List.mem_cons_self _ _)
    have hrest : ∀ e1 ∈ rest, byteAt e1.cmdData 0 < 255 :=
      fun e1 h1 => hlen e1 (List.mem_cons_of_mem _ h1)
    by_cases hacc : matchLoop e.cmdData cmd (byteAt cmd 0 + 1) 0 0 = byteAt cmd 0 + 1
    · left
      refine ⟨0, e, ?_, by simp, ((accept_iff e cmd).mp hacc).2, ?_⟩
      · simp [scanLoop, hacc]
      · intro j e1 hj; omega
    · have hz := reject_zero e cmd hacc
      have hns : ¬ sigMatches e cmd := by
        intro hs
        apply hacc
        rw [accept_iff]
        refine ⟨?_, hs⟩
        rw [← hs.1]; exact hlen_e
      have hstep : scanLoop cmd (e :: rest) n 0 = scanLoop cmd rest (n + 1) 0 := by
        simp only [scanLoop]
        rw [if_neg hacc, hz]
      rcases ih (n + 1) hrest with ⟨k, e1, hk, hget, hsig, hfirst⟩ | ⟨hend, hnone⟩
      · left
        refine ⟨k + 1, e1, ?_, by simpa using hget, hsig, ?_⟩
        · rw [hstep, hk]; omega
        · intro j e2 hj hget2
          cases j with
          | zero =>
            simp at hget2
            subst hget2
            exact hns
          | succ j1 =>
            simp at hget2
            exact hfirst j1 e2 (by omega) hget2
      · right
        refine ⟨?_, ?_⟩
        · rw [hstep, hend]; simp; omega
        · intro e1 h1
          rcases List.mem_cons.mp h1 with rfl | h2
          · exact hns
          · exact hnone e1 h2

theorem cmd_List_lengths : ∀ e ∈ cmd_List, byteAt e.cmdData 0 < 255 := by decide

/-! ## Auxiliary facts: `check_CIV` -/

theorem cmd_List_length : cmd_List.length = End_of_Cmd_List := by decide

theorem matchCmd_of_no_match (cmd : List Nat) (h : ∀ e ∈ cmd_List, ¬ sigMatches e cmd) :
    matchCmd cmd = End_of_Cmd_List := by
  unfold matchCmd
  rcases scanLoop_spec cmd cmd_List CIV_C_F_SEND cmd_List_lengths with
    ⟨k, e, _, hget, hsig, _⟩ | ⟨hend, _⟩
  · exact absurd hsig (h e (List.getElem?_mem hget))
  · rw [hend, cmd_List_length]; simp [CIV_C_F_SEND]

theorem check_CIV_not_dav (B : Build) (msg : CIVresult_t) (s : State)
    (h : msg.retVal ≠ CIV_OK_DAV) :
    check_CIV B msg s = (0, { s with CIVresultL := msg, freqReceived := false }) := by
  unfold check_CIV
  simp only [if_neg h]
  split <;> rfl

theorem check_CIV_exit (B : Build) (msg : CIVresult_t) (s : State)
    (h : msg.retVal = CIV_OK_DAV) (hm : matchCmd msg.cmd ≥ End_of_Cmd_List - 1) :
    check_CIV B msg s =
      (0, { s with CIVresultL := msg, freqReceived := false,
                   cmd_num := matchCmd msg.cmd - 1 }) := by
  unfold check_CIV
  have h1 : msg.retVal ≤ CIV_NOK := by rw [h]; decide
  simp only [if_pos h1, if_pos h, if_pos hm]

theorem check_CIV_dispatch (B : Build) (msg : CIVresult_t) (s : State)
    (h : msg.retVal = CIV_OK_DAV) (hm : ¬ matchCmd msg.cmd ≥ End_of_Cmd_List - 1) :
    check_CIV B msg s =
      dispatch B msg (matchCmd msg.cmd)
        { s with CIVresultL := msg, freqReceived := false, cmd_num := matchCmd msg.cmd } := by
  unfold check_CIV
  have h1 : msg.retVal ≤ CIV_NOK := by rw [h]; decide
  simp only [if_pos h1, if_pos h, if_neg hm]

theorem caseFreq_fst (msg : CIVresult_t) (s : State) : (caseFreq msg s).1 = 1 := rfl

theorem caseMode_fst (B : Build) (msg : CIVresult_t) (s : State) : (caseMode B msg s).1 = 2 := rfl

theorem caseBstack_fst (B : Build) (msg : CIVresult_t) (s : State) :
    (caseBstack B msg s).1 = 3 := rfl

theorem caseF26_fst (B : Build) (msg : CIVresult_t) (s : State) : (caseF26 B msg s).1 = 4 := rfl

theorem caseTX_fst (msg : CIVresult_t) (s : State) :
    (caseTX msg s).1 = 5 ∨ (caseTX msg s).1 = 0 := by
  by_cases h : toU8 msg.value ≠ s.TX_last
  · left; simp only [caseTX, if_pos h]
  · right; simp only [caseTX, if_neg h]

theorem casePosit_fst (B : Build) (msg : CIVresult_t) (s : State) :
    (casePosit B msg s).1 = 6 := rfl

theorem caseUTC_fst (msg : CIVresult_t) (s : State) : (caseUTC msg s).1 = 7 := rfl

theorem casePreamp_fst (B : Build) (msg : CIVresult_t) (s : State) :
    (casePreamp B msg s).1 = 8 := rfl

theorem caseSplit_fst (msg : CIVresult_t) (s : State) : (caseSplit msg s).1 = 0 := rfl

theorem caseAttn_fst (B : Build) (msg : CIVresult_t) (s : State) : (caseAttn B msg s).1 = 9 := rfl

theorem caseAgc_fst (B : Build) (msg : CIVresult_t) (s : State) : (caseAgc B msg s).1 = 10 := rfl

theorem caseDuplex_fst (msg : CIVresult_t) (s : State) : (caseDuplex msg s).1 = 11 := rfl

theorem caseRit_fst (msg : CIVresult_t) (s : State) : (caseRit msg s).1 = 12 := rfl

theorem caseRitOnOff_fst (msg : CIVresult_t) (s : State) : (caseRitOnOff msg s).1 = 13 := rfl

theorem caseXitOnOff_fst (msg : CIVresult_t) (s : State) : (caseXitOnOff msg s).1 = 14 := rfl

theorem ite_fst_le {c : Prop} [Decidable c] {a b : Nat × State} (ha : a.1 ≤ 14)
    (hb : b.1 ≤ 14) : (if c then a else b).1 ≤ 14 := by
  by_cases h : c
  · rw [if_pos h]; exact ha
  · rw [if_neg h]; exact hb

theorem dispatch_fst_le (B : Build) (msg : CIVresult_t) (n : Nat) (s : State) :
    (dispatch B msg n s).1 ≤ 14 := by
  have h0 : (caseFreq msg s).1 ≤ 14 := le_of_eq_of_le (caseFreq_fst _ _) (by decide)
  have h1 : (caseMode B msg s).1 ≤ 14 := le_of_eq_of_le (caseMode_fst _ _ _) (by decide)
  have h2 : (caseBstack B msg s).1 ≤ 14 := le_of_eq_of_le (caseBstack_fst _ _ _) (by decide)
  have h3 : (caseF26 B msg s).1 ≤ 14 := le_of_eq_of_le (caseF26_fst _ _ _) (by decide)
  have h4 : (caseTX msg s).1 ≤ 14 := by
    rcases caseTX_fst msg s with h | h <;> omega
  have h5 : (casePosit B msg s).1 ≤ 14 := le_of_eq_of_le (casePosit_fst _ _ _) (by decide)
  have h6 : (caseUTC msg s).1 ≤ 14 := le_of_eq_of_le (caseUTC_fst _ _) (by decide)
  have h7 : (casePreamp B msg s).1 ≤ 14 := le_of_eq_of_le (casePreamp_fst _ _ _) (by decide)
  have h8 : (caseSplit msg s).1 ≤ 14 := le_of_eq_of_le (caseSplit_fst _ _) (by decide)
  have h9 : (caseAttn B msg s).1 ≤ 14 := le_of_eq_of_le (caseAttn_fst _ _ _) (by decide)
  have h10 : (caseAgc B msg s).1 ≤ 14 := le_of_eq_of_le (caseAgc_fst _ _ _) (by decide)
  have h11 : (caseDuplex msg s).1 ≤ 14 := le_of_eq_of_le (caseDuplex_fst _ _) (by decide)
  have h12 : (caseRit msg s).1 ≤ 14 := le_of_eq_of_le (caseRit_fst _ _) (by decide)
  have h13 : (caseRitOnOff msg s).1 ≤ 14 := le_of_eq_of_le (caseRitOnOff_fst _ _) (by decide)
  have h14 : (caseXitOnOff msg s).1 ≤ 14 := le_of_eq_of_le (caseXitOnOff_fst _ _) (by decide)
  unfold dispatch
  exact ite_fst_le h0 (ite_fst_le h1 (ite_fst_le h2 (ite_fst_le h3 (ite_fst_le h4 (ite_fst_le h5 (ite_fst_le h6 (ite_fst_le h7 (ite_fst_le h8 (ite_fst_le h9 (ite_fst_le h10 (ite_fst_le h11 (ite_fst_le h12 (ite_fst_le h13 (ite_fst_le h14 (Nat.zero_le _)))))))))))))))

/-- Exact condition of the exit of line 180: no row agrees with the body, or the
loop stopped at the last row. -/
theorem noMatchExit_iff (cmd : List Nat) :
    noMatchExit cmd ↔ (∀ e ∈ cmd_List, ¬ sigMatches e cmd) ∨ matchCmd cmd = CIV_C_RADIO_ON := by
  unfold noMatchExit
  constructor
  · intro h
    rcases scanLoop_spec cmd cmd_List CIV_C_F_SEND cmd_List_lengths with
      ⟨k, e, hk, hget, _, _⟩ | ⟨_, hnone⟩
    · right
      have hlt : k < cmd_List.length := by
        by_contra hge
        rw [List.getElem?_eq_none (by omega)] at hget
        exact absurd hget (by simp)
      rw [cmd_List_length] at hlt
      unfold matchCmd at h ⊢
      rw [hk] at h ⊢
      simp only [CIV_C_F_SEND, End_of_Cmd_List, CIV_C_RADIO_ON] at *
      omega
    · left; exact hnone
  · rintro (h | h)
    · rw [matchCmd_of_no_match cmd h]; decide
    · rw [h]; decide

/-! ## Properties of the matcher and of the result code (C1 to C5) -/

/-- C1. Whenever the matching loops of `check_CIV` stop at a row (the loop is left
with `cmd_num` below `End_of_Cmd_List`), that row agrees with the body in the
length byte and in every payload byte, and no earlier row of `cmd_List` does. -/
theorem matchCmd_is_first_full_match (cmd : List Nat) (h : matchCmd cmd < End_of_Cmd_List) :
    ∃ e, cmd_List[matchCmd cmd]? = some e ∧ sigMatches e cmd ∧
      ∀ j e1, j < matchCmd cmd → cmd_List[j]? = some e1 → ¬ sigMatches e1 cmd := by
  rcases scanLoop_spec cmd cmd_List CIV_C_F_SEND cmd_List_lengths with
    ⟨k, e, hk, hget, hsig, hfirst⟩ | ⟨hend, _⟩
  · have hk0 : matchCmd cmd = k := by
      unfold matchCmd; rw [hk]; simp [CIV_C_F_SEND]
    rw [hk0]
    exact ⟨e, hget, hsig, hfirst⟩
  · exfalso
    unfold matchCmd at h
    rw [hend, cmd_List_length] at h
    simp [CIV_C_F_SEND] at h

/-- Instance of C1 at the attenuator-on body `02 11 10`. -/
theorem matchCmd_is_first_full_match_witness :
    matchCmd [0x02, 0x11, 0x10] < End_of_Cmd_List ∧
    ∃ e, cmd_List[matchCmd [0x02, 0x11, 0x10]]? = some e ∧ sigMatches e [0x02, 0x11, 0x10] ∧
      ∀ j e1, j < matchCmd [0x02, 0x11, 0x10] → cmd_List[j]? = some e1 →
        ¬ sigMatches e1 [0x02, 0x11, 0x10] :=
  ⟨by decide, matchCmd_is_first_full_match [0x02, 0x11, 0x10] (by decide)⟩

/-- C2 (evaluation at the failing input). The body `02 18 01` agrees with the row
`CIV_C_RADIO_ON` of `cmd_List`, yet `check_CIV` takes the exit of line 180 for
it: it returns 0 with `cmd_num` decremented to 54 and never reaches the switch. -/
theorem radio_on_body_takes_no_match_exit (B : Build) (s : State) (df : List Nat) (v : Nat) :
    (∃ e ∈ cmd_List, sigMatches e [0x02, 0x18, 0x01]) ∧
    noMatchExit [0x02, 0x18, 0x01] ∧
    check_CIV B ⟨CIV_OK_DAV, [0x02, 0x18, 0x01], df, v⟩ s =
      (0, { s with CIVresultL := ⟨CIV_OK_DAV, [0x02, 0x18, 0x01], df, v⟩,
                   freqReceived := false, cmd_num := 54 }) := by
  refine ⟨⟨⟨CIV_C_RADIO_ON, [2, 0x18, 0x01]⟩, by decide, by decide⟩, by decide, ?_⟩
  have hm : matchCmd [0x02, 0x18, 0x01] ≥ End_of_Cmd_List - 1 := by decide
  rw [check_CIV_exit B _ s rfl hm]
  rfl

/-- C3. A body that agrees with no row of `cmd_List` makes `check_CIV` return 0 and
leaves the band memory, the mode table and the decoded radio variables (the
frequency, mode, filter, data, RIT, duplex, RIT and XIT flags, the UTC offset and
`xmit`) as they were, whatever the return status, datafield and value. -/
theorem no_match_returns_zero_and_keeps_state (B : Build) (msg : CIVresult_t) (s : State)
    (h : ∀ e ∈ cmd_List, ¬ sigMatches e msg.cmd) :
    (check_CIV B msg s).1 = 0 ∧ sameDecodedState s (check_CIV B msg s).2 := by
  by_cases hd : msg.retVal = CIV_OK_DAV
  · have hm : matchCmd msg.cmd ≥ End_of_Cmd_List - 1 := by
      rw [matchCmd_of_no_match msg.cmd h]; decide
    rw [check_CIV_exit B msg s hd hm]
    exact ⟨rfl, rfl, rfl, rfl, rfl, rfl, rfl, rfl, rfl, rfl, rfl, rfl, rfl, rfl, rfl, rfl, rfl⟩
  · rw [check_CIV_not_dav B msg s hd]
    exact ⟨rfl, rfl, rfl, rfl, rfl, rfl, rfl, rfl, rfl, rfl, rfl, rfl, rfl, rfl, rfl, rfl, rfl⟩

/-- Instance of C3 at the body `01 7F`, which no row of the table carries. -/
theorem no_match_returns_zero_and_keeps_state_witness :
    (∀ e ∈ cmd_List, ¬ sigMatches e [0x01, 0x7F]) ∧
    (check_CIV defaultBuild ⟨CIV_OK_DAV, [0x01, 0x7F], [0x12, 0x34], 5⟩ zeroState).1 = 0 ∧
    sameDecodedState zeroState
      (check_CIV defaultBuild ⟨CIV_OK_DAV, [0x01, 0x7F], [0x12, 0x34], 5⟩ zeroState).2 :=
  ⟨by decide,
    no_match_returns_zero_and_keeps_state defaultBuild
      ⟨CIV_OK_DAV, [0x01, 0x7F], [0x12, 0x34], 5⟩ zeroState (by decide)⟩

/-- C4. For every transport result and every prior state the value returned by
`check_CIV` is at most 14 (and, being unsigned, at least 0). -/
theorem check_CIV_msg_type_le_14 (B : Build) (msg : CIVresult_t) (s : State) :
    (check_CIV B msg s).1 ≤ 14 := by
  by_cases hd : msg.retVal = CIV_OK_DAV
  · by_cases hm : matchCmd msg.cmd ≥ End_of_Cmd_List - 1
    · rw [check_CIV_exit B msg s hd hm]; exact Nat.zero_le _
    · rw [check_CIV_dispatch B msg s hd hm]; exact dispatch_fst_le _ _ _ _
  · rw [check_CIV_not_dav B msg s hd]; exact Nat.zero_le _

/-- The split report `01 0F` with value 1 returns 0 and stores `split = 1` in the
record of the current band, from any prior state. -/
theorem split_read_sets_split (B : Build) (s : State) (df : List Nat) :
    (check_CIV B ⟨CIV_OK_DAV, [0x01, 0x0F], df, 1⟩ s).1 = 0 ∧
    ((check_CIV B ⟨CIV_OK_DAV, [0x01, 0x0F], df, 1⟩ s).2.bandmem s.curr_band).split = 1 := by
  have hm : ¬ matchCmd [0x01, 0x0F] ≥ End_of_Cmd_List - 1 := by decide
  rw [check_CIV_dispatch B _ s rfl hm]
  have h22 : matchCmd [0x01, 0x0F] = CIV_C_SPLIT_READ := by decide
  simp only [h22]
  refine ⟨rfl, ?_⟩
  show ((caseSplit _ _).2.bandmem s.curr_band).split = 1
  simp [caseSplit, toU8, State.setBand]

/-- C5 (evaluation at the failing input). From the state in which every field is
0, the split report `01 0F` with value 1 makes `check_CIV` return 0 although the
call changed the band memory: `split` of the current band went from 0 to 1. -/
theorem split_read_returns_zero_but_changes_bandmem :
    (check_CIV defaultBuild ⟨CIV_OK_DAV, [0x01, 0x0F], [], 1⟩ zeroState).1 = 0 ∧
    (zeroState.bandmem zeroState.curr_band).split = 0 ∧
    ((check_CIV defaultBuild ⟨CIV_OK_DAV, [0x01, 0x0F], [], 1⟩ zeroState).2.bandmem
      zeroState.curr_band).split = 1 ∧
    (check_CIV defaultBuild ⟨CIV_OK_DAV, [0x01, 0x0F], [], 1⟩ zeroState).2.bandmem ≠
      zeroState.bandmem := by
  have h := split_read_sets_split defaultBuild zeroState []
  refine ⟨h.1, rfl, h.2, ?_⟩
  intro heq
  have h2 := h.2
  rw [heq] at h2
  exact absurd h2 (by decide)

/-! ## Auxiliary facts: the frequency decode loop -/

theorem toU64_of_lt {x : Nat} (h : x < 2 ^ 64) : toU64 x = x := Nat.mod_eq_of_lt h

theorem digitPair_le (b : Nat) (hb : b < 256) : digitPair b ≤ 165 := by
  unfold digitPair
  rw [shr4_eq, and15_eq]
  omega

theorem bcdValue_le (rx : List Nat) : ∀ (n idx : Nat), bcdValue rx idx n ≤ accBound n := by
  intro n
  induction n with
  | zero => intro idx; simp [bcdValue, accBound]
  | succ k ih =>
    intro idx
    simp only [bcdValue, accBound]
    have h1 := digitPair_le (byteAt rx idx) (byteAt_lt rx idx)
    have h2 := ih (idx + 1)
    omega

/-- As long as the largest reachable value fits 64 bits, the loop of lines 268-271
computes the exact value of the bytes, scaled by the entry multiplier and added to
the entry accumulator. -/
theorem bstackFreqLoop_eq (rx : List Nat) :
    ∀ (n idx mul f : Nat), f + mul * accBound n < 2 ^ 64 →
      bstackFreqLoop rx n idx mul f = f + mul * bcdValue rx idx n := by
  intro n
  induction n with
  | zero => intro idx mul f _; simp [bstackFreqLoop, bcdValue]
  | succ k ih =>
    intro idx mul f h
    simp only [accBound] at h
    have hb := byteAt_lt rx idx
    have hlo : byteAt rx idx &&& 0x0f ≤ 15 := by rw [and15_eq]; omega
    have hhi : byteAt rx idx >>> 4 ≤ 15 := by rw [shr4_eq]; omega
    have hP := bcdValue_le rx k (idx + 1)
    generalize hA : accBound k = A at h hP
    generalize hPv : bcdValue rx (idx + 1) k = P at hP
    have hMA : mul * (165 + 100 * A) = 165 * mul + 100 * (mul * A) := by ring
    have hMP : mul * P ≤ mul * A := Nat.mul_le_mul_left _ hP
    have h1 : (byteAt rx idx &&& 0x0f) * mul ≤ 15 * mul := Nat.mul_le_mul_right _ hlo
    have h2 : (byteAt rx idx >>> 4) * mul ≤ 15 * mul := Nat.mul_le_mul_right _ hhi
    have e1 : toU64 ((byteAt rx idx &&& 0x0f) * mul) = (byteAt rx idx &&& 0x0f) * mul :=
      toU64_of_lt (by omega)
    have e3 : toU64 (mul * 10) = mul * 10 := toU64_of_lt (by omega)
    have e4 : (byteAt rx idx >>> 4) * (mul * 10) = 10 * ((byteAt rx idx >>> 4) * mul) := by ring
    have e6 : toU64 (mul * 10 * 10) = mul * 10 * 10 := toU64_of_lt (by omega)
    simp only [bstackFreqLoop, bcdValue, digitPair, e1, e3]
    rw [toU64_of_lt (by omega : f + (byteAt rx idx &&& 0x0f) * mul < 2 ^ 64)]
    rw [toU64_of_lt (by omega : (byteAt rx idx >>> 4) * (mul * 10) < 2 ^ 64)]
    rw [toU64_of_lt (by omega :
      f + (byteAt rx idx &&& 0x0f) * mul + (byteAt rx idx >>> 4) * (mul * 10) < 2 ^ 64)]
    rw [e6, ih (idx + 1) (mul * 10 * 10) _ (by rw [hA]; have : mul * 10 * 10 * A = 100 * (mul * A) := by ring
                                               omega)]
    rw [hPv]
    ring

theorem accBound_lt (N : Nat) (h : N ≤ 9) : accBound N < 2 ^ 64 := by
  interval_cases N <;> simp [accBound]

theorem decodeFreq_eq_bcdValue (rx : List Nat) (N : Nat) (h : N ≤ 9) :
    decodeFreq rx N = bcdValue rx 0 N := by
  unfold decodeFreq
  rw [bstackFreqLoop_eq rx N 0 1 0 (by have := accBound_lt N h; omega)]
  omega

theorem bcdValue_eq_sum (rx : List Nat) :
    ∀ (n idx : Nat),
      bcdValue rx idx n = ∑ i ∈ Finset.range n, digitPair (byteAt rx (idx + i)) * 100 ^ i := by
  intro n
  induction n with
  | zero => intro idx; simp [bcdValue]
  | succ k ih =>
    intro idx
    rw [Finset.sum_range_succ', bcdValue, ih (idx + 1), Finset.mul_sum]
    simp only [pow_zero, mul_one, Nat.add_zero]
    rw [Nat.add_comm]
    congr 1
    apply Finset.sum_congr rfl
    intro i _
    rw [show idx + 1 + i = idx + (i + 1) by omega, pow_succ]
    ring

theorem byteAt_map_range (g : Nat → Nat) (n i : Nat) (hi : i < n) :
    byteAt ((List.range n).map g) i = g i % 256 := by
  unfold byteAt
  simp [List.getD_eq_getElem?_getD, List.getElem?_map, List.getElem?_range hi]

theorem byteAt_copyFreqBytes (df : List Nat) (start n i : Nat) (hi : i < n) :
    byteAt (copyFreqBytes df start n) i = byteAt df (start + i) := by
  unfold copyFreqBytes
  rw [byteAt_map_range _ _ _ hi]
  exact Nat.mod_eq_of_lt (byteAt_lt _ _)

theorem byteAt_bcdEncode (N n i : Nat) (hi : i < N) :
    byteAt (bcdEncode N n) i = 16 * ((n / (10 * 100 ^ i)) % 10) + (n / 100 ^ i) % 10 := by
  unfold bcdEncode
  rw [byteAt_map_range _ _ _ hi]
  apply Nat.mod_eq_of_lt
  omega

theorem digitPair_encoded (y : Nat) :
    digitPair (16 * ((y / 10) % 10) + y % 10) = y % 100 := by
  unfold digitPair
  rw [shr4_eq, and15_eq]
  omega

theorem div_ten_mul (n i : Nat) : n / (10 * 100 ^ i) = n / 100 ^ i / 10 := by
  rw [Nat.div_div_eq_div_mul, Nat.mul_comm]

/-- Value of a run of bytes of the reference encoding of `n`. -/
theorem bcdValue_bcdEncode (N n : Nat) :
    ∀ (k idx : Nat), idx + k ≤ N →
      bcdValue (bcdEncode N n) idx k = (n / 100 ^ idx) % 100 ^ k := by
  intro k
  induction k with
  | zero => intro idx _; simp [bcdValue, Nat.mod_one]
  | succ j ih =>
    intro idx h
    rw [bcdValue, ih (idx + 1) (by omega), byteAt_bcdEncode N n idx (by omega), div_ten_mul,
      digitPair_encoded, pow_succ 100 idx, ← Nat.div_div_eq_div_mul, pow_succ 100 j,
      Nat.mul_comm (100 ^ j) 100, Nat.mod_mul]

/-- Digit extraction from the value of a run of bytes whose digit pairs are all
below 100. -/
theorem bcdValue_div_mod (rx : List Nat) (hv : ∀ j, digitPair (byteAt rx j) < 100) :
    ∀ (k idx i : Nat), i < k →
      (bcdValue rx idx k / 100 ^ i) % 100 = digitPair (byteAt rx (idx + i)) := by
  intro k
  induction k with
  | zero => intro idx i hi; omega
  | succ j ih =>
    intro idx i hi
    have hd := hv idx
    cases i with
    | zero =>
      simp only [bcdValue, pow_zero, Nat.div_one, Nat.add_zero]
      omega
    | succ i1 =>
      have hstep : bcdValue rx idx (j + 1) / 100 ^ (i1 + 1) =
          bcdValue rx (idx + 1) j / 100 ^ i1 := by
        rw [pow_succ, Nat.mul_comm, ← Nat.div_div_eq_div_mul, bcdValue]
        congr 1
        omega
      rw [hstep, ih (idx + 1) i1 (by omega)]
      congr 2
      omega

theorem validBcd_byteAt (x : List Nat) (hx : ∀ b ∈ x, validBcd b) (j : Nat) :
    validBcd (byteAt x j) ∧ (j < x.length → byteAt x j = x.getD j 0) := by
  unfold byteAt
  by_cases hj : j < x.length
  · have hmem : x.getD j 0 ∈ x := by
      rw [List.getD_eq_getElem _ _ hj]; exact List.getElem_mem hj
    have hval := hx _ hmem
    have hlt : x.getD j 0 < 256 := by
      have := hval.1
      rw [shr4_eq] at this
      omega
    rw [Nat.mod_eq_of_lt hlt]
    exact ⟨hval, fun _ => rfl⟩
  · rw [List.getD_eq_default _ _ (by omega)]
    exact ⟨by decide, fun h => absurd h hj⟩

theorem F_len_cases (B : Build) : F_len B = 5 ∨ F_len B = 6 := by
  unfold F_len
  split
  · right; rfl
  · left; rfl

theorem bstack_freq_eq_bcdValue (B : Build) (datafield : List Nat) :
    bstack_freq B datafield = bcdValue (copyFreqBytes datafield 3 (F_len B)) 0 (F_len B) := by
  have hF : F_len B ≤ 9 := by rcases F_len_cases B with h | h <;> omega
  unfold bstack_freq
  exact decodeFreq_eq_bcdValue _ _ hF

/-- The value of a run of bytes depends on the bytes of the run only. -/
theorem bcdValue_congr (a b : List Nat) (n ia ib : Nat)
    (h : ∀ i, i < n → byteAt a (ia + i) = byteAt b (ib + i)) :
    bcdValue a ia n = bcdValue b ib n := by
  rw [bcdValue_eq_sum, bcdValue_eq_sum]
  apply Finset.sum_congr rfl
  intro i hi
  rw [h i (Finset.mem_range.mp hi)]

/-- Byte `3 + i` of a datafield made of three leading bytes, the bytes `x` and a
rest is byte `i` of `x`. -/
theorem byteAt_framed (h0 h1 h2 : Nat) (x rest : List Nat) (i : Nat) (hi : i < x.length) :
    byteAt ([h0, h1, h2] ++ x ++ rest) (3 + i) = byteAt x i := by
  unfold byteAt
  rw [show 3 + i = i + 1 + 1 + 1 by omega]
  simp [List.getD_eq_getElem?_getD, List.getElem?_append_left hi]

/-- The frequency of a band-stack datafield whose frequency bytes are `x`. -/
theorem bstack_freq_framed (B : Build) (h0 h1 h2 : Nat) (x rest : List Nat)
    (hx : x.length = F_len B) :
    bstack_freq B ([h0, h1, h2] ++ x ++ rest) = decodeFreq x (F_len B) := by
  have hF : F_len B ≤ 9 := by rcases F_len_cases B with h | h <;> omega
  rw [bstack_freq_eq_bcdValue, decodeFreq_eq_bcdValue _ _ hF]
  apply bcdValue_congr
  intro i hi
  rw [Nat.zero_add, byteAt_copyFreqBytes _ _ _ _ hi, byteAt_framed _ _ _ _ _ _ (by omega)]

/-- The decode loop on the reference encoding, for any byte count up to 9. -/
theorem decodeFreq_bcdEncode (N n : Nat) (hN : N ≤ 9) (hn : n < 100 ^ N) :
    decodeFreq (bcdEncode N n) N = n := by
  rw [decodeFreq_eq_bcdValue _ _ hN, bcdValue_bcdEncode N n N 0 (by omega)]
  simpa using Nat.mod_eq_of_lt hn

/-- The reference encoding of the decoded value of at most 9 valid bytes. -/
theorem bcdEncode_decodeFreq (x : List Nat) (hN : x.length ≤ 9)
    (hx : ∀ b ∈ x, validBcd b) :
    bcdEncode x.length (decodeFreq x x.length) = x := by
  rw [decodeFreq_eq_bcdValue _ _ hN]
  have hv : ∀ j, digitPair (byteAt x j) < 100 := by
    intro j
    have h := (validBcd_byteAt x hx j).1
    unfold validBcd at h
    unfold digitPair
    omega
  apply List.ext_getElem
  · simp [bcdEncode]
  · intro i h1 h2
    have hd := bcdValue_div_mod x hv x.length 0 i h2
    have hb := validBcd_byteAt x hx i
    have hget : byteAt x i = x[i] := by
      rw [hb.2 h2, List.getD_eq_getElem _ _ h2]
    have hval := hb.1
    rw [Nat.zero_add, hget] at hd
    rw [hget] at hval
    unfold validBcd at hval
    unfold digitPair at hd
    rw [shr4_eq, and15_eq] at hd hval
    simp only [bcdEncode, List.getElem_map, List.getElem_range]
    rw [div_ten_mul]
    omega

theorem bcdEncode_length (N n : Nat) : (bcdEncode N n).length = N := by
  simp [bcdEncode]

/-! ## Properties of the BCD codec (C6 to C10) -/

/-- C6. For every band-stack report the decoded frequency `bstack_freq` is the sum
over `i < F_len` of `((d_i & 0x0F) + 10 * (d_i >> 4)) * 100 ^ i` with
`d_i = datafield[3 + i]`, where `F_len` is 6 when `CIV_ADDR` is the IC-905 address
and 5 otherwise; the 64-bit accumulators never wrap. -/
theorem bstack_freq_eq_sum (B : Build) (datafield : List Nat) :
    bstack_freq B datafield =
      ∑ i ∈ Finset.range (if B.CIV_ADDR = CIV_ADDR_905 then 6 else 5),
        ((byteAt datafield (3 + i) &&& 0x0F) + 10 * (byteAt datafield (3 + i) >>> 4)) *
          100 ^ i := by
  have hF : F_len B ≤ 9 := by unfold F_len; split <;> omega
  unfold bstack_freq
  rw [decodeFreq_eq_bcdValue _ _ hF, bcdValue_eq_sum]
  show ∑ i ∈ Finset.range (F_len B), _ = ∑ i ∈ Finset.range (F_len B), _
  apply Finset.sum_congr rfl
  intro i hi
  rw [Nat.zero_add, byteAt_copyFreqBytes _ _ _ _ (Finset.mem_range.mp hi)]
  rfl

/-- C7. For every byte count `N` that the decode loop of lines 268-271 runs with
(`N = F_len`, which is 5 or 6) and every `n < 100 ^ N`, the loop applied to the
`N`-byte little-endian BCD encoding of `n` returns `n`; so does the band-stack
branch on every datafield that carries these bytes as its frequency bytes. -/
theorem decode_encode_roundtrip (B : Build) (n : Nat) (hn : n < 100 ^ F_len B) :
    (F_len B = 5 ∨ F_len B = 6) ∧
    decodeFreq (bcdEncode (F_len B) n) (F_len B) = n ∧
    ∀ (h0 h1 h2 : Nat) (rest : List Nat),
      bstack_freq B ([h0, h1, h2] ++ bcdEncode (F_len B) n ++ rest) = n := by
  have hF : F_len B ≤ 9 := by rcases F_len_cases B with h | h <;> omega
  have hd := decodeFreq_bcdEncode (F_len B) n hF hn
  refine ⟨F_len_cases B, hd, fun h0 h1 h2 rest => ?_⟩
  rw [bstack_freq_framed B h0 h1 h2 _ rest (bcdEncode_length _ _), hd]

/-- Instance of C7 at five bytes (IC-705, 144 200 000 Hz) and at six bytes (IC-905,
10 368 100 000 Hz). -/
theorem decode_encode_roundtrip_witness :
    F_len defaultBuild = 5 ∧ 144200000 < 100 ^ F_len defaultBuild ∧
    decodeFreq (bcdEncode 5 144200000) 5 = 144200000 ∧
    F_len { defaultBuild with CIV_ADDR := CIV_ADDR_905 } = 6 ∧
    10368100000 < 100 ^ F_len { defaultBuild with CIV_ADDR := CIV_ADDR_905 } ∧
    decodeFreq (bcdEncode 6 10368100000) 6 = 10368100000 :=
  ⟨rfl, by decide,
    (decode_encode_roundtrip defaultBuild 144200000 (by decide)).2.1,
    rfl, by decide,
    (decode_encode_roundtrip { defaultBuild with CIV_ADDR := CIV_ADDR_905 } 10368100000
      (by decide)).2.1⟩

/-- C8. For every sequence `x` of `N` bytes in which every nibble is at most 9,
where `N = F_len` is the byte count the decode loop runs with, re-encoding the
result of the loop with the reference `N`-byte encoder gives `x` back; so does
re-encoding the frequency the band-stack branch decodes from a datafield whose
frequency bytes are `x`. -/
theorem encode_decode_roundtrip (B : Build) (x : List Nat) (hN : x.length = F_len B)
    (hx : ∀ b ∈ x, validBcd b) :
    bcdEncode (F_len B) (decodeFreq x (F_len B)) = x ∧
    ∀ (h0 h1 h2 : Nat) (rest : List Nat),
      bcdEncode (F_len B) (bstack_freq B ([h0, h1, h2] ++ x ++ rest)) = x := by
  have hF : x.length ≤ 9 := by rcases F_len_cases B with h | h <;> omega
  have hd : bcdEncode (F_len B) (decodeFreq x (F_len B)) = x := by
    rw [← hN]; exact bcdEncode_decodeFreq x hF hx
  refine ⟨hd, fun h0 h1 h2 rest => ?_⟩
  rw [bstack_freq_framed B h0 h1 h2 x rest hN, hd]

/-- Instance of C8 at the five bytes of 144 200 000 Hz (IC-705) and at the six
bytes of 10 368 100 000 Hz (IC-905). -/
theorem encode_decode_roundtrip_witness :
    [0x00, 0x00, 0x20, 0x44, 0x01].length = F_len defaultBuild ∧
    (∀ b ∈ [0x00, 0x00, 0x20, 0x44, 0x01], validBcd b) ∧
    bcdEncode 5 (decodeFreq [0x00, 0x00, 0x20, 0x44, 0x01] 5) =
      [0x00, 0x00, 0x20, 0x44, 0x01] ∧
    [0x00, 0x00, 0x10, 0x68, 0x03, 0x01].length =
      F_len { defaultBuild with CIV_ADDR := CIV_ADDR_905 } ∧
    (∀ b ∈ [0x00, 0x00, 0x10, 0x68, 0x03, 0x01], validBcd b) ∧
    bcdEncode 6 (decodeFreq [0x00, 0x00, 0x10, 0x68, 0x03, 0x01] 6) =
      [0x00, 0x00, 0x10, 0x68, 0x03, 0x01] :=
  ⟨rfl, by decide,
    (encode_decode_roundtrip defaultBuild [0x00, 0x00, 0x20, 0x44, 0x01] rfl (by decide)).1,
    rfl, by decide,
    (encode_decode_roundtrip { defaultBuild with CIV_ADDR := CIV_ADDR_905 }
      [0x00, 0x00, 0x10, 0x68, 0x03, 0x01] rfl (by decide)).1⟩

/-- C9. For every byte `b`, `bcdByte b` is `(b >> 4) * 10 + (b & 0x0F)`, which is
the tens digit `b / 16` times ten plus the units digit `b mod 16`; `0x27` gives
27, `0x00` gives 0 and `0x99` gives 99. -/
theorem bcdByte_formula (b : Nat) (hb : b < 256) :
    bcdByte b = (b >>> 4) * 10 + (b &&& 0x0F) ∧ bcdByte b = b / 16 * 10 + b % 16 ∧
      bcdByte 0x27 = 27 ∧ bcdByte 0x00 = 0 ∧ bcdByte 0x99 = 99 := by
  refine ⟨?_, bcdByte_eq_div_mod b hb, by decide, by decide, by decide⟩
  unfold bcdByte
  rw [Nat.mod_eq_of_lt hb]

/-- Instance of C9 at the byte `0x45`. -/
theorem bcdByte_formula_witness :
    0x45 < 256 ∧ (bcdByte 0x45 = (0x45 >>> 4) * 10 + (0x45 &&& 0x0F) ∧
      bcdByte 0x45 = 0x45 / 16 * 10 + 0x45 % 16 ∧
      bcdByte 0x27 = 27 ∧ bcdByte 0x00 = 0 ∧ bcdByte 0x99 = 99) :=
  ⟨by decide, bcdByte_formula 0x45 (by decide)⟩

/-- C10 (counterexample). The byte `0xFF` decodes to 165, outside `[0, 99]`. -/
theorem bcdByte_of_0xFF_exceeds_99 :
    0xFF < 256 ∧ bcdByte 0xFF = 165 ∧ ¬ bcdByte 0xFF ≤ 99 := by
  decide

/-- For every byte the result of `bcdByte` is at most 165. -/
theorem bcdByte_le_165 (b : Nat) (hb : b < 256) : bcdByte b ≤ 165 := by
  rw [bcdByte_eq_div_mod b hb]
  omega

/-- C10 (amended). For every byte whose two nibbles are at most 9, `bcdByte`
returns a value in `[0, 99]`. -/
theorem bcdByte_range_of_validBcd (b : Nat) (hv : validBcd b) : bcdByte b ≤ 99 := by
  unfold validBcd at hv
  rw [shr4_eq, and15_eq] at hv
  rw [bcdByte_eq_div_mod b (by omega)]
  omega

/-- Instance of the amended C10 at the byte `0x99`. -/
theorem bcdByte_range_of_validBcd_witness : validBcd 0x99 ∧ bcdByte 0x99 ≤ 99 :=
  ⟨by decide, bcdByte_range_of_validBcd 0x99 (by decide)⟩

/-! ## Auxiliary facts: the mode lookup -/

/-- Result of the lookup loop started at index `i` with `n` rows left. -/
theorem findModeData_spec (ml : Nat → Modes_List) (m d : Nat) :
    ∀ (n i : Nat),
      (∃ k, findModeData ml m d n i = some k ∧ i ≤ k ∧ k < i + n ∧ modeMatches ml m d k ∧
          ∀ j, i ≤ j → j < k → ¬ modeMatches ml m d j) ∨
      (findModeData ml m d n i = none ∧ ∀ j, i ≤ j → j < i + n → ¬ modeMatches ml m d j) := by
  intro n
  induction n with
  | zero =>
    intro i
    right
    exact ⟨rfl, fun j h1 h2 => by omega⟩
  | succ n ih =>
    intro i
    by_cases h : (ml i).mode_num = m ∧ (ml i).data = d
    · left
      refine ⟨i, ?_, le_refl _, by omega, h, fun j h1 h2 => by omega⟩
      simp only [findModeData, if_pos h]
    · have hstep : findModeData ml m d (n + 1) i = findModeData ml m d n (i + 1) := by
        simp only [findModeData, if_neg h]
      rcases ih (i + 1) with ⟨k, hk, h1, h2, h3, h4⟩ | ⟨hk, h4⟩
      · left
        refine ⟨k, by rw [hstep, hk], by omega, by omega, h3, ?_⟩
        intro j hj1 hj2
        by_cases hji : j = i
        · subst hji; exact h
        · exact h4 j (by omega) hj2
      · right
        refine ⟨by rw [hstep, hk], ?_⟩
        intro j hj1 hj2
        by_cases hji : j = i
        · subst hji; exact h
        · exact h4 j (by omega) (by omega)

/-- When the pair occurs in the table, the lookup returns the smallest index that
carries it. -/
theorem findModeData_of_occurs (ml : Nat → Modes_List) (n m d : Nat)
    (h : pairOccurs ml n m d) :
    ∃ k, findModeData ml m d n 0 = some k ∧ isFirstMode ml n m d k := by
  rcases findModeData_spec ml m d n 0 with ⟨k, hk, _, h2, h3, h4⟩ | ⟨_, h4⟩
  · exact ⟨k, hk, by omega, h3, fun j hj => h4 j (Nat.zero_le _) hj⟩
  · rcases h with ⟨i, hi, hm⟩
    exact absurd hm (h4 i (Nat.zero_le _) (by omega))

/-- When the pair does not occur in the table, the lookup finds nothing. -/
theorem findModeData_of_not_occurs (ml : Nat → Modes_List) (n m d : Nat)
    (h : ¬ pairOccurs ml n m d) : findModeData ml m d n 0 = none := by
  rcases findModeData_spec ml m d n 0 with ⟨k, _, _, h2, h3, _⟩ | ⟨hk, _⟩
  · exact absurd ⟨k, by omega, h3⟩ h
  · exact hk

/-- The smallest index that carries a pair is unique. -/
theorem isFirstMode_unique (ml : Nat → Modes_List) (n m d k1 k2 : Nat)
    (h1 : isFirstMode ml n m d k1) (h2 : isFirstMode ml n m d k2) : k1 = k2 := by
  rcases Nat.lt_trichotomy k1 k2 with h | h | h
  · exact absurd h1.2.1 (h2.2.2 k1 h)
  · exact h
  · exact absurd h2.2.1 (h1.2.2 k2 h)

theorem findModeData_of_first (ml : Nat → Modes_List) (n m d k : Nat)
    (h : isFirstMode ml n m d k) : findModeData ml m d n 0 = some k := by
  rcases findModeData_of_occurs ml n m d ⟨k, h.1, h.2.1⟩ with ⟨k1, hk1, hf⟩
  rw [hk1, isFirstMode_unique ml n m d k1 k hf h]

/-- The lookup reads `mode_num` and `data` only. -/
theorem findModeData_congr (ml1 ml2 : Nat → Modes_List) (m d : Nat)
    (h : ∀ i, (ml1 i).mode_num = (ml2 i).mode_num ∧ (ml1 i).data = (ml2 i).data) :
    ∀ (n i : Nat), findModeData ml1 m d n i = findModeData ml2 m d n i := by
  intro n
  induction n with
  | zero => intro i; rfl
  | succ n ih =>
    intro i
    simp only [findModeData, (h i).1, (h i).2, ih (i + 1)]

theorem setWidth_keys (ml : Nat → Modes_List) (i w j : Nat) :
    ((Function.update ml i { ml i with Width := w }) j).mode_num = (ml j).mode_num ∧
    ((Function.update ml i { ml i with Width := w }) j).data = (ml j).data := by
  by_cases h : j = i
  · subst h; simp
  · simp [Function.update_noteq h]

/-! ## Auxiliary facts: the extended-mode and band-stack branches -/

theorem check_CIV_of_isF26 (B : Build) (msg : CIVresult_t) (s : State) (h : isF26 msg) :
    check_CIV B msg s = caseF26 B msg (enterSwitch msg s) := by
  rcases h with ⟨hd, hc⟩
  have hm : ¬ matchCmd msg.cmd ≥ End_of_Cmd_List - 1 := by
    rcases hc with h | h | h <;> rw [h] <;> decide
  rw [check_CIV_dispatch B msg s hd hm]
  show dispatch B msg (matchCmd msg.cmd) (enterSwitch msg s) = _
  generalize enterSwitch msg s = t
  rcases hc with h | h | h <;> rw [h] <;> rfl

theorem check_CIV_of_isBstack (B : Build) (msg : CIVresult_t) (s : State) (h : isBstack msg) :
    check_CIV B msg s = caseBstack B msg (enterSwitch msg s) := by
  rcases h with ⟨hd, hc⟩
  have hm : ¬ matchCmd msg.cmd ≥ End_of_Cmd_List - 1 := by rw [hc]; decide
  rw [check_CIV_dispatch B msg s hd hm]
  show dispatch B msg (matchCmd msg.cmd) (enterSwitch msg s) = _
  generalize enterSwitch msg s = t
  rw [hc]; rfl

/-- The lookup of the extended-mode branch runs after a write of `Width` and gives
the result of the lookup on the table before the call. -/
theorem findModeData_setWidth (s : State) (i w m d n j : Nat) :
    findModeData (s.setWidth i w).modeList m d n j = findModeData s.modeList m d n j :=
  findModeData_congr _ _ m d (fun k => setWidth_keys s.modeList i w k) n j

/-- Band memory after the extended-mode branch. -/
theorem caseF26_bandmem (B : Build) (msg : CIVresult_t) (s : State) :
    (caseF26 B msg s).2.bandmem =
      Function.update s.bandmem s.curr_band
        { s.bandmem s.curr_band with
          data_A := byteAt msg.datafield 3
          filter_A := byteAt msg.datafield 4
          mode_A := (findModeData s.modeList (byteAt msg.datafield 2) (byteAt msg.datafield 3)
            B.MODES_NUM 0).getD (s.bandmem s.curr_band).mode_A } := by
  unfold caseF26
  simp only [findModeData_setWidth]
  simp only [State.setBand, State.setWidth]
  cases findModeData s.modeList (byteAt msg.datafield 2) (byteAt msg.datafield 3) B.MODES_NUM 0
    <;> simp [Function.update_idem]

/-- Value of `radio_mode` after the extended-mode branch. -/
theorem caseF26_radio_mode (B : Build) (msg : CIVresult_t) (s : State) :
    (caseF26 B msg s).2.radio_mode =
      (findModeData s.modeList (byteAt msg.datafield 2) (byteAt msg.datafield 3)
        B.MODES_NUM 0).getD (byteAt msg.datafield 2) := by
  unfold caseF26
  simp only [findModeData_setWidth]
  simp only [State.setBand, State.setWidth]
  cases findModeData s.modeList (byteAt msg.datafield 2) (byteAt msg.datafield 3) B.MODES_NUM 0
    <;> simp

/-- The last write of the extended-mode branch stores the filter in the row that
`radio_mode` selects. -/
theorem caseF26_width (B : Build) (msg : CIVresult_t) (s : State) :
    ((caseF26 B msg s).2.modeList (caseF26 B msg s).2.radio_mode).Width =
      byteAt msg.datafield 4 := by
  unfold caseF26
  simp only [findModeData_setWidth]
  simp only [State.setBand, State.setWidth]
  cases findModeData s.modeList (byteAt msg.datafield 2) (byteAt msg.datafield 3) B.MODES_NUM 0
    <;> simp

/-- Value of `radio_mode` after the band-stack branch. -/
theorem caseBstack_radio_mode (B : Build) (msg : CIVresult_t) (s : State) :
    (caseBstack B msg s).2.radio_mode =
      (findModeData s.modeList (byteAt msg.datafield (DstopIdx B))
        (byteAt msg.datafield (DstopIdx B + 2)) B.MODES_NUM 0).getD
        (byteAt msg.datafield (DstopIdx B)) := by
  unfold caseBstack DstopIdx
  simp only [State.setBand, State.setWidth]
  cases findModeData s.modeList (byteAt msg.datafield (3 + F_len B))
      (byteAt msg.datafield (3 + F_len B + 2)) B.MODES_NUM 0 <;>
    (split_ifs <;> simp)

/-- Band memory after the band-stack branch: one record is rewritten, in the
fields that the register code selects. -/
theorem caseBstack_bandmem (B : Build) (msg : CIVresult_t) (s : State) :
    (caseBstack B msg s).2.bandmem =
      if byteAt msg.datafield 2 = 1 then
        Function.update s.bandmem (bstackBand B (byteAt msg.datafield 1))
          { s.bandmem (bstackBand B (byteAt msg.datafield 1)) with
            vfo_A_last := bstack_freq B msg.datafield
            mode_A := (caseBstack B msg s).2.radio_mode
            filter_A := byteAt msg.datafield (DstopIdx B + 1)
            data_A := byteAt msg.datafield (DstopIdx B + 2) }
      else if byteAt msg.datafield 2 = 2 then
        Function.update s.bandmem (bstackBand B (byteAt msg.datafield 1))
          { s.bandmem (bstackBand B (byteAt msg.datafield 1)) with
            vfo_A_last_1 := bstack_freq B msg.datafield
            mode_A_1 := (caseBstack B msg s).2.radio_mode
            filter_A_1 := byteAt msg.datafield (DstopIdx B + 1)
            data_A_2 := byteAt msg.datafield (DstopIdx B + 2) }
      else if byteAt msg.datafield 2 = 3 then
        Function.update s.bandmem (bstackBand B (byteAt msg.datafield 1))
          { s.bandmem (bstackBand B (byteAt msg.datafield 1)) with
            vfo_A_last_2 := bstack_freq B msg.datafield
            mode_A_2 := (caseBstack B msg s).2.radio_mode
            filter_A_2 := byteAt msg.datafield (DstopIdx B + 1)
            data_A_2 := byteAt msg.datafield (DstopIdx B + 2) }
      else s.bandmem := by
  rw [caseBstack_radio_mode]
  unfold caseBstack DstopIdx
  simp only [State.setBand, State.setWidth]
  generalize findModeData s.modeList (byteAt msg.datafield (3 + F_len B))
    (byteAt msg.datafield (3 + F_len B + 2)) B.MODES_NUM 0 = o
  cases o <;> (split_ifs <;> simp [Function.update_idem])

theorem enterSwitch_bandmem (msg : CIVresult_t) (s : State) :
    (enterSwitch msg s).bandmem = s.bandmem := rfl

theorem enterSwitch_modeList (msg : CIVresult_t) (s : State) :
    (enterSwitch msg s).modeList = s.modeList := rfl

theorem enterSwitch_curr_band (msg : CIVresult_t) (s : State) :
    (enterSwitch msg s).curr_band = s.curr_band := rfl

/-! ## Properties of the mode resolution and of the band memory (C11 to C20) -/

/-- C11. When the (raw code, data flag) pair of the message occurs in the mode
table, an extended-mode report stores the smallest index carrying the pair in
`radio_mode` and in `mode_A` of the current band, and a band-stack report stores
it in `radio_mode` and in the mode field of the register slot it targets. -/
theorem mode_resolution_stores_first_index (B : Build) (msg : CIVresult_t) (s : State) :
    (isF26 msg →
      pairOccurs s.modeList B.MODES_NUM (byteAt msg.datafield 2) (byteAt msg.datafield 3) →
      ∃ k, isFirstMode s.modeList B.MODES_NUM (byteAt msg.datafield 2)
          (byteAt msg.datafield 3) k ∧
        (check_CIV B msg s).2.radio_mode = k ∧
        ((check_CIV B msg s).2.bandmem s.curr_band).mode_A = k) ∧
    (isBstack msg →
      pairOccurs s.modeList B.MODES_NUM (byteAt msg.datafield (DstopIdx B))
        (byteAt msg.datafield (DstopIdx B + 2)) →
      ∃ k, isFirstMode s.modeList B.MODES_NUM (byteAt msg.datafield (DstopIdx B))
          (byteAt msg.datafield (DstopIdx B + 2)) k ∧
        (check_CIV B msg s).2.radio_mode = k ∧
        (byteAt msg.datafield 2 = 1 →
          ((check_CIV B msg s).2.bandmem (bstackBand B (byteAt msg.datafield 1))).mode_A = k) ∧
        (byteAt msg.datafield 2 = 2 →
          ((check_CIV B msg s).2.bandmem (bstackBand B (byteAt msg.datafield 1))).mode_A_1 = k) ∧
        (byteAt msg.datafield 2 = 3 →
          ((check_CIV B msg s).2.bandmem (bstackBand B (byteAt msg.datafield 1))).mode_A_2 = k)) := by
  constructor
  · intro hF hocc
    rcases findModeData_of_occurs _ _ _ _ hocc with ⟨k, hk, hf⟩
    refine ⟨k, hf, ?_, ?_⟩
    · rw [check_CIV_of_isF26 B msg s hF, caseF26_radio_mode]
      simp only [enterSwitch_modeList, hk, Option.getD_some]
    · rw [check_CIV_of_isF26 B msg s hF, caseF26_bandmem]
      simp only [enterSwitch_modeList, enterSwitch_bandmem, enterSwitch_curr_band, hk,
        Option.getD_some, Function.update_same]
  · intro hB hocc
    rcases findModeData_of_occurs _ _ _ _ hocc with ⟨k, hk, hf⟩
    have hr : (caseBstack B msg (enterSwitch msg s)).2.radio_mode = k := by
      rw [caseBstack_radio_mode]
      simp only [enterSwitch_modeList, hk, Option.getD_some]
    refine ⟨k, hf, ?_, ?_, ?_, ?_⟩
    · rw [check_CIV_of_isBstack B msg s hB, hr]
    · intro h1
      rw [check_CIV_of_isBstack B msg s hB, caseBstack_bandmem, if_pos h1, hr]
      simp only [Function.update_same]
    · intro h2
      have h1 : ¬ byteAt msg.datafield 2 = 1 := by omega
      rw [check_CIV_of_isBstack B msg s hB, caseBstack_bandmem, if_neg h1, if_pos h2, hr]
      simp only [Function.update_same]
    · intro h3
      have h1 : ¬ byteAt msg.datafield 2 = 1 := by omega
      have h2 : ¬ byteAt msg.datafield 2 = 2 := by omega
      rw [check_CIV_of_isBstack B msg s hB, caseBstack_bandmem, if_neg h1, if_neg h2,
        if_pos h3, hr]
      simp only [Function.update_same]

/-- Instance of C11: on the sample table the report `26` with mode USB and data on
resolves to index 9, and so does the band-stack report of register 2. -/
theorem mode_resolution_stores_first_index_witness :
    (isF26 ⟨CIV_OK_DAV, [0x01, 0x26], [4, 0x00, 0x01, 0x01, 0x02], 0⟩ ∧
      pairOccurs sampleState.modeList defaultBuild.MODES_NUM 0x01 0x01 ∧
      ∃ k, isFirstMode sampleState.modeList defaultBuild.MODES_NUM
          (byteAt [4, 0x00, 0x01, 0x01, 0x02] 2) (byteAt [4, 0x00, 0x01, 0x01, 0x02] 3) k ∧
        (check_CIV defaultBuild ⟨CIV_OK_DAV, [0x01, 0x26], [4, 0x00, 0x01, 0x01, 0x02], 0⟩
          sampleState).2.radio_mode = k ∧
        ((check_CIV defaultBuild ⟨CIV_OK_DAV, [0x01, 0x26], [4, 0x00, 0x01, 0x01, 0x02], 0⟩
          sampleState).2.bandmem sampleState.curr_band).mode_A = k) ∧
    (check_CIV defaultBuild ⟨CIV_OK_DAV, [0x01, 0x26], [4, 0x00, 0x01, 0x01, 0x02], 0⟩
      sampleState).2.radio_mode = 9 :=
  ⟨⟨by decide, ⟨9, by decide, by decide⟩,
    (mode_resolution_stores_first_index defaultBuild
      ⟨CIV_OK_DAV, [0x01, 0x26], [4, 0x00, 0x01, 0x01, 0x02], 0⟩ sampleState).1 (by decide)
      ⟨9, by decide, by decide⟩⟩, by decide⟩

/-- C12. An extended-mode report whose (mode, data) pair does not occur in the mode
table leaves `bandmem[curr_band].mode_A` at its value before the call. -/
theorem f26_unknown_mode_keeps_mode_A (B : Build) (msg : CIVresult_t) (s : State)
    (hF : isF26 msg)
    (hno : ¬ pairOccurs s.modeList B.MODES_NUM (byteAt msg.datafield 2)
      (byteAt msg.datafield 3)) :
    ((check_CIV B msg s).2.bandmem s.curr_band).mode_A = (s.bandmem s.curr_band).mode_A := by
  rw [check_CIV_of_isF26 B msg s hF, caseF26_bandmem]
  simp only [enterSwitch_modeList, enterSwitch_bandmem, enterSwitch_curr_band,
    findModeData_of_not_occurs _ _ _ _ hno, Option.getD_none, Function.update_same]

/-- Instance of C12: mode code `23` is not in the sample table. -/
theorem f26_unknown_mode_keeps_mode_A_witness :
    isF26 ⟨CIV_OK_DAV, [0x02, 0x26, 0x00], [4, 0x00, 0x23, 0x00, 0x01], 0⟩ ∧
    ¬ pairOccurs sampleState.modeList defaultBuild.MODES_NUM
      (byteAt [4, 0x00, 0x23, 0x00, 0x01] 2) (byteAt [4, 0x00, 0x23, 0x00, 0x01] 3) ∧
    ((check_CIV defaultBuild ⟨CIV_OK_DAV, [0x02, 0x26, 0x00], [4, 0x00, 0x23, 0x00, 0x01], 0⟩
      sampleState).2.bandmem sampleState.curr_band).mode_A =
      (sampleState.bandmem sampleState.curr_band).mode_A :=
  ⟨by decide, by unfold pairOccurs; decide,
    f26_unknown_mode_keeps_mode_A defaultBuild
      ⟨CIV_OK_DAV, [0x02, 0x26, 0x00], [4, 0x00, 0x23, 0x00, 0x01], 0⟩ sampleState (by decide)
      (by unfold pairOccurs; decide)⟩

/-- C13 (evaluation at the failing input). A band-stack report of register 1 for
band code 1 whose mode code `23` is not in the mode table overwrites `mode_A` of
the targeted band with the raw code: it was 0 and is `0x23` after the call. -/
theorem bstack_unknown_mode_overwrites_mode_A :
    isBstack ⟨CIV_OK_DAV, [0x02, 0x1A, 0x01],
      [10, 1, 1, 0x00, 0x00, 0x20, 0x44, 0x01, 0x23, 0x02, 0x00], 0⟩ ∧
    ¬ pairOccurs sampleState.modeList defaultBuild.MODES_NUM 0x23 0x00 ∧
    (sampleState.bandmem defaultBuild.BAND144).mode_A = 0 ∧
    ((check_CIV defaultBuild ⟨CIV_OK_DAV, [0x02, 0x1A, 0x01],
      [10, 1, 1, 0x00, 0x00, 0x20, 0x44, 0x01, 0x23, 0x02, 0x00], 0⟩
      sampleState).2.bandmem defaultBuild.BAND144).mode_A = 0x23 := by
  refine ⟨by decide, by unfold pairOccurs; decide, by decide, by decide⟩

/-- C14. For an extended-mode report whose (mode, data) pair resolves to index `k`
of the mode table, `modeList[k].Width` after the call is the filter byte
`datafield[4]` of the message. -/
theorem f26_stores_filter_in_resolved_row (B : Build) (msg : CIVresult_t) (s : State)
    (k : Nat) (hF : isF26 msg)
    (hk : isFirstMode s.modeList B.MODES_NUM (byteAt msg.datafield 2)
      (byteAt msg.datafield 3) k) :
    ((check_CIV B msg s).2.modeList k).Width = byteAt msg.datafield 4 := by
  rw [check_CIV_of_isF26 B msg s hF]
  have hw := caseF26_width B msg (enterSwitch msg s)
  have hr := caseF26_radio_mode B msg (enterSwitch msg s)
  simp only [enterSwitch_modeList, findModeData_of_first _ _ _ _ _ hk, Option.getD_some] at hr
  rw [hr] at hw
  exact hw

/-- Instance of C14: the report `26 00` with mode USB, data on and filter 3 stores
3 in row 9 of the sample table. -/
theorem f26_stores_filter_in_resolved_row_witness :
    isF26 ⟨CIV_OK_DAV, [0x02, 0x26, 0x00], [4, 0x00, 0x01, 0x01, 0x03], 0⟩ ∧
    isFirstMode sampleState.modeList defaultBuild.MODES_NUM
      (byteAt [4, 0x00, 0x01, 0x01, 0x03] 2) (byteAt [4, 0x00, 0x01, 0x01, 0x03] 3) 9 ∧
    ((check_CIV defaultBuild ⟨CIV_OK_DAV, [0x02, 0x26, 0x00], [4, 0x00, 0x01, 0x01, 0x03], 0⟩
      sampleState).2.modeList 9).Width = byteAt [4, 0x00, 0x01, 0x01, 0x03] 4 :=
  ⟨by decide, by unfold isFirstMode; decide,
    f26_stores_filter_in_resolved_row defaultBuild
      ⟨CIV_OK_DAV, [0x02, 0x26, 0x00], [4, 0x00, 0x01, 0x01, 0x03], 0⟩ sampleState 9
      (by decide) (by unfold isFirstMode; decide)⟩

/-- C15 (evaluation at the failing input). A band-stack report of register 2 for
band code 1 with mode USB, filter 2 and data flag 1: the frequency, the mode index
and the filter reach the fields of register 2, but the data flag is written to
`data_A_2`, the field of register 3, and register 2 keeps no data flag. -/
theorem bstack_register_2_misses_data_flag :
    isBstack ⟨CIV_OK_DAV, [0x02, 0x1A, 0x01],
      [10, 1, 2, 0x00, 0x00, 0x20, 0x44, 0x01, 0x01, 0x02, 0x01], 0⟩ ∧
    pairOccurs sampleState.modeList defaultBuild.MODES_NUM 0x01 0x01 ∧
    ((check_CIV defaultBuild ⟨CIV_OK_DAV, [0x02, 0x1A, 0x01],
      [10, 1, 2, 0x00, 0x00, 0x20, 0x44, 0x01, 0x01, 0x02, 0x01], 0⟩
      sampleState).2.bandmem defaultBuild.BAND144) =
      { zeroBand with vfo_A_last_1 := 144200000, mode_A_1 := 9, filter_A_1 := 2,
                      data_A_1 := 0, data_A_2 := 1 } := by
  refine ⟨by decide, ⟨9, by decide, by decide⟩, by decide⟩

/-- C16 (evaluation at the failing input). A band-stack report of register 2 for
band code 2 with data flag 1 changes the data flag of register 3 of that band:
`data_A_2` was 0 and is 1 after the call. -/
theorem bstack_register_2_changes_register_3 :
    isBstack ⟨CIV_OK_DAV, [0x02, 0x1A, 0x01],
      [10, 2, 2, 0x00, 0x00, 0x10, 0x32, 0x04, 0x05, 0x01, 0x01], 0⟩ ∧
    byteAt [10, 2, 2, 0x00, 0x00, 0x10, 0x32, 0x04, 0x05, 0x01, 0x01] 2 = 2 ∧
    (sampleState.bandmem defaultBuild.BAND432).data_A_2 = 0 ∧
    ((check_CIV defaultBuild ⟨CIV_OK_DAV, [0x02, 0x1A, 0x01],
      [10, 2, 2, 0x00, 0x00, 0x10, 0x32, 0x04, 0x05, 0x01, 0x01], 0⟩
      sampleState).2.bandmem defaultBuild.BAND432).data_A_2 = 1 := by
  refine ⟨by decide, by decide, by decide, by decide⟩

/-- C17. A band-stack report with register code 2 leaves the values of register 1
(`vfo_A_last`, `mode_A`, `filter_A`, `data_A`) of every band as they were. -/
theorem bstack_register_2_keeps_register_1 (B : Build) (msg : CIVresult_t) (s : State)
    (hB : isBstack msg) (hreg : byteAt msg.datafield 2 = 2) (b : Nat) :
    ((check_CIV B msg s).2.bandmem b).vfo_A_last = (s.bandmem b).vfo_A_last ∧
    ((check_CIV B msg s).2.bandmem b).mode_A = (s.bandmem b).mode_A ∧
    ((check_CIV B msg s).2.bandmem b).filter_A = (s.bandmem b).filter_A ∧
    ((check_CIV B msg s).2.bandmem b).data_A = (s.bandmem b).data_A := by
  have h1 : ¬ byteAt msg.datafield 2 = 1 := by omega
  rw [check_CIV_of_isBstack B msg s hB, caseBstack_bandmem, if_neg h1, if_pos hreg]
  simp only [enterSwitch_bandmem]
  by_cases hb : b = bstackBand B (byteAt msg.datafield 1)
  · subst hb
    simp only [Function.update_same, and_self]
  · simp only [Function.update_noteq hb, and_self]

/-- Instance of C17 at the register-2 report of band code 1 and the targeted band. -/
theorem bstack_register_2_keeps_register_1_witness :
    isBstack ⟨CIV_OK_DAV, [0x02, 0x1A, 0x01],
      [10, 1, 2, 0x00, 0x00, 0x20, 0x44, 0x01, 0x01, 0x02, 0x01], 0⟩ ∧
    byteAt [10, 1, 2, 0x00, 0x00, 0x20, 0x44, 0x01, 0x01, 0x02, 0x01] 2 = 2 ∧
    (((check_CIV defaultBuild ⟨CIV_OK_DAV, [0x02, 0x1A, 0x01],
        [10, 1, 2, 0x00, 0x00, 0x20, 0x44, 0x01, 0x01, 0x02, 0x01], 0⟩
        sampleState).2.bandmem 11).vfo_A_last = (sampleState.bandmem 11).vfo_A_last ∧
      ((check_CIV defaultBuild ⟨CIV_OK_DAV, [0x02, 0x1A, 0x01],
        [10, 1, 2, 0x00, 0x00, 0x20, 0x44, 0x01, 0x01, 0x02, 0x01], 0⟩
        sampleState).2.bandmem 11).mode_A = (sampleState.bandmem 11).mode_A ∧
      ((check_CIV defaultBuild ⟨CIV_OK_DAV, [0x02, 0x1A, 0x01],
        [10, 1, 2, 0x00, 0x00, 0x20, 0x44, 0x01, 0x01, 0x02, 0x01], 0⟩
        sampleState).2.bandmem 11).filter_A = (sampleState.bandmem 11).filter_A ∧
      ((check_CIV defaultBuild ⟨CIV_OK_DAV, [0x02, 0x1A, 0x01],
        [10, 1, 2, 0x00, 0x00, 0x20, 0x44, 0x01, 0x01, 0x02, 0x01], 0⟩
        sampleState).2.bandmem 11).data_A = (sampleState.bandmem 11).data_A) :=
  ⟨by decide, by decide,
    bstack_register_2_keeps_register_1 defaultBuild
      ⟨CIV_OK_DAV, [0x02, 0x1A, 0x01],
        [10, 1, 2, 0x00, 0x00, 0x20, 0x44, 0x01, 0x01, 0x02, 0x01], 0⟩
      sampleState (by decide) (by decide) 11⟩

/-- C18. After an extended-mode report every band record other than the current
one is unchanged, and the record of the current band differs from its value
before the call at most in `mode_A`, `filter_A` and `data_A`. -/
theorem f26_writes_only_primary_slot (B : Build) (msg : CIVresult_t) (s : State)
    (hF : isF26 msg) (b : Nat) :
    (b ≠ s.curr_band → (check_CIV B msg s).2.bandmem b = s.bandmem b) ∧
    (check_CIV B msg s).2.bandmem b =
      { s.bandmem b with
        mode_A := ((check_CIV B msg s).2.bandmem b).mode_A
        filter_A := ((check_CIV B msg s).2.bandmem b).filter_A
        data_A := ((check_CIV B msg s).2.bandmem b).data_A } := by
  rw [check_CIV_of_isF26 B msg s hF, caseF26_bandmem]
  simp only [enterSwitch_bandmem, enterSwitch_curr_band, enterSwitch_modeList]
  by_cases hb : b = s.curr_band
  · subst hb
    simp only [Function.update_same]
    exact ⟨fun h => absurd rfl h, trivial⟩
  · simp only [Function.update_noteq hb]
    exact ⟨fun _ => trivial, trivial⟩

/-- Instance of C18 at the current band of the sample state. -/
theorem f26_writes_only_primary_slot_witness :
    isF26 ⟨CIV_OK_DAV, [0x01, 0x26], [4, 0x00, 0x01, 0x01, 0x02], 0⟩ ∧
    ((12 ≠ sampleState.curr_band →
      (check_CIV defaultBuild ⟨CIV_OK_DAV, [0x01, 0x26], [4, 0x00, 0x01, 0x01, 0x02], 0⟩
        sampleState).2.bandmem 12 = sampleState.bandmem 12) ∧
    (check_CIV defaultBuild ⟨CIV_OK_DAV, [0x01, 0x26], [4, 0x00, 0x01, 0x01, 0x02], 0⟩
        sampleState).2.bandmem 12 =
      { sampleState.bandmem 12 with
        mode_A := ((check_CIV defaultBuild
          ⟨CIV_OK_DAV, [0x01, 0x26], [4, 0x00, 0x01, 0x01, 0x02], 0⟩
          sampleState).2.bandmem 12).mode_A
        filter_A := ((check_CIV defaultBuild
          ⟨CIV_OK_DAV, [0x01, 0x26], [4, 0x00, 0x01, 0x01, 0x02], 0⟩
          sampleState).2.bandmem 12).filter_A
        data_A := ((check_CIV defaultBuild
          ⟨CIV_OK_DAV, [0x01, 0x26], [4, 0x00, 0x01, 0x01, 0x02], 0⟩
          sampleState).2.bandmem 12).data_A }) :=
  ⟨by decide,
    f26_writes_only_primary_slot defaultBuild
      ⟨CIV_OK_DAV, [0x01, 0x26], [4, 0x00, 0x01, 0x01, 0x02], 0⟩ sampleState (by decide) 12⟩

/-- C19 (counterexample). The preamp report `02 16 02` with the nonzero value 256
is read through a `uint8_t`, which makes it 0: from a state with the attenuator
on, the call returns 8 with the preamp off and the attenuator still on. -/
theorem preamp_report_value_256_reads_as_off :
    (256 : Nat) ≠ 0 ∧
    (check_CIV defaultBuild ⟨CIV_OK_DAV, [0x02, 0x16, 0x02], [1, 0x01], 256⟩ attnOnState).1 = 8 ∧
    ((check_CIV defaultBuild ⟨CIV_OK_DAV, [0x02, 0x16, 0x02], [1, 0x01], 256⟩
      attnOnState).2.bandmem attnOnState.curr_band).preamp = defaultBuild.PREAMP_OFF ∧
    ((check_CIV defaultBuild ⟨CIV_OK_DAV, [0x02, 0x16, 0x02], [1, 0x01], 256⟩
      attnOnState).2.bandmem attnOnState.curr_band).attenuator = defaultBuild.ATTN_ON ∧
    ¬ (((check_CIV defaultBuild ⟨CIV_OK_DAV, [0x02, 0x16, 0x02], [1, 0x01], 256⟩
        attnOnState).2.bandmem attnOnState.curr_band).preamp = defaultBuild.PREAMP_ON ∧
      ((check_CIV defaultBuild ⟨CIV_OK_DAV, [0x02, 0x16, 0x02], [1, 0x01], 256⟩
        attnOnState).2.bandmem attnOnState.curr_band).attenuator = defaultBuild.ATTN_OFF) := by
  decide

/-- C19 (amended). For every current band and prior state, a preamp status report
(body `02 16 02`) whose value is nonzero modulo 256 leaves the record of the
current band with `preamp = PREAMP_ON` and `attenuator = ATTN_OFF`, and
`check_CIV` returns 8. -/
theorem preamp_report_sets_preamp_on (B : Build) (s : State) (df : List Nat) (v : Nat)
    (hv : v % 256 ≠ 0) :
    (check_CIV B ⟨CIV_OK_DAV, [0x02, 0x16, 0x02], df, v⟩ s).1 = 8 ∧
    ((check_CIV B ⟨CIV_OK_DAV, [0x02, 0x16, 0x02], df, v⟩ s).2.bandmem s.curr_band).preamp =
      B.PREAMP_ON ∧
    ((check_CIV B ⟨CIV_OK_DAV, [0x02, 0x16, 0x02], df, v⟩ s).2.bandmem
      s.curr_band).attenuator = B.ATTN_OFF := by
  have hm : ¬ matchCmd [0x02, 0x16, 0x02] ≥ End_of_Cmd_List - 1 := by decide
  rw [check_CIV_dispatch B _ s rfl hm]
  have h29 : matchCmd [0x02, 0x16, 0x02] = CIV_C_PREAMP_READ := by decide
  simp only [h29]
  show (casePreamp B _ _).1 = 8 ∧ ((casePreamp B _ _).2.bandmem s.curr_band).preamp = _ ∧
    ((casePreamp B _ _).2.bandmem s.curr_band).attenuator = _
  have hpos : toU8 v > 0 := by unfold toU8; omega
  have hne : ¬ toU8 v = 0 := by omega
  simp [casePreamp, hpos, hne, State.setBand]

/-- Instance of the amended C19 at value 1. -/
theorem preamp_report_sets_preamp_on_witness :
    1 % 256 ≠ 0 ∧
    (check_CIV defaultBuild ⟨CIV_OK_DAV, [0x02, 0x16, 0x02], [1, 0x01], 1⟩ attnOnState).1 = 8 ∧
    ((check_CIV defaultBuild ⟨CIV_OK_DAV, [0x02, 0x16, 0x02], [1, 0x01], 1⟩
      attnOnState).2.bandmem attnOnState.curr_band).preamp = defaultBuild.PREAMP_ON ∧
    ((check_CIV defaultBuild ⟨CIV_OK_DAV, [0x02, 0x16, 0x02], [1, 0x01], 1⟩
      attnOnState).2.bandmem attnOnState.curr_band).attenuator = defaultBuild.ATTN_OFF :=
  ⟨by decide, preamp_report_sets_preamp_on defaultBuild attnOnState [1, 0x01] 1 (by decide)⟩

/-! ## Auxiliary facts: preamp and attenuator through the switch -/

theorem ite_pred (P : Nat × State → Prop) {c : Prop} [Decidable c] {a b : Nat × State}
    (ha : P a) (hb : P b) : P (if c then a else b) := by
  by_cases h : c
  · rw [if_pos h]; exact ha
  · rw [if_neg h]; exact hb

/-- A band memory whose preamp and attenuator fields are those of a band memory
with mutual exclusion has mutual exclusion. -/
theorem mutualExclusion_of_same (B : Build) (bm bm1 : Nat → Band_Memory)
    (h : mutualExclusion B bm)
    (hs : ∀ b, (bm1 b).preamp = (bm b).preamp ∧ (bm1 b).attenuator = (bm b).attenuator) :
    mutualExclusion B bm1 := by
  intro b hb
  rw [(hs b).1, (hs b).2] at hb
  exact h b hb

theorem caseTX_bandmem (msg : CIVresult_t) (s : State) : (caseTX msg s).2.bandmem = s.bandmem := by
  unfold caseTX
  simp only []
  split_ifs <;> rfl

theorem casePosit_bandmem (B : Build) (msg : CIVresult_t) (s : State) :
    (casePosit B msg s).2.bandmem = s.bandmem := by
  unfold casePosit
  simp only []
  split_ifs <;> rfl

theorem caseUTC_bandmem (msg : CIVresult_t) (s : State) :
    (caseUTC msg s).2.bandmem = s.bandmem := by
  unfold caseUTC
  simp only []
  split_ifs <;> rfl

theorem caseBstack_pa (B : Build) (msg : CIVresult_t) (s : State) (b : Nat) :
    ((caseBstack B msg s).2.bandmem b).preamp = (s.bandmem b).preamp ∧
    ((caseBstack B msg s).2.bandmem b).attenuator = (s.bandmem b).attenuator := by
  rw [caseBstack_bandmem]
  by_cases hb : b = bstackBand B (byteAt msg.datafield 1)
  · subst hb
    split_ifs <;> simp only [Function.update_same, and_self]
  · split_ifs <;> simp only [Function.update_noteq hb, and_self]

theorem caseF26_pa (B : Build) (msg : CIVresult_t) (s : State) (b : Nat) :
    ((caseF26 B msg s).2.bandmem b).preamp = (s.bandmem b).preamp ∧
    ((caseF26 B msg s).2.bandmem b).attenuator = (s.bandmem b).attenuator := by
  rw [caseF26_bandmem]
  by_cases hb : b = s.curr_band
  · subst hb
    simp only [Function.update_same, and_self]
  · simp only [Function.update_noteq hb, and_self]

theorem setBand_apply (s : State) (c : Nat) (f : Band_Memory → Band_Memory) (b : Nat) :
    (s.setBand c f).bandmem b = if b = c then f (s.bandmem c) else s.bandmem b := by
  unfold State.setBand
  by_cases hb : b = c
  · subst hb; simp
  · simp [Function.update_noteq hb, hb]

theorem caseSplit_pa (msg : CIVresult_t) (s : State) (b : Nat) :
    ((caseSplit msg s).2.bandmem b).preamp = (s.bandmem b).preamp ∧
    ((caseSplit msg s).2.bandmem b).attenuator = (s.bandmem b).attenuator := by
  unfold caseSplit
  simp only []
  split_ifs <;> (try simp only [setBand_apply]) <;> (try split_ifs) <;> simp_all

theorem caseAgc_pa (B : Build) (msg : CIVresult_t) (s : State) (b : Nat) :
    ((caseAgc B msg s).2.bandmem b).preamp = (s.bandmem b).preamp ∧
    ((caseAgc B msg s).2.bandmem b).attenuator = (s.bandmem b).attenuator := by
  unfold caseAgc
  simp only []
  split_ifs <;> (try simp only [setBand_apply]) <;> (try split_ifs) <;> simp_all

theorem casePreamp_mutualExclusion (B : Build) (msg : CIVresult_t) (s : State)
    (hA : B.ATTN_OFF ≠ B.ATTN_ON) (hP : B.PREAMP_OFF ≠ B.PREAMP_ON)
    (h : mutualExclusion B s.bandmem) :
    mutualExclusion B (casePreamp B msg s).2.bandmem := by
  intro b
  have hb := h b
  unfold casePreamp
  simp only []
  split_ifs <;> (try simp only [setBand_apply]) <;> (try split_ifs) <;> simp_all

theorem caseAttn_mutualExclusion (B : Build) (msg : CIVresult_t) (s : State)
    (hA : B.ATTN_OFF ≠ B.ATTN_ON) (hP : B.PREAMP_OFF ≠ B.PREAMP_ON)
    (h : mutualExclusion B s.bandmem) :
    mutualExclusion B (caseAttn B msg s).2.bandmem := by
  intro b
  have hb := h b
  unfold caseAttn
  simp only []
  split_ifs <;> (try simp only [setBand_apply]) <;> (try split_ifs) <;> simp_all

/-- Every branch of the switch keeps mutual exclusion. -/
theorem dispatch_mutualExclusion (B : Build) (msg : CIVresult_t) (n : Nat) (s : State)
    (hA : B.ATTN_OFF ≠ B.ATTN_ON) (hP : B.PREAMP_OFF ≠ B.PREAMP_ON)
    (h : mutualExclusion B s.bandmem) :
    mutualExclusion B (dispatch B msg n s).2.bandmem := by
  have h0 : mutualExclusion B (caseFreq msg s).2.bandmem := h
  have h1 : mutualExclusion B (caseMode B msg s).2.bandmem := h
  have h2 : mutualExclusion B (caseBstack B msg s).2.bandmem :=
    mutualExclusion_of_same B _ _ h (caseBstack_pa B msg s)
  have h3 : mutualExclusion B (caseF26 B msg s).2.bandmem :=
    mutualExclusion_of_same B _ _ h (caseF26_pa B msg s)
  have h4 : mutualExclusion B (caseTX msg s).2.bandmem := by rw [caseTX_bandmem]; exact h
  have h5 : mutualExclusion B (casePosit B msg s).2.bandmem := by
    rw [casePosit_bandmem]; exact h
  have h6 : mutualExclusion B (caseUTC msg s).2.bandmem := by rw [caseUTC_bandmem]; exact h
  have h7 := casePreamp_mutualExclusion B msg s hA hP h
  have h8 : mutualExclusion B (caseSplit msg s).2.bandmem :=
    mutualExclusion_of_same B _ _ h (caseSplit_pa msg s)
  have h9 := caseAttn_mutualExclusion B msg s hA hP h
  have h10 : mutualExclusion B (caseAgc B msg s).2.bandmem :=
    mutualExclusion_of_same B _ _ h (caseAgc_pa B msg s)
  have h11 : mutualExclusion B (caseDuplex msg s).2.bandmem := h
  have h12 : mutualExclusion B (caseRit msg s).2.bandmem := h
  have h13 : mutualExclusion B (caseRitOnOff msg s).2.bandmem := h
  have h14 : mutualExclusion B (caseXitOnOff msg s).2.bandmem := h
  have h15 : mutualExclusion B ((0, s) : Nat × State).2.bandmem := h
  unfold dispatch
  refine ite_pred (fun r => mutualExclusion B r.2.bandmem) h0 ?_
  refine ite_pred (fun r => mutualExclusion B r.2.bandmem) h1 ?_
  refine ite_pred (fun r => mutualExclusion B r.2.bandmem) h2 ?_
  refine ite_pred (fun r => mutualExclusion B r.2.bandmem) h3 ?_
  refine ite_pred (fun r => mutualExclusion B r.2.bandmem) h4 ?_
  refine ite_pred (fun r => mutualExclusion B r.2.bandmem) h5 ?_
  refine ite_pred (fun r => mutualExclusion B r.2.bandmem) h6 ?_
  refine ite_pred (fun r => mutualExclusion B r.2.bandmem) h7 ?_
  refine ite_pred (fun r => mutualExclusion B r.2.bandmem) h8 ?_
  refine ite_pred (fun r => mutualExclusion B r.2.bandmem) h9 ?_
  refine ite_pred (fun r => mutualExclusion B r.2.bandmem) h10 ?_
  refine ite_pred (fun r => mutualExclusion B r.2.bandmem) h11 ?_
  refine ite_pred (fun r => mutualExclusion B r.2.bandmem) h12 ?_
  refine ite_pred (fun r => mutualExclusion B r.2.bandmem) h13 ?_
  refine ite_pred (fun r => mutualExclusion B r.2.bandmem) h14 ?_
  exact h15

/-- C20. Mutual exclusion of preamp and attenuator is an invariant of `check_CIV`:
when the codes for off and on differ and no band record has both the preamp and
the attenuator on before the call, none has after it, for every message. -/
theorem check_CIV_keeps_mutualExclusion (B : Build) (msg : CIVresult_t) (s : State)
    (hA : B.ATTN_OFF ≠ B.ATTN_ON) (hP : B.PREAMP_OFF ≠ B.PREAMP_ON)
    (h : mutualExclusion B s.bandmem) :
    mutualExclusion B (check_CIV B msg s).2.bandmem := by
  by_cases hd : msg.retVal = CIV_OK_DAV
  · by_cases hm : matchCmd msg.cmd ≥ End_of_Cmd_List - 1
    · rw [check_CIV_exit B msg s hd hm]; exact h
    · rw [check_CIV_dispatch B msg s hd hm]
      exact dispatch_mutualExclusion B msg _ _ hA hP h
  · rw [check_CIV_not_dav B msg s hd]; exact h

/-- Instance of C20: a preamp report with value 1 arriving while the attenuator is
on. -/
theorem check_CIV_keeps_mutualExclusion_witness :
    defaultBuild.ATTN_OFF ≠ defaultBuild.ATTN_ON ∧
    defaultBuild.PREAMP_OFF ≠ defaultBuild.PREAMP_ON ∧
    mutualExclusion defaultBuild attnOnState.bandmem ∧
    mutualExclusion defaultBuild
      (check_CIV defaultBuild ⟨CIV_OK_DAV, [0x02, 0x16, 0x02], [1, 0x01], 1⟩
        attnOnState).2.bandmem :=
  ⟨by decide, by decide, fun _ => (by decide : ¬ ((0 : Nat) = 1 ∧ (1 : Nat) = 1)),
    check_CIV_keeps_mutualExclusion defaultBuild
      ⟨CIV_OK_DAV, [0x02, 0x16, 0x02], [1, 0x01], 1⟩ attnOnState (by decide) (by decide)
      (fun _ => (by decide : ¬ ((0 : Nat) = 1 ∧ (1 : Nat) = 1)))⟩

/-- What a band-stack report writes into the targeted band: registers 1 and 3
receive the frequency, the value of `radio_mode`, the filter and the data flag;
register 2 receives the first three, and its data flag goes to `data_A_2`. -/
theorem bstack_slot_written (B : Build) (msg : CIVresult_t) (s : State) (hB : isBstack msg) :
    (byteAt msg.datafield 2 = 1 →
      (check_CIV B msg s).2.bandmem (bstackBand B (byteAt msg.datafield 1)) =
        { s.bandmem (bstackBand B (byteAt msg.datafield 1)) with
          vfo_A_last := bstack_freq B msg.datafield
          mode_A := (check_CIV B msg s).2.radio_mode
          filter_A := byteAt msg.datafield (DstopIdx B + 1)
          data_A := byteAt msg.datafield (DstopIdx B + 2) }) ∧
    (byteAt msg.datafield 2 = 2 →
      (check_CIV B msg s).2.bandmem (bstackBand B (byteAt msg.datafield 1)) =
        { s.bandmem (bstackBand B (byteAt msg.datafield 1)) with
          vfo_A_last_1 := bstack_freq B msg.datafield
          mode_A_1 := (check_CIV B msg s).2.radio_mode
          filter_A_1 := byteAt msg.datafield (DstopIdx B + 1)
          data_A_2 := byteAt msg.datafield (DstopIdx B + 2) }) ∧
    (byteAt msg.datafield 2 = 3 →
      (check_CIV B msg s).2.bandmem (bstackBand B (byteAt msg.datafield 1)) =
        { s.bandmem (bstackBand B (byteAt msg.datafield 1)) with
          vfo_A_last_2 := bstack_freq B msg.datafield
          mode_A_2 := (check_CIV B msg s).2.radio_mode
          filter_A_2 := byteAt msg.datafield (DstopIdx B + 1)
          data_A_2 := byteAt msg.datafield (DstopIdx B + 2) }) := by
  rw [check_CIV_of_isBstack B msg s hB, caseBstack_bandmem]
  simp only [enterSwitch_bandmem]
  refine ⟨fun h1 => ?_, fun h2 => ?_, fun h3 => ?_⟩
  · rw [if_pos h1, Function.update_same]
  · have h1 : ¬ byteAt msg.datafield 2 = 1 := by omega
    rw [if_neg h1, if_pos h2, Function.update_same]
  · have h1 : ¬ byteAt msg.datafield 2 = 1 := by omega
    have h2 : ¬ byteAt msg.datafield 2 = 2 := by omega
    rw [if_neg h1, if_neg h2, if_pos h3, Function.update_same]

/-! ## Auxiliary facts: entry of the switch for a given command -/

/-- A message with data whose body the matcher resolves to command `n`, below the
last row, reaches the switch with `cmd_num = n`. -/
theorem check_CIV_of_cmd (B : Build) (msg : CIVresult_t) (s : State) (n : Nat)
    (hd : msg.retVal = CIV_OK_DAV) (hn : matchCmd msg.cmd = n) (hlt : n < End_of_Cmd_List - 1) :
    check_CIV B msg s = dispatch B msg n (enterSwitch msg s) := by
  have hm : ¬ matchCmd msg.cmd ≥ End_of_Cmd_List - 1 := by rw [hn]; omega
  rw [check_CIV_dispatch B msg s hd hm]
  show dispatch B msg (matchCmd msg.cmd) (enterSwitch msg s) = _
  rw [hn]

theorem wrapInt_32_of_small (x : Int) (h1 : -2147483648 ≤ x) (h2 : x < 2147483648) :
    wrapInt 32 x = x := by
  unfold wrapInt
  norm_num
  omega

theorem wrapInt_16_of_small (x : Int) (h1 : -32768 ≤ x) (h2 : x < 32768) :
    wrapInt 16 x = x := by
  unfold wrapInt
  norm_num
  omega

theorem bcdByte_byteAt_le (df : List Nat) (i : Nat) : bcdByte (byteAt df i) ≤ 165 :=
  bcdByte_le_165 _ (byteAt_lt df i)

/-! ## Properties of the end-to-end scenarios (C21 to C23) -/

/-- C21 (counterexample). The body `02 11 10` with value 0, from a state with the
preamp on: the matcher resolves to `CIV_C_ATTN_ON` and the call returns 9, but the
attenuator is set off and the preamp stays on. -/
theorem attn_on_body_with_value_0_sets_attenuator_off :
    matchCmd [0x02, 0x11, 0x10] = CIV_C_ATTN_ON ∧
    (check_CIV defaultBuild ⟨CIV_OK_DAV, [0x02, 0x11, 0x10], [], 0⟩ preampOnState).1 = 9 ∧
    ((check_CIV defaultBuild ⟨CIV_OK_DAV, [0x02, 0x11, 0x10], [], 0⟩
      preampOnState).2.bandmem preampOnState.curr_band).attenuator = defaultBuild.ATTN_OFF ∧
    ((check_CIV defaultBuild ⟨CIV_OK_DAV, [0x02, 0x11, 0x10], [], 0⟩
      preampOnState).2.bandmem preampOnState.curr_band).preamp = defaultBuild.PREAMP_ON ∧
    ¬ (((check_CIV defaultBuild ⟨CIV_OK_DAV, [0x02, 0x11, 0x10], [], 0⟩
        preampOnState).2.bandmem preampOnState.curr_band).attenuator = defaultBuild.ATTN_ON ∧
      ((check_CIV defaultBuild ⟨CIV_OK_DAV, [0x02, 0x11, 0x10], [], 0⟩
        preampOnState).2.bandmem preampOnState.curr_band).preamp = defaultBuild.PREAMP_OFF) := by
  decide

/-- C21 (amended). For every prior state, current band and value, the body
`02 11 10` resolves to `CIV_C_ATTN_ON` and `check_CIV` returns 9; when the value of
the message is nonzero modulo 256 the record of the current band is left with
`attenuator = ATTN_ON` and `preamp = PREAMP_OFF`. -/
theorem attn_on_body_sets_attenuator_on (B : Build) (s : State) (df : List Nat) (v : Nat) :
    matchCmd [0x02, 0x11, 0x10] = CIV_C_ATTN_ON ∧
    (check_CIV B ⟨CIV_OK_DAV, [0x02, 0x11, 0x10], df, v⟩ s).1 = 9 ∧
    (v % 256 ≠ 0 →
      ((check_CIV B ⟨CIV_OK_DAV, [0x02, 0x11, 0x10], df, v⟩ s).2.bandmem
        s.curr_band).attenuator = B.ATTN_ON ∧
      ((check_CIV B ⟨CIV_OK_DAV, [0x02, 0x11, 0x10], df, v⟩ s).2.bandmem
        s.curr_band).preamp = B.PREAMP_OFF) := by
  have h21 : matchCmd [0x02, 0x11, 0x10] = CIV_C_ATTN_ON := by decide
  refine ⟨h21, ?_⟩
  rw [check_CIV_of_cmd B _ s CIV_C_ATTN_ON rfl h21 (by decide)]
  show (caseAttn B _ _).1 = 9 ∧ (v % 256 ≠ 0 →
    ((caseAttn B _ _).2.bandmem s.curr_band).attenuator = _ ∧
    ((caseAttn B _ _).2.bandmem s.curr_band).preamp = _)
  refine ⟨rfl, fun hv => ?_⟩
  have hpos : toU8 v > 0 := by unfold toU8; omega
  have hne : ¬ toU8 v = 0 := by omega
  simp [caseAttn, hpos, hne, State.setBand, enterSwitch]

/-- Instance of the amended C21: at value 1, from a state with the preamp on, the
call returns 9 and sets the attenuator on and the preamp off; at value 0 it
returns 9 as well. -/
theorem attn_on_body_sets_attenuator_on_witness :
    1 % 256 ≠ 0 ∧
    matchCmd [0x02, 0x11, 0x10] = CIV_C_ATTN_ON ∧
    (check_CIV defaultBuild ⟨CIV_OK_DAV, [0x02, 0x11, 0x10], [1, 0x10], 1⟩ preampOnState).1 = 9 ∧
    ((check_CIV defaultBuild ⟨CIV_OK_DAV, [0x02, 0x11, 0x10], [1, 0x10], 1⟩
      preampOnState).2.bandmem preampOnState.curr_band).attenuator = defaultBuild.ATTN_ON ∧
    ((check_CIV defaultBuild ⟨CIV_OK_DAV, [0x02, 0x11, 0x10], [1, 0x10], 1⟩
      preampOnState).2.bandmem preampOnState.curr_band).preamp = defaultBuild.PREAMP_OFF ∧
    (check_CIV defaultBuild ⟨CIV_OK_DAV, [0x02, 0x11, 0x10], [1, 0x10], 0⟩ preampOnState).1 = 9 :=
  ⟨by decide,
    (attn_on_body_sets_attenuator_on defaultBuild preampOnState [1, 0x10] 1).1,
    (attn_on_body_sets_attenuator_on defaultBuild preampOnState [1, 0x10] 1).2.1,
    ((attn_on_body_sets_attenuator_on defaultBuild preampOnState [1, 0x10] 1).2.2
      (by decide)).1,
    ((attn_on_body_sets_attenuator_on defaultBuild preampOnState [1, 0x10] 1).2.2
      (by decide)).2,
    (attn_on_body_sets_attenuator_on defaultBuild preampOnState [1, 0x10] 0).2.1⟩

/-- C22 (counterexample). The decode loop applied to the bytes `00 46 92` does not
yield 4692. -/
theorem decode_00_46_92_is_not_4692 : decodeFreq [0x00, 0x46, 0x92] 3 ≠ 4692 := by
  decide

/-- C22 (amended). The decode loop reads the least significant byte first: the
bytes `00 46 92` yield 924600, and 4692 is the value of the bytes `92 46 00`. -/
theorem decode_00_46_92 :
    decodeFreq [0x00, 0x46, 0x92] 3 = 924600 ∧ decodeFreq [0x92, 0x46, 0x00] 3 = 4692 := by
  decide

/-- C23. A frequency report (body `01 00`, `01 03` or `01 05`) makes `check_CIV`
return 1, stores the numeric value of the message (a value of an unsigned type of
at most 64 bits) in `radio_VFO`, sets `freqReceived` and changes no band record. -/
theorem freq_report_sets_radio_VFO (B : Build) (msg : CIVresult_t) (s : State)
    (hd : msg.retVal = CIV_OK_DAV)
    (hc : msg.cmd = [0x01, 0x00] ∨ msg.cmd = [0x01, 0x03] ∨ msg.cmd = [0x01, 0x05])
    (hv : msg.value < 2 ^ 64) :
    (check_CIV B msg s).1 = 1 ∧ (check_CIV B msg s).2.radio_VFO = msg.value ∧
    (check_CIV B msg s).2.freqReceived = true ∧
    (check_CIV B msg s).2.bandmem = s.bandmem := by
  have hcase : check_CIV B msg s = caseFreq msg (enterSwitch msg s) := by
    rcases hc with h | h | h
    · rw [check_CIV_of_cmd B msg s CIV_C_F_SEND hd (by rw [h]; decide) (by decide)]; rfl
    · rw [check_CIV_of_cmd B msg s CIV_C_F_READ hd (by rw [h]; decide) (by decide)]; rfl
    · rw [check_CIV_of_cmd B msg s CIV_C_F1_SEND hd (by rw [h]; decide) (by decide)]; rfl
  rw [hcase]
  refine ⟨rfl, ?_, rfl, rfl⟩
  show toU64 msg.value = msg.value
  exact toU64_of_lt hv

/-- Instance of C23: the report `01 00` with value 144 200 000. -/
theorem freq_report_sets_radio_VFO_witness :
    (⟨CIV_OK_DAV, [0x01, 0x00], [], 144200000⟩ : CIVresult_t).retVal = CIV_OK_DAV ∧
    (144200000 : Nat) < 2 ^ 64 ∧
    (check_CIV defaultBuild ⟨CIV_OK_DAV, [0x01, 0x00], [], 144200000⟩ sampleState).1 = 1 ∧
    (check_CIV defaultBuild ⟨CIV_OK_DAV, [0x01, 0x00], [], 144200000⟩
      sampleState).2.radio_VFO = 144200000 ∧
    (check_CIV defaultBuild ⟨CIV_OK_DAV, [0x01, 0x00], [], 144200000⟩
      sampleState).2.freqReceived = true ∧
    (check_CIV defaultBuild ⟨CIV_OK_DAV, [0x01, 0x00], [], 144200000⟩
      sampleState).2.bandmem = sampleState.bandmem :=
  ⟨rfl, by decide,
    freq_report_sets_radio_VFO defaultBuild ⟨CIV_OK_DAV, [0x01, 0x00], [], 144200000⟩
      sampleState rfl (Or.inl rfl) (by decide)⟩

/-! ## Auxiliary facts: the signed decoders -/

theorem bcdByte_eq_zero_iff (b : Nat) (hb : b < 256) : bcdByte b = 0 ↔ b = 0 := by
  rw [bcdByte_eq_div_mod b hb]
  omega

theorem toI8_eq_zero_iff (b : Nat) (hb : b < 256) : toI8 b = 0 ↔ b = 0 := by
  unfold toI8
  split <;> omega

/-- Value of `radio_RIT` after the RIT/XIT branch. -/
theorem caseRit_radio_RIT (msg : CIVresult_t) (s : State) :
    (caseRit msg s).2.radio_RIT =
      signOf (byteAt msg.datafield 3) *
        ((bcdByte (byteAt msg.datafield 1) : Int) + 100 * (bcdByte (byteAt msg.datafield 2) : Int)) := by
  have h1 := bcdByte_byteAt_le msg.datafield 1
  have h2 := bcdByte_byteAt_le msg.datafield 2
  have h3 := toI8_eq_zero_iff (byteAt msg.datafield 3) (byteAt_lt _ _)
  show wrapInt 16 (if toI8 (byteAt msg.datafield 3) ≠ 0 then
      wrapInt 16 (wrapInt 16 ((bcdByte (byteAt msg.datafield 2) : Int) * 100) +
        (bcdByte (byteAt msg.datafield 1) : Int)) * -1
    else wrapInt 16 (wrapInt 16 ((bcdByte (byteAt msg.datafield 2) : Int) * 100) +
        (bcdByte (byteAt msg.datafield 1) : Int))) = _
  have e0 : wrapInt 16 ((bcdByte (byteAt msg.datafield 2) : Int) * 100) =
      (bcdByte (byteAt msg.datafield 2) : Int) * 100 :=
    wrapInt_16_of_small _ (by omega) (by omega)
  have e1 : wrapInt 16 ((bcdByte (byteAt msg.datafield 2) : Int) * 100 +
      (bcdByte (byteAt msg.datafield 1) : Int)) =
      (bcdByte (byteAt msg.datafield 2) : Int) * 100 + (bcdByte (byteAt msg.datafield 1) : Int) :=
    wrapInt_16_of_small _ (by omega) (by omega)
  rw [e0, e1]
  unfold signOf
  by_cases hz : byteAt msg.datafield 3 = 0
  · have hz1 : toI8 (byteAt msg.datafield 3) = 0 := h3.mpr hz
    rw [if_neg (not_not.mpr hz1), if_neg (not_not.mpr hz), wrapInt_16_of_small _ (by omega) (by omega)]
    omega
  · have hz1 : toI8 (byteAt msg.datafield 3) ≠ 0 := fun h => hz (h3.mp h)
    rw [if_pos hz1, if_pos hz, wrapInt_16_of_small _ (by omega) (by omega)]
    omega

/-- Value of `radio_DUP` after the duplex branch. -/
theorem caseDuplex_radio_DUP (msg : CIVresult_t) (s : State) :
    (caseDuplex msg s).2.radio_DUP =
      1000 * ((bcdByte (byteAt msg.datafield 1) : Int) +
        10 * (bcdByte (byteAt msg.datafield 2) : Int) +
        1000 * (bcdByte (byteAt msg.datafield 3) : Int)) := by
  have h1 := bcdByte_byteAt_le msg.datafield 1
  have h2 := bcdByte_byteAt_le msg.datafield 2
  have h3 := bcdByte_byteAt_le msg.datafield 3
  show wrapInt 32 (wrapInt 32 (wrapInt 32 (wrapInt 32
      ((bcdByte (byteAt msg.datafield 3) : Int) * 1000) +
      (bcdByte (byteAt msg.datafield 2) : Int) * 10) +
      (bcdByte (byteAt msg.datafield 1) : Int)) * 1000) = _
  have e0 : wrapInt 32 ((bcdByte (byteAt msg.datafield 3) : Int) * 1000) =
      (bcdByte (byteAt msg.datafield 3) : Int) * 1000 :=
    wrapInt_32_of_small _ (by omega) (by omega)
  have e1 : wrapInt 32 ((bcdByte (byteAt msg.datafield 3) : Int) * 1000 +
      (bcdByte (byteAt msg.datafield 2) : Int) * 10) =
      (bcdByte (byteAt msg.datafield 3) : Int) * 1000 +
        (bcdByte (byteAt msg.datafield 2) : Int) * 10 :=
    wrapInt_32_of_small _ (by omega) (by omega)
  have e2 : wrapInt 32 ((bcdByte (byteAt msg.datafield 3) : Int) * 1000 +
      (bcdByte (byteAt msg.datafield 2) : Int) * 10 + (bcdByte (byteAt msg.datafield 1) : Int)) =
      (bcdByte (byteAt msg.datafield 3) : Int) * 1000 +
        (bcdByte (byteAt msg.datafield 2) : Int) * 10 + (bcdByte (byteAt msg.datafield 1) : Int) :=
    wrapInt_32_of_small _ (by omega) (by omega)
  rw [e0, e1, e2, wrapInt_32_of_small _ (by omega) (by omega)]
  omega

/-- Values of `hr_off` and `min_off` after the UTC offset branch. -/
theorem caseUTC_offsets (msg : CIVresult_t) (s : State) :
    (caseUTC msg s).2.hr_off =
      signOf (byteAt msg.datafield 3) * (bcdByte (byteAt msg.datafield 1) : Int) ∧
    (caseUTC msg s).2.min_off =
      signOf (byteAt msg.datafield 3) * (bcdByte (byteAt msg.datafield 2) : Int) := by
  have h1 := bcdByte_byteAt_le msg.datafield 1
  have h2 := bcdByte_byteAt_le msg.datafield 2
  have h3 := bcdByte_eq_zero_iff (byteAt msg.datafield 3) (byteAt_lt _ _)
  unfold caseUTC signOf
  simp only []
  by_cases hz : byteAt msg.datafield 3 = 0
  · have hz1 : ((bcdByte (byteAt msg.datafield 3) : Nat) : Int) = 0 := by
      exact_mod_cast h3.mpr hz
    rw [if_neg (not_not.mpr hz1), if_neg (not_not.mpr hz)]
    simp
  · have hz1 : ((bcdByte (byteAt msg.datafield 3) : Nat) : Int) ≠ 0 := by
      intro h
      exact hz (h3.mp (by exact_mod_cast h))
    rw [if_pos hz1, if_pos hz]
    simp only []
    rw [wrapInt_32_of_small _ (by omega) (by omega), wrapInt_32_of_small _ (by omega) (by omega)]
    constructor <;> ring

theorem bcdByte_le_99_of_valid (b : Nat) (hv : validBcd b) : bcdByte b ≤ 99 := by
  unfold validBcd at hv
  rw [shr4_eq, and15_eq] at hv
  rw [bcdByte_eq_div_mod b (by omega)]
  omega

/-! ## Properties of the signed decoders and of the time decoder (C24 to C27) -/

/-- C24. A RIT/XIT offset report (body `02 21 00`) makes `check_CIV` return 12 and
sets `radio_RIT` to `s * (bcdByte d1 + 100 * bcdByte d2)` with `s = -1` when the
sign byte `d3` is nonzero and `s = +1` when it is 0, without wrap of the 16-bit
variable; for valid BCD bytes the result lies in `[-9999, 9999]`. -/
theorem rit_report_sets_radio_RIT (B : Build) (msg : CIVresult_t) (s : State) :
    (msg.retVal = CIV_OK_DAV → msg.cmd = [0x02, 0x21, 0x00] →
      (check_CIV B msg s).1 = 12 ∧
      (check_CIV B msg s).2.radio_RIT =
        signOf (byteAt msg.datafield 3) *
          ((bcdByte (byteAt msg.datafield 1) : Int) +
            100 * (bcdByte (byteAt msg.datafield 2) : Int)) ∧
      (validBcd (byteAt msg.datafield 1) → validBcd (byteAt msg.datafield 2) →
        -9999 ≤ (check_CIV B msg s).2.radio_RIT ∧ (check_CIV B msg s).2.radio_RIT ≤ 9999)) := by
  intro hd hc
  have hcase : check_CIV B msg s = caseRit msg (enterSwitch msg s) := by
    rw [check_CIV_of_cmd B msg s CIV_C_RIT_XIT hd (by rw [hc]; decide) (by decide)]; rfl
  rw [hcase]
  have hr := caseRit_radio_RIT msg (enterSwitch msg s)
  refine ⟨rfl, hr, ?_⟩
  intro hv1 hv2
  rw [hr]
  have h1 := bcdByte_le_99_of_valid _ hv1
  have h2 := bcdByte_le_99_of_valid _ hv2
  unfold signOf
  split <;> omega

/-- Instance of C24: the bytes `70 19` with sign byte `01` give -1970 Hz. -/
theorem rit_report_sets_radio_RIT_witness :
    (⟨CIV_OK_DAV, [0x02, 0x21, 0x00], [3, 0x70, 0x19, 0x01], 0⟩ : CIVresult_t).retVal =
      CIV_OK_DAV ∧
    (check_CIV defaultBuild ⟨CIV_OK_DAV, [0x02, 0x21, 0x00], [3, 0x70, 0x19, 0x01], 0⟩
      zeroState).1 = 12 ∧
    (check_CIV defaultBuild ⟨CIV_OK_DAV, [0x02, 0x21, 0x00], [3, 0x70, 0x19, 0x01], 0⟩
      zeroState).2.radio_RIT =
      signOf (byteAt [3, 0x70, 0x19, 0x01] 3) *
        ((bcdByte (byteAt [3, 0x70, 0x19, 0x01] 1) : Int) +
          100 * (bcdByte (byteAt [3, 0x70, 0x19, 0x01] 2) : Int)) ∧
    (check_CIV defaultBuild ⟨CIV_OK_DAV, [0x02, 0x21, 0x00], [3, 0x70, 0x19, 0x01], 0⟩
      zeroState).2.radio_RIT = -1970 :=
  ⟨rfl,
    (rit_report_sets_radio_RIT defaultBuild
      ⟨CIV_OK_DAV, [0x02, 0x21, 0x00], [3, 0x70, 0x19, 0x01], 0⟩ zeroState rfl rfl).1,
    (rit_report_sets_radio_RIT defaultBuild
      ⟨CIV_OK_DAV, [0x02, 0x21, 0x00], [3, 0x70, 0x19, 0x01], 0⟩ zeroState rfl rfl).2.1,
    by decide⟩

/-- C25 (counterexample). The duplex report `0C` with the bytes `00 60 00` stores
600000 in `radio_DUP`, not `1000 * (0 + 100 * 60)`; with the bytes `00 00 05` it
stores 5000000, where the claim takes `05` for a sign byte and gives 0. -/
theorem duplex_report_00_60_00_stores_600000 :
    (check_CIV defaultBuild ⟨CIV_OK_DAV, [0x01, 0x0C], [3, 0x00, 0x60, 0x00], 0⟩
      zeroState).2.radio_DUP = 600000 ∧
    (check_CIV defaultBuild ⟨CIV_OK_DAV, [0x01, 0x0C], [3, 0x00, 0x60, 0x00], 0⟩
      zeroState).2.radio_DUP ≠
      signOf 0x00 * 1000 * ((bcdByte 0x00 : Int) + 100 * (bcdByte 0x60 : Int)) ∧
    (check_CIV defaultBuild ⟨CIV_OK_DAV, [0x01, 0x0C], [3, 0x00, 0x00, 0x05], 0⟩
      zeroState).2.radio_DUP = 5000000 ∧
    (check_CIV defaultBuild ⟨CIV_OK_DAV, [0x01, 0x0C], [3, 0x00, 0x00, 0x05], 0⟩
      zeroState).2.radio_DUP ≠
      signOf 0x05 * 1000 * ((bcdByte 0x00 : Int) + 100 * (bcdByte 0x00 : Int)) := by
  decide

/-- C25 (amended). A duplex offset report (body `0C` or `0D`) makes `check_CIV`
return 11 and stores `1000 * (bcdByte d1 + 10 * bcdByte d2 + 1000 * bcdByte d3)`
in `radio_DUP`: the three datafield bytes are magnitude bytes and no sign is
applied. -/
theorem duplex_report_sets_radio_DUP (B : Build) (msg : CIVresult_t) (s : State)
    (hd : msg.retVal = CIV_OK_DAV) (hc : msg.cmd = [0x01, 0x0C] ∨ msg.cmd = [0x01, 0x0D]) :
    (check_CIV B msg s).1 = 11 ∧
    (check_CIV B msg s).2.radio_DUP =
      1000 * ((bcdByte (byteAt msg.datafield 1) : Int) +
        10 * (bcdByte (byteAt msg.datafield 2) : Int) +
        1000 * (bcdByte (byteAt msg.datafield 3) : Int)) := by
  have hcase : check_CIV B msg s = caseDuplex msg (enterSwitch msg s) := by
    rcases hc with h | h
    · rw [check_CIV_of_cmd B msg s CIV_C_DUPLEX_READ hd (by rw [h]; decide) (by decide)]; rfl
    · rw [check_CIV_of_cmd B msg s CIV_C_DUPLEX_SEND hd (by rw [h]; decide) (by decide)]; rfl
  rw [hcase]
  exact ⟨rfl, caseDuplex_radio_DUP msg (enterSwitch msg s)⟩

/-- Instance of the amended C25: the bytes `00 60 00` give 600 kHz. -/
theorem duplex_report_sets_radio_DUP_witness :
    (⟨CIV_OK_DAV, [0x01, 0x0D], [3, 0x00, 0x60, 0x00], 0⟩ : CIVresult_t).retVal = CIV_OK_DAV ∧
    (check_CIV defaultBuild ⟨CIV_OK_DAV, [0x01, 0x0D], [3, 0x00, 0x60, 0x00], 0⟩ zeroState).1 =
      11 ∧
    (check_CIV defaultBuild ⟨CIV_OK_DAV, [0x01, 0x0D], [3, 0x00, 0x60, 0x00], 0⟩
      zeroState).2.radio_DUP =
      1000 * ((bcdByte (byteAt [3, 0x00, 0x60, 0x00] 1) : Int) +
        10 * (bcdByte (byteAt [3, 0x00, 0x60, 0x00] 2) : Int) +
        1000 * (bcdByte (byteAt [3, 0x00, 0x60, 0x00] 3) : Int)) :=
  ⟨rfl,
    duplex_report_sets_radio_DUP defaultBuild
      ⟨CIV_OK_DAV, [0x01, 0x0D], [3, 0x00, 0x60, 0x00], 0⟩ zeroState rfl (Or.inr rfl)⟩

/-- C26. A UTC offset report (body `1A 05 01 81` or `1A 05 01 70`) makes
`check_CIV` return 7 and sets `hr_off = s * bcdByte d1` and
`min_off = s * bcdByte d2`, with `s = -1` exactly when `d3` is nonzero and `s = +1`
when it is 0; the documented bytes `07 00 01` give `hr_off = -7`, `min_off = 0`. -/
theorem utc_report_sets_offsets (B : Build) (msg : CIVresult_t) (s : State)
    (hd : msg.retVal = CIV_OK_DAV)
    (hc : msg.cmd = [0x04, 0x1A, 0x05, 0x01, 0x81] ∨ msg.cmd = [0x04, 0x1A, 0x05, 0x01, 0x70]) :
    (check_CIV B msg s).1 = 7 ∧
    (check_CIV B msg s).2.hr_off =
      signOf (byteAt msg.datafield 3) * (bcdByte (byteAt msg.datafield 1) : Int) ∧
    (check_CIV B msg s).2.min_off =
      signOf (byteAt msg.datafield 3) * (bcdByte (byteAt msg.datafield 2) : Int) ∧
    (check_CIV defaultBuild ⟨CIV_OK_DAV, [0x04, 0x1A, 0x05, 0x01, 0x81], [3, 0x07, 0x00, 0x01], 0⟩
      zeroState).2.hr_off = -7 ∧
    (check_CIV defaultBuild ⟨CIV_OK_DAV, [0x04, 0x1A, 0x05, 0x01, 0x81], [3, 0x07, 0x00, 0x01], 0⟩
      zeroState).2.min_off = 0 := by
  have hcase : check_CIV B msg s = caseUTC msg (enterSwitch msg s) := by
    rcases hc with h | h
    · rw [check_CIV_of_cmd B msg s CIV_C_UTC_READ_905 hd (by rw [h]; decide) (by decide)]; rfl
    · rw [check_CIV_of_cmd B msg s CIV_C_UTC_READ_705 hd (by rw [h]; decide) (by decide)]; rfl
  rw [hcase]
  have ho := caseUTC_offsets msg (enterSwitch msg s)
  exact ⟨rfl, ho.1, ho.2, by decide, by decide⟩

/-- Instance of C26: the IC-705 body with the bytes `05 30 00`. -/
theorem utc_report_sets_offsets_witness :
    (⟨CIV_OK_DAV, [0x04, 0x1A, 0x05, 0x01, 0x70], [3, 0x05, 0x30, 0x00], 0⟩ :
      CIVresult_t).retVal = CIV_OK_DAV ∧
    (check_CIV defaultBuild
      ⟨CIV_OK_DAV, [0x04, 0x1A, 0x05, 0x01, 0x70], [3, 0x05, 0x30, 0x00], 0⟩ zeroState).1 = 7 ∧
    (check_CIV defaultBuild
      ⟨CIV_OK_DAV, [0x04, 0x1A, 0x05, 0x01, 0x70], [3, 0x05, 0x30, 0x00], 0⟩
      zeroState).2.hr_off = 5 ∧
    (check_CIV defaultBuild
      ⟨CIV_OK_DAV, [0x04, 0x1A, 0x05, 0x01, 0x70], [3, 0x05, 0x30, 0x00], 0⟩
      zeroState).2.min_off = 30 :=
  ⟨rfl,
    (utc_report_sets_offsets defaultBuild
      ⟨CIV_OK_DAV, [0x04, 0x1A, 0x05, 0x01, 0x70], [3, 0x05, 0x30, 0x00], 0⟩ zeroState rfl
      (Or.inr rfl)).1, by decide, by decide⟩

/-- C27. With `UTC` set to 1 as in `RadioConfig.h`, a position and time report
(body `01 23`) makes `check_CIV` return 6 and calls `setTime` once, with the hour,
minute and second from `datafield[26..28]`, the day from `datafield[25]`, the month
from `datafield[24]` and the year from `datafield[23]`, each through `bcdByte`; the
message documented in the source sets 23:32:45, day 20, month 7, year 24. -/
theorem gps_report_sets_time (B : Build) (msg : CIVresult_t) (s : State)
    (hd : msg.retVal = CIV_OK_DAV) (hc : msg.cmd = [0x01, 0x23]) (hU : B.UTC = 1) :
    (check_CIV B msg s).1 = 6 ∧
    (check_CIV B msg s).2.setTime_calls =
      s.setTime_calls ++
        [⟨bcdByte (byteAt msg.datafield 26), bcdByte (byteAt msg.datafield 27),
          bcdByte (byteAt msg.datafield 28), bcdByte (byteAt msg.datafield 25),
          bcdByte (byteAt msg.datafield 24), bcdByte (byteAt msg.datafield 23)⟩] ∧
    (check_CIV defaultBuild ⟨CIV_OK_DAV, [0x01, 0x23], gpsSample, 0⟩ zeroState).2.setTime_calls =
      [⟨23, 32, 45, 20, 7, 24⟩] := by
  have hcase : check_CIV B msg s = casePosit B msg (enterSwitch msg s) := by
    rw [check_CIV_of_cmd B msg s CIV_C_MY_POSIT_DATA hd (by rw [hc]; decide) (by decide)]; rfl
  rw [hcase]
  refine ⟨rfl, ?_, by decide⟩
  have hU0 : ¬ B.UTC = 0 := by omega
  simp only [casePosit, if_neg hU0]
  rfl

/-- Instance of C27 at the documented message. -/
theorem gps_report_sets_time_witness :
    (⟨CIV_OK_DAV, [0x01, 0x23], gpsSample, 0⟩ : CIVresult_t).retVal = CIV_OK_DAV ∧
    defaultBuild.UTC = 1 ∧
    (check_CIV defaultBuild ⟨CIV_OK_DAV, [0x01, 0x23], gpsSample, 0⟩ zeroState).1 = 6 :=
  ⟨rfl, rfl,
    (gps_report_sets_time defaultBuild ⟨CIV_OK_DAV, [0x01, 0x23], gpsSample, 0⟩ zeroState rfl
      rfl rfl).1⟩

/-! ## Auxiliary facts: the matcher on an arbitrary table -/

/-- The outer loop stops at the first accepted row. -/
theorem scanLoop_first_accept (cmd : List Nat) (B : cmdList) :
    ∀ (t : List cmdList) (n k : Nat), t[k]? = some B → accepts B cmd →
      (∀ j e, j < k → t[j]? = some e → ¬ accepts e cmd) →
      scanLoop cmd t n 0 = n + k := by
  intro t
  induction t with
  | nil => intro n k hk; simp at hk
  | cons e rest ih =>
    intro n k hk hB hfirst
    cases k with
    | zero =>
      simp at hk
      subst hk
      unfold accepts at hB
      simp [scanLoop, hB]
    | succ k1 =>
      have hrej : ¬ accepts e cmd := hfirst 0 e (by omega) (by simp)
      unfold accepts at hrej
      have hz := reject_zero e cmd hrej
      have hstep : scanLoop cmd (e :: rest) n 0 = scanLoop cmd rest (n + 1) 0 := by
        simp only [scanLoop]
        rw [if_neg hrej, hz]
      rw [hstep, ih (n + 1) k1 (by simpa using hk) hB
        (fun j e1 hj hget => hfirst (j + 1) e1 (by omega) (by simpa using hget))]
      omega

theorem accepts_iff (e : cmdList) (cmd : List Nat) :
    accepts e cmd ↔ byteAt cmd 0 < 255 ∧ sigMatches e cmd :=
  accept_iff e cmd

/-! ## Properties of the matcher and of the mode table (C28 to C30) -/

/-- C28 (counterexample). In the table `[A, B]` the length-2 signature `A = 16 02`
stands first and is a byte-prefix of the length-3 signature `B = 16 02 00`; the
matcher applied to the body `03 16 02 00` stops at position 1, which is `B`, not
at `A`. The same holds in `cmd_List`, where `CIV_C_PREAMP_READ` precedes
`CIV_C_PREAMP_OFF`. -/
theorem prefix_first_in_table_still_resolves_to_longer :
    matchIn [⟨CIV_C_PREAMP_READ, [2, 0x16, 0x02]⟩, ⟨CIV_C_PREAMP_OFF, [3, 0x16, 0x02, 0x00]⟩]
      [0x03, 0x16, 0x02, 0x00] = 1 ∧
    matchIn [⟨CIV_C_PREAMP_READ, [2, 0x16, 0x02]⟩, ⟨CIV_C_PREAMP_OFF, [3, 0x16, 0x02, 0x00]⟩]
      [0x03, 0x16, 0x02, 0x00] ≠ 0 ∧
    cmd_List[CIV_C_PREAMP_READ]? = some ⟨CIV_C_PREAMP_READ, [2, 0x16, 0x02]⟩ ∧
    CIV_C_PREAMP_READ < CIV_C_PREAMP_OFF ∧
    matchCmd [0x03, 0x16, 0x02, 0x00] = CIV_C_PREAMP_OFF := by
  decide

/-- C28 (amended). In any signature table, a 3-byte body whose bytes equal a
length-3 signature `B` resolves to the position of `B` when every earlier row is
either the length-2 signature `A` or differs from the body: `A` is never accepted
for that body, whether it stands before or after `B`. -/
theorem prefix_signature_never_wins (t : List cmdList) (A B : cmdList) (cmd : List Nat)
    (k : Nat) (hA : byteAt A.cmdData 0 = 2) (h3 : byteAt cmd 0 = 3) (hk : t[k]? = some B)
    (hB : sigMatches B cmd)
    (hfirst : ∀ j e, j < k → t[j]? = some e → e = A ∨ ¬ sigMatches e cmd) :
    matchIn t cmd = k ∧ ¬ accepts A cmd := by
  have hnA : ¬ accepts A cmd := by
    rw [accepts_iff]
    rintro ⟨_, hs⟩
    have := hs.1
    omega
  refine ⟨?_, hnA⟩
  unfold matchIn
  rw [scanLoop_first_accept cmd B t 0 k hk ((accepts_iff B cmd).mpr ⟨by omega, hB⟩)]
  · omega
  · intro j e hj hget
    rcases hfirst j e hj hget with h | h
    · rw [h]; exact hnA
    · rw [accepts_iff]; exact fun hh => h hh.2

/-- Instance of the amended C28 with `A` before `B`. -/
theorem prefix_signature_never_wins_witness :
    byteAt [2, 0x16, 0x02] 0 = 2 ∧ byteAt [0x03, 0x16, 0x02, 0x00] 0 = 3 ∧
    sigMatches ⟨CIV_C_PREAMP_OFF, [3, 0x16, 0x02, 0x00]⟩ [0x03, 0x16, 0x02, 0x00] ∧
    matchIn [⟨CIV_C_PREAMP_READ, [2, 0x16, 0x02]⟩, ⟨CIV_C_PREAMP_OFF, [3, 0x16, 0x02, 0x00]⟩]
      [0x03, 0x16, 0x02, 0x00] = 1 ∧
    ¬ accepts ⟨CIV_C_PREAMP_READ, [2, 0x16, 0x02]⟩ [0x03, 0x16, 0x02, 0x00] :=
  ⟨by decide, by decide, by decide,
    prefix_signature_never_wins
      [⟨CIV_C_PREAMP_READ, [2, 0x16, 0x02]⟩, ⟨CIV_C_PREAMP_OFF, [3, 0x16, 0x02, 0x00]⟩]
      ⟨CIV_C_PREAMP_READ, [2, 0x16, 0x02]⟩ ⟨CIV_C_PREAMP_OFF, [3, 0x16, 0x02, 0x00]⟩
      [0x03, 0x16, 0x02, 0x00] 1 (by decide) (by decide) (by decide) (by decide)
      (by
        intro j e hj hget
        have hj0 : j = 0 := by omega
        subst hj0
        left
        simpa using hget.symm)⟩

/-- C29. For a body with declared length at most 5, the inner comparison loop
accepts a table row exactly when the row has the length byte of the body and the
same payload bytes `1 .. length`; a row whose length byte is below the declared
length of the body, such as a strict prefix, is never accepted. -/
theorem inner_loop_accepts_iff (e : cmdList) (cmd : List Nat) (h : byteAt cmd 0 ≤ 5) :
    (accepts e cmd ↔ sigMatches e cmd) ∧
    (byteAt e.cmdData 0 < byteAt cmd 0 → ¬ accepts e cmd) := by
  constructor
  · rw [accepts_iff]
    exact ⟨fun hh => hh.2, fun hs => ⟨by omega, hs⟩⟩
  · intro hlt
    rw [accepts_iff]
    rintro ⟨_, hs⟩
    have := hs.1
    omega

/-- Instance of C29: the row `16 02` against the body `03 16 02 00`. -/
theorem inner_loop_accepts_iff_witness :
    byteAt [0x03, 0x16, 0x02, 0x00] 0 ≤ 5 ∧
    ((accepts ⟨CIV_C_PREAMP_READ, [2, 0x16, 0x02]⟩ [0x03, 0x16, 0x02, 0x00] ↔
      sigMatches ⟨CIV_C_PREAMP_READ, [2, 0x16, 0x02]⟩ [0x03, 0x16, 0x02, 0x00]) ∧
    (byteAt [2, 0x16, 0x02] 0 < byteAt [0x03, 0x16, 0x02, 0x00] 0 →
      ¬ accepts ⟨CIV_C_PREAMP_READ, [2, 0x16, 0x02]⟩ [0x03, 0x16, 0x02, 0x00])) :=
  ⟨by decide,
    inner_loop_accepts_iff ⟨CIV_C_PREAMP_READ, [2, 0x16, 0x02]⟩ [0x03, 0x16, 0x02, 0x00]
      (by decide)⟩

/-- Mode table after the extended-mode branch: `Width` is written in the row of the
mode index the current band had before the call, then in the row that `radio_mode`
selects. -/
theorem caseF26_modeList (B : Build) (msg : CIVresult_t) (s : State) :
    (caseF26 B msg s).2.modeList =
      Function.update
        (Function.update s.modeList (s.bandmem s.curr_band).mode_A
          { s.modeList (s.bandmem s.curr_band).mode_A with Width := byteAt msg.datafield 4 })
        (caseF26 B msg s).2.radio_mode
        { (Function.update s.modeList (s.bandmem s.curr_band).mode_A
            { s.modeList (s.bandmem s.curr_band).mode_A with Width := byteAt msg.datafield 4 })
            (caseF26 B msg s).2.radio_mode with Width := byteAt msg.datafield 4 } := by
  rw [caseF26_radio_mode]
  unfold caseF26
  simp only [findModeData_setWidth]
  simp only [State.setBand, State.setWidth, Function.update_same]
  cases findModeData s.modeList (byteAt msg.datafield 2) (byteAt msg.datafield 3) B.MODES_NUM 0
    <;> simp only [Option.getD_none, Option.getD_some, Function.update_same]

/-- C30 (counterexample). On the sample state the current band has mode index 0;
the report `26 00` with mode USB, data on and filter 3 resolves to row 9 and also
changes row 0, whose `Width` goes from 2 to 3. -/
theorem f26_changes_row_of_previous_mode :
    isF26 ⟨CIV_OK_DAV, [0x02, 0x26, 0x00], [4, 0x00, 0x01, 0x01, 0x03], 0⟩ ∧
    isFirstMode sampleState.modeList defaultBuild.MODES_NUM 0x01 0x01 9 ∧
    (sampleState.bandmem sampleState.curr_band).mode_A = 0 ∧
    (sampleState.modeList 0).Width = 2 ∧
    ((check_CIV defaultBuild ⟨CIV_OK_DAV, [0x02, 0x26, 0x00], [4, 0x00, 0x01, 0x01, 0x03], 0⟩
      sampleState).2.modeList 0).Width = 3 ∧
    (check_CIV defaultBuild ⟨CIV_OK_DAV, [0x02, 0x26, 0x00], [4, 0x00, 0x01, 0x01, 0x03], 0⟩
      sampleState).2.modeList 0 ≠ sampleState.modeList 0 := by
  refine ⟨by decide, by unfold isFirstMode; decide, by decide, by decide, by decide, by decide⟩

/-- C30 (amended). For an extended-mode report whose (mode, data) pair resolves to
index `k`, no mode-table entry other than entry `k` and the entry at the mode index
the current band had before the call is changed, and every entry keeps all its
fields except `Width`. -/
theorem f26_changes_only_width (B : Build) (msg : CIVresult_t) (s : State) (k : Nat)
    (hF : isF26 msg)
    (hk : isFirstMode s.modeList B.MODES_NUM (byteAt msg.datafield 2)
      (byteAt msg.datafield 3) k) (i : Nat) :
    (i ≠ k → i ≠ (s.bandmem s.curr_band).mode_A →
      (check_CIV B msg s).2.modeList i = s.modeList i) ∧
    (check_CIV B msg s).2.modeList i =
      { s.modeList i with Width := ((check_CIV B msg s).2.modeList i).Width } := by
  rw [check_CIV_of_isF26 B msg s hF, caseF26_modeList]
  have hr := caseF26_radio_mode B msg (enterSwitch msg s)
  simp only [enterSwitch_modeList, findModeData_of_first _ _ _ _ _ hk, Option.getD_some] at hr
  rw [hr]
  simp only [enterSwitch_modeList, enterSwitch_bandmem, enterSwitch_curr_band]
  by_cases h1 : i = k
  · subst h1
    simp only [Function.update_same]
    refine ⟨fun h => absurd rfl h, ?_⟩
    by_cases h2 : i = (s.bandmem s.curr_band).mode_A
    · rw [← h2]; simp only [Function.update_same]
    · simp only [Function.update_noteq h2]
  · simp only [Function.update_noteq h1]
    by_cases h2 : i = (s.bandmem s.curr_band).mode_A
    · rw [← h2]
      simp only [Function.update_same]
      exact ⟨fun _ h => absurd rfl h, trivial⟩
    · simp only [Function.update_noteq h2]
      exact ⟨fun _ _ => trivial, trivial⟩

/-- Instance of the amended C30 at row 5 of the sample table. -/
theorem f26_changes_only_width_witness :
    isF26 ⟨CIV_OK_DAV, [0x02, 0x26, 0x00], [4, 0x00, 0x01, 0x01, 0x03], 0⟩ ∧
    isFirstMode sampleState.modeList defaultBuild.MODES_NUM
      (byteAt [4, 0x00, 0x01, 0x01, 0x03] 2) (byteAt [4, 0x00, 0x01, 0x01, 0x03] 3) 9 ∧
    (check_CIV defaultBuild ⟨CIV_OK_DAV, [0x02, 0x26, 0x00], [4, 0x00, 0x01, 0x01, 0x03], 0⟩
      sampleState).2.modeList 5 = sampleState.modeList 5 :=
  ⟨by decide, by unfold isFirstMode; decide,
    (f26_changes_only_width defaultBuild
      ⟨CIV_OK_DAV, [0x02, 0x26, 0x00], [4, 0x00, 0x01, 0x01, 0x03], 0⟩ sampleState 9
      (by decide) (by unfold isFirstMode; decide) 5).1 (by decide) (by decide)⟩

/-! ## Properties of the mode index and of the command table (C31 to C33) -/

/-- C31 (evaluation at the failing input). An extended-mode report whose mode code
`17` is not in the mode table, from a state in which `radio_mode` and every mode
index of the band memory are below `MODES_NUM`: after the call `radio_mode` holds
the raw code 23, which is not below `MODES_NUM` (12), and line 350 has written the
`Width` of row 23 of `modeList`, a row outside the table. -/
theorem f26_unknown_mode_breaks_index_range :
    modeIndicesValid defaultBuild sampleState ∧
    isF26 ⟨CIV_OK_DAV, [0x02, 0x26, 0x00], [4, 0x00, 0x17, 0x00, 0x01], 0⟩ ∧
    ¬ pairOccurs sampleState.modeList defaultBuild.MODES_NUM 0x17 0x00 ∧
    (check_CIV defaultBuild ⟨CIV_OK_DAV, [0x02, 0x26, 0x00], [4, 0x00, 0x17, 0x00, 0x01], 0⟩
      sampleState).2.radio_mode = 0x17 ∧
    ¬ modeIndicesValid defaultBuild
      (check_CIV defaultBuild ⟨CIV_OK_DAV, [0x02, 0x26, 0x00], [4, 0x00, 0x17, 0x00, 0x01], 0⟩
        sampleState).2 ∧
    (sampleState.modeList 0x17).Width = 0 ∧
    ((check_CIV defaultBuild ⟨CIV_OK_DAV, [0x02, 0x26, 0x00], [4, 0x00, 0x17, 0x00, 0x01], 0⟩
      sampleState).2.modeList 0x17).Width = 1 := by
  refine ⟨⟨by decide, fun b => ?_⟩, by decide, by unfold pairOccurs; decide, by decide,
    fun h => absurd h.1 (by decide), by decide, by decide⟩
  show (0 : Nat) < 12 ∧ (0 : Nat) < 12 ∧ (0 : Nat) < 12
  decide

/-- C32 (evaluation at the failing input). The body `03 16 02 00` resolves to
`CIV_C_PREAMP_OFF`, but the body `03 16 02 01` agrees with no row of the table: the
row of `CIV_C_PREAMP_ON` carries the third byte `00`, the outer loop runs to
`End_of_Cmd_List`, and `check_CIV` leaves by the no-match exit with 0. -/
theorem preamp_on_body_matches_no_row :
    matchCmd [0x03, 0x16, 0x02, 0x00] = CIV_C_PREAMP_OFF ∧
    cmdDataAt CIV_C_PREAMP_ON = [3, 0x16, 0x02, 0x00] ∧
    matchCmd [0x03, 0x16, 0x02, 0x01] = End_of_Cmd_List ∧
    matchCmd [0x03, 0x16, 0x02, 0x01] ≠ CIV_C_PREAMP_ON ∧
    noMatchExit [0x03, 0x16, 0x02, 0x01] ∧
    (check_CIV defaultBuild ⟨CIV_OK_DAV, [0x03, 0x16, 0x02, 0x01], [1, 0x01], 1⟩
      zeroState).1 = 0 := by
  decide

/-- A row of the table that repeats the signature of an earlier row is never the
row at which the matcher stops. -/
theorem matchCmd_ne_of_duplicate (cmd : List Nat) (i j : Nat) (ei ej : cmdList)
    (hij : i < j) (hi : cmd_List[i]? = some ei) (hj : cmd_List[j]? = some ej)
    (hd : ei.cmdData = ej.cmdData) : matchCmd cmd ≠ j := by
  intro hm
  unfold matchCmd at hm
  rcases scanLoop_spec cmd cmd_List CIV_C_F_SEND cmd_List_lengths with
    ⟨k, e, hk, hget, hsig, hfirst⟩ | ⟨hend, _⟩
  · have hkj : k = j := by rw [hk] at hm; simpa [CIV_C_F_SEND] using hm
    subst hkj
    rw [hj] at hget
    cases hget
    apply hfirst i ei hij hi
    unfold sigMatches at hsig ⊢
    rw [hd]
    exact hsig
  · rw [hend, cmd_List_length] at hm
    have hlt : j < cmd_List.length := by
      rcases List.getElem?_eq_some_iff.mp hj with ⟨h, _⟩
      exact h
    rw [cmd_List_length] at hlt
    simp only [CIV_C_F_SEND] at hm
    omega

/-- Two rows that agree with one body agree with each other. -/
theorem sigMatches_of_common_body (e1 e : cmdList) (cmd : List Nat)
    (h1 : sigMatches e1 cmd) (h : sigMatches e cmd) : sigMatches e1 e.cmdData := by
  unfold sigMatches at *
  obtain ⟨a1, b1⟩ := h1
  obtain ⟨a, b⟩ := h
  refine ⟨by rw [a1, a], fun i hi => ?_⟩
  rw [b1 i hi, b i (by omega)]

/-- The matcher stops at row `k` for every body that agrees with row `k`, when no
earlier row of the table agrees with the signature of row `k`. -/
theorem matchCmd_eq_of_first (cmd : List Nat) (k : Nat) (e : cmdList)
    (hk : cmd_List[k]? = some e) (hs : sigMatches e cmd)
    (hfirst : ∀ j, j < k → ¬ sigMatches (cmd_List.getD j ⟨0, []⟩) e.cmdData) :
    matchCmd cmd = k := by
  unfold matchCmd
  rcases scanLoop_spec cmd cmd_List CIV_C_F_SEND cmd_List_lengths with
    ⟨k1, e1, hk1, hget, hsig, hf⟩ | ⟨_, hnone⟩
  · rw [hk1]
    simp only [CIV_C_F_SEND, Nat.zero_add]
    rcases Nat.lt_trichotomy k1 k with hlt | heq | hgt
    · exfalso
      apply hfirst k1 hlt
      have hrow : cmd_List.getD k1 ⟨0, []⟩ = e1 := by
        simp [List.getD_eq_getElem?_getD, hget]
      rw [hrow]
      exact sigMatches_of_common_body e1 e cmd hsig hs
    · exact heq
    · exact absurd hs (hf k e hgt hk)
  · exact absurd hs (hnone e (List.getElem?_mem hk))

/-- C33. No body makes the matcher stop at `CIV_C_PREAMP_ON` or at `CIV_C_RF_POW`:
the row of `CIV_C_PREAMP_ON` has the signature bytes of the earlier row
`CIV_C_PREAMP_OFF` and the row of `CIV_C_RF_POW` those of the earlier row
`CIV_C_RFPOWER`, and the earlier row wins: every body that agrees with the row of
`CIV_C_PREAMP_ON` makes the matcher stop at `CIV_C_PREAMP_OFF`, every body that
agrees with the row of `CIV_C_RF_POW` makes it stop at `CIV_C_RFPOWER`, as the
bodies `03 16 02 00` and `02 14 0A` do. These are the only two pairs of rows with
equal signatures, and every row lists exactly its declared length and as many
payload bytes. -/
theorem duplicate_rows_never_win (cmd : List Nat) :
    matchCmd cmd ≠ CIV_C_PREAMP_ON ∧ matchCmd cmd ≠ CIV_C_RF_POW ∧
    cmdDataAt CIV_C_PREAMP_ON = cmdDataAt CIV_C_PREAMP_OFF ∧
    CIV_C_PREAMP_OFF < CIV_C_PREAMP_ON ∧
    cmdDataAt CIV_C_RF_POW = cmdDataAt CIV_C_RFPOWER ∧ CIV_C_RFPOWER < CIV_C_RF_POW ∧
    (∀ e ∈ cmd_List, e.cmdData.length = byteAt e.cmdData 0 + 1) ∧
    (∀ i j : Nat, (i < j ∧ j < End_of_Cmd_List ∧ cmdDataAt i = cmdDataAt j) ↔
      ((i = CIV_C_PREAMP_OFF ∧ j = CIV_C_PREAMP_ON) ∨
        (i = CIV_C_RFPOWER ∧ j = CIV_C_RF_POW))) ∧
    (sigMatches ⟨CIV_C_PREAMP_ON, cmdDataAt CIV_C_PREAMP_ON⟩ cmd →
      matchCmd cmd = CIV_C_PREAMP_OFF) ∧
    (sigMatches ⟨CIV_C_RF_POW, cmdDataAt CIV_C_RF_POW⟩ cmd →
      matchCmd cmd = CIV_C_RFPOWER) ∧
    matchCmd [0x03, 0x16, 0x02, 0x00] = CIV_C_PREAMP_OFF ∧
    matchCmd [0x02, 0x14, 0x0A] = CIV_C_RFPOWER := by
  refine ⟨?_, ?_, by decide, by decide, by decide, by decide, by decide, ?_, ?_, ?_,
    by decide, by decide⟩
  · exact matchCmd_ne_of_duplicate cmd CIV_C_PREAMP_OFF CIV_C_PREAMP_ON
      ⟨CIV_C_PREAMP_OFF, [3, 0x16, 0x02, 0x00]⟩ ⟨CIV_C_PREAMP_ON, [3, 0x16, 0x02, 0x00]⟩
      (by decide) rfl rfl rfl
  · exact matchCmd_ne_of_duplicate cmd CIV_C_RFPOWER CIV_C_RF_POW
      ⟨CIV_C_RFPOWER, [2, 0x14, 0x0A]⟩ ⟨CIV_C_RF_POW, [2, 0x14, 0x0A]⟩
      (by decide) rfl rfl rfl
  · have hall : ∀ j, j < End_of_Cmd_List → ∀ i, i < j → cmdDataAt i = cmdDataAt j →
        ((i = CIV_C_PREAMP_OFF ∧ j = CIV_C_PREAMP_ON) ∨
          (i = CIV_C_RFPOWER ∧ j = CIV_C_RF_POW)) := by
      decide
    intro i j
    constructor
    · rintro ⟨hij, hj, he⟩
      exact hall j hj i hij he
    · rintro (⟨rfl, rfl⟩ | ⟨rfl, rfl⟩) <;> decide
  · intro h
    have hfirst : ∀ j, j < CIV_C_PREAMP_OFF →
        ¬ sigMatches (cmd_List.getD j ⟨0, []⟩) [3, 0x16, 0x02, 0x00] := by decide
    exact matchCmd_eq_of_first cmd CIV_C_PREAMP_OFF ⟨CIV_C_PREAMP_OFF, [3, 0x16, 0x02, 0x00]⟩
      rfl h hfirst
  · intro h
    have hfirst : ∀ j, j < CIV_C_RFPOWER →
        ¬ sigMatches (cmd_List.getD j ⟨0, []⟩) [2, 0x14, 0x0A] := by decide
    exact matchCmd_eq_of_first cmd CIV_C_RFPOWER ⟨CIV_C_RFPOWER, [2, 0x14, 0x0A]⟩
      rfl h hfirst

/-- Instance of C33: a body that agrees with the row of `CIV_C_RF_POW` and one that
agrees with the row of `CIV_C_PREAMP_ON`, each followed by further bytes. -/
theorem duplicate_rows_never_win_witness :
    sigMatches ⟨CIV_C_RF_POW, cmdDataAt CIV_C_RF_POW⟩ [0x02, 0x14, 0x0A, 0x01, 0x28] ∧
    matchCmd [0x02, 0x14, 0x0A, 0x01, 0x28] = CIV_C_RFPOWER ∧
    sigMatches ⟨CIV_C_PREAMP_ON, cmdDataAt CIV_C_PREAMP_ON⟩ [0x03, 0x16, 0x02, 0x00, 0x07] ∧
    matchCmd [0x03, 0x16, 0x02, 0x00, 0x07] = CIV_C_PREAMP_OFF ∧
    matchCmd [0x03, 0x16, 0x02, 0x00, 0x07] ≠ CIV_C_PREAMP_ON :=
  ⟨by decide,
    (duplicate_rows_never_win [0x02, 0x14, 0x0A, 0x01, 0x28]).2.2.2.2.2.2.2.2.2.1 (by decide),
    by decide,
    (duplicate_rows_never_win [0x03, 0x16, 0x02, 0x00, 0x07]).2.2.2.2.2.2.2.2.1 (by decide),
    (duplicate_rows_never_win [0x03, 0x16, 0x02, 0x00, 0x07]).1⟩

/-! ## Auxiliary facts: the frequency loop over the naturals -/

/-- Every value the loop of lines 268-271 computes over the naturals is below
`2 ^ 64` when the largest reachable result is. -/
theorem exactTrace_lt (rx : List Nat) :
    ∀ (n idx mul f : Nat), f + mul * accBound n < 2 ^ 64 →
      ∀ v ∈ exactTrace rx n idx mul f, v < 2 ^ 64 := by
  intro n
  induction n with
  | zero => intro idx mul f _ v hv; simp [exactTrace] at hv
  | succ k ih =>
    intro idx mul f h v hv
    simp only [accBound] at h
    have hb := byteAt_lt rx idx
    have hlo : byteAt rx idx &&& 0x0f ≤ 15 := by rw [and15_eq]; omega
    have hhi : byteAt rx idx >>> 4 ≤ 15 := by rw [shr4_eq]; omega
    have hMA : mul * (165 + 100 * accBound k) = 165 * mul + 100 * (mul * accBound k) := by ring
    have h1 : (byteAt rx idx &&& 0x0f) * mul ≤ 15 * mul := Nat.mul_le_mul_right _ hlo
    have h2 : (byteAt rx idx >>> 4) * mul ≤ 15 * mul := Nat.mul_le_mul_right _ hhi
    have e4 : (byteAt rx idx >>> 4) * (mul * 10) = 10 * ((byteAt rx idx >>> 4) * mul) := by ring
    have e5 : mul * 10 * 10 * accBound k = 100 * (mul * accBound k) := by ring
    simp only [exactTrace, List.mem_cons] at hv
    rcases hv with rfl | rfl | rfl | rfl | rfl | rfl | hv
    · omega
    · omega
    · omega
    · omega
    · omega
    · omega
    · exact ih (idx + 1) _ _ (by omega) v hv

/-- A run of bytes whose digit pairs are all at most 99 has a value below
`100 ^ n`. -/
theorem bcdValue_lt_pow (rx : List Nat) :
    ∀ (n idx : Nat), (∀ i, i < n → digitPair (byteAt rx (idx + i)) ≤ 99) →
      bcdValue rx idx n < 100 ^ n := by
  intro n
  induction n with
  | zero => intro idx _; simp [bcdValue]
  | succ k ih =>
    intro idx h
    have h0 := h 0 (by omega)
    have hk := ih (idx + 1) (fun i hi => by
      have := h (i + 1) (by omega)
      rwa [show idx + (i + 1) = idx + 1 + i by omega] at this)
    simp only [bcdValue, pow_succ]
    simp only [Nat.add_zero] at h0
    omega

theorem digitPair_le_99_of_valid (b : Nat) (hv : validBcd b) : digitPair b ≤ 99 := by
  unfold validBcd at hv
  unfold digitPair
  omega

/-! ## Properties of the band-stack branch (C34 and C35) -/

/-- C34. For every choice of the `F_len` (5 or 6) frequency bytes of a band-stack
report, nibbles above 9 included, no product and no value of `bstack_freq` or of
the multiplier computed by the loop of lines 268-271 over the naturals exceeds
`2 ^ 64 - 1`, so the 64-bit result is the exact sum of the digit pairs weighted by
the powers of 100; when every nibble is at most 9 the result is below
`10 ^ (2 * F_len)`. -/
theorem bstack_freq_never_overflows (B : Build) (datafield : List Nat) :
    (F_len B = 5 ∨ F_len B = 6) ∧
    (∀ v ∈ exactTrace (copyFreqBytes datafield 3 (F_len B)) (F_len B) 0 1 0,
      v ≤ 2 ^ 64 - 1) ∧
    bstack_freq B datafield =
      ∑ i ∈ Finset.range (F_len B),
        ((byteAt datafield (3 + i) &&& 0x0F) + 10 * (byteAt datafield (3 + i) >>> 4)) *
          100 ^ i ∧
    ((∀ i, i < F_len B → validBcd (byteAt datafield (3 + i))) →
      bstack_freq B datafield < 10 ^ (2 * F_len B)) := by
  have hF : F_len B ≤ 9 := by rcases F_len_cases B with h | h <;> omega
  refine ⟨F_len_cases B, ?_, ?_, ?_⟩
  · intro v hv
    have := exactTrace_lt _ (F_len B) 0 1 0 (by have := accBound_lt _ hF; omega) v hv
    omega
  · rw [bstack_freq_eq_bcdValue, bcdValue_eq_sum]
    apply Finset.sum_congr rfl
    intro i hi
    rw [Nat.zero_add, byteAt_copyFreqBytes _ _ _ _ (Finset.mem_range.mp hi)]
    rfl
  · intro hv
    rw [bstack_freq_eq_bcdValue, pow_mul]
    apply bcdValue_lt_pow
    intro i hi
    rw [Nat.zero_add, byteAt_copyFreqBytes _ _ _ _ hi]
    exact digitPair_le_99_of_valid _ (hv i hi)

/-- Instance of C34: the five bytes `00 00 20 44 01` of 144.2 MHz on the IC-705 are
valid BCD, the decoded frequency is 144200000 and it is below `10 ^ 10`. -/
theorem bstack_freq_never_overflows_witness :
    (∀ i, i < F_len defaultBuild →
      validBcd (byteAt [10, 1, 1, 0x00, 0x00, 0x20, 0x44, 0x01, 0x01, 0x02, 0x00] (3 + i))) ∧
    bstack_freq defaultBuild [10, 1, 1, 0x00, 0x00, 0x20, 0x44, 0x01, 0x01, 0x02, 0x00] =
      144200000 ∧
    bstack_freq defaultBuild [10, 1, 1, 0x00, 0x00, 0x20, 0x44, 0x01, 0x01, 0x02, 0x00] <
      10 ^ (2 * F_len defaultBuild) :=
  have hv : ∀ i, i < F_len defaultBuild →
      validBcd (byteAt [10, 1, 1, 0x00, 0x00, 0x20, 0x44, 0x01, 0x01, 0x02, 0x00] (3 + i)) := by
    decide
  ⟨hv, by decide,
    (bstack_freq_never_overflows defaultBuild
      [10, 1, 1, 0x00, 0x00, 0x20, 0x44, 0x01, 0x01, 0x02, 0x00]).2.2.2 hv⟩

/-- C35 (counterexample). A band-stack report for band code 1 with register code 4
carries 144.2 MHz while the stored frequencies of the band are 0: the call returns
3 and no band record is written, the band memory after the call is the one before
it. -/
theorem bstack_register_4_writes_no_band_record :
    isBstack ⟨CIV_OK_DAV, [0x02, 0x1A, 0x01],
      [10, 1, 4, 0x00, 0x00, 0x20, 0x44, 0x01, 0x01, 0x02, 0x00], 0⟩ ∧
    bstack_freq defaultBuild [10, 1, 4, 0x00, 0x00, 0x20, 0x44, 0x01, 0x01, 0x02, 0x00] =
      144200000 ∧
    (sampleState.bandmem defaultBuild.BAND144).vfo_A_last = 0 ∧
    (check_CIV defaultBuild ⟨CIV_OK_DAV, [0x02, 0x1A, 0x01],
      [10, 1, 4, 0x00, 0x00, 0x20, 0x44, 0x01, 0x01, 0x02, 0x00], 0⟩ sampleState).1 = 3 ∧
    (check_CIV defaultBuild ⟨CIV_OK_DAV, [0x02, 0x1A, 0x01],
      [10, 1, 4, 0x00, 0x00, 0x20, 0x44, 0x01, 0x01, 0x02, 0x00], 0⟩
      sampleState).2.bandmem = sampleState.bandmem := by
  refine ⟨by decide, by decide, by decide, by decide, ?_⟩
  rw [check_CIV_of_isBstack _ _ _ (by decide), caseBstack_bandmem]
  rfl

/-- C35 (amended). For every band-stack report `check_CIV` returns 3 and leaves the
record of every band other than the chosen one as it was. The chosen band follows
the band code `datafield[1]`: 1 gives `BAND144`, 2 `BAND432`, 3 `BAND1296`,
4 `BAND2400`, 5 `BAND5760`, 6 `BAND10G` and any other code `BAND144`. With register
code 1, 2 or 3 the frequency slot of that register in the chosen record receives
the decoded frequency; with any other register code no band record is written. -/
theorem bstack_writes_only_chosen_band (B : Build) (msg : CIVresult_t) (s : State)
    (hB : isBstack msg) :
    (check_CIV B msg s).1 = 3 ∧
    (∀ b, b ≠ bstackBand B (byteAt msg.datafield 1) →
      (check_CIV B msg s).2.bandmem b = s.bandmem b) ∧
    bstackBand B (byteAt msg.datafield 1) =
      (if byteAt msg.datafield 1 = 1 then B.BAND144
       else if byteAt msg.datafield 1 = 2 then B.BAND432
       else if byteAt msg.datafield 1 = 3 then B.BAND1296
       else if byteAt msg.datafield 1 = 4 then B.BAND2400
       else if byteAt msg.datafield 1 = 5 then B.BAND5760
       else if byteAt msg.datafield 1 = 6 then B.BAND10G
       else B.BAND144) ∧
    (byteAt msg.datafield 2 = 1 →
      ((check_CIV B msg s).2.bandmem (bstackBand B (byteAt msg.datafield 1))).vfo_A_last =
        bstack_freq B msg.datafield) ∧
    (byteAt msg.datafield 2 = 2 →
      ((check_CIV B msg s).2.bandmem (bstackBand B (byteAt msg.datafield 1))).vfo_A_last_1 =
        bstack_freq B msg.datafield) ∧
    (byteAt msg.datafield 2 = 3 →
      ((check_CIV B msg s).2.bandmem (bstackBand B (byteAt msg.datafield 1))).vfo_A_last_2 =
        bstack_freq B msg.datafield) ∧
    (byteAt msg.datafield 2 ≠ 1 → byteAt msg.datafield 2 ≠ 2 → byteAt msg.datafield 2 ≠ 3 →
      (check_CIV B msg s).2.bandmem = s.bandmem) := by
  rw [check_CIV_of_isBstack B msg s hB]
  refine ⟨rfl, ?_, rfl, ?_, ?_, ?_, ?_⟩
  · intro b hb
    rw [caseBstack_bandmem]
    simp only [enterSwitch_bandmem]
    split_ifs <;> simp [Function.update_noteq hb]
  · intro h1
    rw [caseBstack_bandmem, if_pos h1, Function.update_same]
  · intro h2
    have h1 : byteAt msg.datafield 2 ≠ 1 := by omega
    rw [caseBstack_bandmem, if_neg h1, if_pos h2, Function.update_same]
  · intro h3
    have h1 : byteAt msg.datafield 2 ≠ 1 := by omega
    have h2 : byteAt msg.datafield 2 ≠ 2 := by omega
    rw [caseBstack_bandmem, if_neg h1, if_neg h2, if_pos h3, Function.update_same]
  · intro h1 h2 h3
    rw [caseBstack_bandmem, if_neg h1, if_neg h2, if_neg h3, enterSwitch_bandmem]

/-- Instance of C35: a report for band code 2 (432 MHz), register 1, leaves the
record of the 144 MHz band as it was and stores 432.1 MHz in the 432 MHz band. -/
theorem bstack_writes_only_chosen_band_witness :
    isBstack ⟨CIV_OK_DAV, [0x02, 0x1A, 0x01],
      [10, 2, 1, 0x00, 0x00, 0x10, 0x32, 0x04, 0x01, 0x02, 0x00], 0⟩ ∧
    (check_CIV defaultBuild ⟨CIV_OK_DAV, [0x02, 0x1A, 0x01],
      [10, 2, 1, 0x00, 0x00, 0x10, 0x32, 0x04, 0x01, 0x02, 0x00], 0⟩ sampleState).1 = 3 ∧
    (check_CIV defaultBuild ⟨CIV_OK_DAV, [0x02, 0x1A, 0x01],
      [10, 2, 1, 0x00, 0x00, 0x10, 0x32, 0x04, 0x01, 0x02, 0x00], 0⟩
      sampleState).2.bandmem defaultBuild.BAND144 = sampleState.bandmem defaultBuild.BAND144 ∧
    ((check_CIV defaultBuild ⟨CIV_OK_DAV, [0x02, 0x1A, 0x01],
      [10, 2, 1, 0x00, 0x00, 0x10, 0x32, 0x04, 0x01, 0x02, 0x00], 0⟩
      sampleState).2.bandmem defaultBuild.BAND432).vfo_A_last = 432100000 :=
  ⟨by decide,
    (bstack_writes_only_chosen_band defaultBuild ⟨CIV_OK_DAV, [0x02, 0x1A, 0x01],
      [10, 2, 1, 0x00, 0x00, 0x10, 0x32, 0x04, 0x01, 0x02, 0x00], 0⟩ sampleState
      (by decide)).1,
    (bstack_writes_only_chosen_band defaultBuild ⟨CIV_OK_DAV, [0x02, 0x1A, 0x01],
      [10, 2, 1, 0x00, 0x00, 0x10, 0x32, 0x04, 0x01, 0x02, 0x00], 0⟩ sampleState
      (by decide)).2.1 defaultBuild.BAND144 (by decide),
    by decide⟩

/-! ## Auxiliary facts: the TX-state branch -/

theorem check_CIV_of_isTxReport (B : Build) (msg : CIVresult_t) (s : State)
    (h : isTxReport msg) : check_CIV B msg s = caseTX msg (enterSwitch msg s) := by
  rcases h with ⟨hd, hc⟩
  rw [check_CIV_of_cmd B msg s CIV_C_TX hd (by rw [hc]; decide) (by decide)]
  rfl

/-- One TX-state report: the return code, the new value of the static `TX_last`,
the profile index and the transmit flag of the current profile. -/
theorem caseTX_step (msg : CIVresult_t) (t : State) :
    (caseTX msg t).1 = (if msg.value % 256 ≠ t.TX_last then 5 else 0) ∧
    (caseTX msg t).2.TX_last = msg.value % 256 ∧
    (caseTX msg t).2.user_Profile = t.user_Profile ∧
    (caseTX msg t).2.xmit t.user_Profile =
      (if msg.value % 256 ≠ t.TX_last then
        (if msg.value % 256 = 1 then 1 else if msg.value % 256 = 0 then 0
         else t.xmit t.user_Profile)
       else t.xmit t.user_Profile) := by
  unfold caseTX toU8
  generalize msg.value % 256 = v
  by_cases hc : v = t.TX_last
  · subst hc; simp
  · by_cases h1 : v = 1
    · subst h1; simp [hc]
    · by_cases h0 : v = 0
      · subst h0; simp [hc]
      · simp [hc, h1, h0]

/-- A sequence of TX-state reports from any state: codes and flag follow the
reference functions started at the value of `TX_last`. -/
theorem runCIV_tx (B : Build) :
    ∀ (msgs : List CIVresult_t) (s : State), (∀ m ∈ msgs, isTxReport m) →
      (runCIV B msgs s).1 = txCodes s.TX_last (msgs.map fun m => m.value) ∧
      (runCIV B msgs s).2.user_Profile = s.user_Profile ∧
      (runCIV B msgs s).2.xmit s.user_Profile =
        txFlag s.TX_last (s.xmit s.user_Profile) (msgs.map fun m => m.value) := by
  intro msgs
  induction msgs with
  | nil => intro s _; exact ⟨rfl, rfl, rfl⟩
  | cons m ms ih =>
    intro s h
    have hm : isTxReport m := h m (List.mem_cons_self _ _)
    have hms : ∀ m1 ∈ ms, isTxReport m1 := fun m1 h1 => h m1 (List.mem_cons_of_mem _ h1)
    have hstep : (check_CIV B m s).1 = (if m.value % 256 ≠ s.TX_last then 5 else 0) ∧
        (check_CIV B m s).2.TX_last = m.value % 256 ∧
        (check_CIV B m s).2.user_Profile = s.user_Profile ∧
        (check_CIV B m s).2.xmit s.user_Profile =
          (if m.value % 256 ≠ s.TX_last then
            (if m.value % 256 = 1 then 1 else if m.value % 256 = 0 then 0
             else s.xmit s.user_Profile)
           else s.xmit s.user_Profile) := by
      rw [check_CIV_of_isTxReport B m s hm]
      exact caseTX_step m (enterSwitch m s)
    obtain ⟨h1, h2, h3, h4⟩ := hstep
    have hrec := ih (check_CIV B m s).2 hms
    obtain ⟨r1, r2, r3⟩ := hrec
    simp only [runCIV, List.map_cons, txCodes, txFlag]
    rw [h3] at r2 r3
    rw [h2] at r1 r3
    rw [h4] at r3
    exact ⟨by rw [h1, r1], r2, r3⟩

/-! ## Properties of the TX-state branch (C36) -/

/-- C36 (counterexample). A first TX-state report with value 257: the value is
neither 1 nor 0, yet its low 8 bits are 1, the call returns 5 and the transmit flag
goes from 0 to 1 instead of staying as it was. -/
theorem tx_report_value_257_sets_xmit :
    isTxReport ⟨CIV_OK_DAV, [0x02, 0x1C, 0x00], [1, 0x01], 257⟩ ∧
    zeroState.TX_last = 0 ∧ zeroState.xmit zeroState.user_Profile = 0 ∧
    (257 : Nat) ≠ 1 ∧ (257 : Nat) ≠ 0 ∧
    (check_CIV defaultBuild ⟨CIV_OK_DAV, [0x02, 0x1C, 0x00], [1, 0x01], 257⟩ zeroState).1 = 5 ∧
    (check_CIV defaultBuild ⟨CIV_OK_DAV, [0x02, 0x1C, 0x00], [1, 0x01], 257⟩
      zeroState).2.xmit zeroState.user_Profile = 1 := by
  decide

/-- C36 (amended). For every sequence of TX-state reports (body `02 1C 00`) received
from a state in which the static `TX_last` has its initial value 0, `check_CIV`
returns 5 exactly for the reports whose value differs in its low 8 bits from the
report before it (from 0 for the first report) and 0 for the others; on such a
change the transmit flag of the current profile becomes 1 when the low 8 bits are
1, 0 when they are 0, and is left as it is for any other low 8 bits. -/
theorem tx_reports_follow_low_byte (B : Build) (msgs : List CIVresult_t) (s : State)
    (h0 : s.TX_last = 0) (hm : ∀ m ∈ msgs, isTxReport m) :
    (runCIV B msgs s).1 = txCodes 0 (msgs.map fun m => m.value) ∧
    (runCIV B msgs s).2.xmit s.user_Profile =
      txFlag 0 (s.xmit s.user_Profile) (msgs.map fun m => m.value) := by
  have h := runCIV_tx B msgs s hm
  rw [h0] at h
  exact ⟨h.1, h.2.2⟩

/-- Instance of C36: the values 1, 1, 0, 2, 257 in this order give the codes
5, 0, 5, 5, 5 and leave the transmit flag at 1. -/
theorem tx_reports_follow_low_byte_witness :
    zeroState.TX_last = 0 ∧
    (∀ m ∈ [(⟨CIV_OK_DAV, [0x02, 0x1C, 0x00], [1, 0x01], 1⟩ : CIVresult_t),
        ⟨CIV_OK_DAV, [0x02, 0x1C, 0x00], [1, 0x01], 1⟩,
        ⟨CIV_OK_DAV, [0x02, 0x1C, 0x00], [1, 0x00], 0⟩,
        ⟨CIV_OK_DAV, [0x02, 0x1C, 0x00], [1, 0x02], 2⟩,
        ⟨CIV_OK_DAV, [0x02, 0x1C, 0x00], [1, 0x01], 257⟩], isTxReport m) ∧
    (runCIV defaultBuild
      [⟨CIV_OK_DAV, [0x02, 0x1C, 0x00], [1, 0x01], 1⟩,
        ⟨CIV_OK_DAV, [0x02, 0x1C, 0x00], [1, 0x01], 1⟩,
        ⟨CIV_OK_DAV, [0x02, 0x1C, 0x00], [1, 0x00], 0⟩,
        ⟨CIV_OK_DAV, [0x02, 0x1C, 0x00], [1, 0x02], 2⟩,
        ⟨CIV_OK_DAV, [0x02, 0x1C, 0x00], [1, 0x01], 257⟩] zeroState).1 = [5, 0, 5, 5, 5] ∧
    (runCIV defaultBuild
      [⟨CIV_OK_DAV, [0x02, 0x1C, 0x00], [1, 0x01], 1⟩,
        ⟨CIV_OK_DAV, [0x02, 0x1C, 0x00], [1, 0x01], 1⟩,
        ⟨CIV_OK_DAV, [0x02, 0x1C, 0x00], [1, 0x00], 0⟩,
        ⟨CIV_OK_DAV, [0x02, 0x1C, 0x00], [1, 0x02], 2⟩,
        ⟨CIV_OK_DAV, [0x02, 0x1C, 0x00], [1, 0x01], 257⟩]
      zeroState).2.xmit zeroState.user_Profile = 1 :=
  have hm : ∀ m ∈ [(⟨CIV_OK_DAV, [0x02, 0x1C, 0x00], [1, 0x01], 1⟩ : CIVresult_t),
      ⟨CIV_OK_DAV, [0x02, 0x1C, 0x00], [1, 0x01], 1⟩,
      ⟨CIV_OK_DAV, [0x02, 0x1C, 0x00], [1, 0x00], 0⟩,
      ⟨CIV_OK_DAV, [0x02, 0x1C, 0x00], [1, 0x02], 2⟩,
      ⟨CIV_OK_DAV, [0x02, 0x1C, 0x00], [1, 0x01], 257⟩], isTxReport m := by decide
  ⟨rfl, hm,
    (tx_reports_follow_low_byte defaultBuild _ zeroState rfl hm).1.trans (by decide),
    (tx_reports_follow_low_byte defaultBuild _ zeroState rfl hm).2.trans (by decide)⟩

/-! ## Properties of `getByteResponse` (C37) -/

/-- C37. For every `m_Counter`, `offset` (both `uint8_t`) and buffer,
`getByteResponse` returns 0 when `m_Counter < offset + 3` and otherwise
`(100 * bcdByte(buffer[offset]) + bcdByte(buffer[offset + 1])) mod 256`, which is
the four-digit value itself whenever that value is at most 255; the bytes `01 20`
give 120 and the bytes `02 55` give 255. -/
theorem getByteResponse_spec (m_Counter offset : Nat) (buffer : List Nat)
    (hm : m_Counter < 256) (ho : offset < 256) :
    (m_Counter < offset + 3 → getByteResponse m_Counter offset buffer = 0) ∧
    (¬ m_Counter < offset + 3 →
      getByteResponse m_Counter offset buffer =
        (100 * bcdByte (byteAt buffer offset) + bcdByte (byteAt buffer (offset + 1))) % 256) ∧
    (¬ m_Counter < offset + 3 →
      100 * bcdByte (byteAt buffer offset) + bcdByte (byteAt buffer (offset + 1)) ≤ 255 →
      getByteResponse m_Counter offset buffer =
        100 * bcdByte (byteAt buffer offset) + bcdByte (byteAt buffer (offset + 1))) ∧
    getByteResponse 5 0 [0x01, 0x20] = 120 ∧ getByteResponse 5 0 [0x02, 0x55] = 255 := by
  have e1 : toU8 m_Counter = m_Counter := Nat.mod_eq_of_lt hm
  have e2 : toU8 offset = offset := Nat.mod_eq_of_lt ho
  have hgen : ¬ m_Counter < offset + 3 →
      getByteResponse m_Counter offset buffer =
        (100 * bcdByte (byteAt buffer offset) + bcdByte (byteAt buffer (offset + 1))) % 256 := by
    intro h
    unfold getByteResponse
    simp only [e1, e2, if_neg h]
    unfold toU8
    omega
  refine ⟨?_, hgen, ?_, by decide, by decide⟩
  · intro h
    unfold getByteResponse
    simp only [e1, e2, if_pos h]
  · intro h hle
    rw [hgen h]
    exact Nat.mod_eq_of_lt (by omega)

/-- Instance of C37: a six-byte message with the two data bytes `01 20` at offset 2
gives 120; with the bytes `12 34` the value 1234 is returned as 1234 mod 256 = 210. -/
theorem getByteResponse_spec_witness :
    (6 : Nat) < 256 ∧ (2 : Nat) < 256 ∧ ¬ (6 : Nat) < 2 + 3 ∧
    getByteResponse 6 2 [0xFE, 0xFE, 0x01, 0x20, 0xFD] = 120 ∧
    getByteResponse 6 2 [0xFE, 0xFE, 0x12, 0x34, 0xFD] = 210 ∧
    getByteResponse 4 2 [0xFE, 0xFE, 0x01, 0x20, 0xFD] = 0 :=
  ⟨by decide, by decide, by decide,
    ((getByteResponse_spec 6 2 [0xFE, 0xFE, 0x01, 0x20, 0xFD] (by decide) (by decide)).2.1
      (by decide)).trans (by decide),
    ((getByteResponse_spec 6 2 [0xFE, 0xFE, 0x12, 0x34, 0xFD] (by decide) (by decide)).2.1
      (by decide)).trans (by decide),
    (getByteResponse_spec 4 2 [0xFE, 0xFE, 0x01, 0x20, 0xFD] (by decide) (by decide)).1
      (by decide)⟩

/-! ## Auxiliary facts: `selectFrequency` -/

theorem intToU64_of_range (x : Int) (h0 : 0 ≤ x) (h1 : x < 2 ^ 64) :
    intToU64 x = x.toNat := by
  unfold intToU64
  rw [Int.emod_eq_of_lt h0 h1]

theorem intToU64_add_wrapInt (a x : Int) : intToU64 (a + wrapInt 64 x) = intToU64 (a + x) := by
  unfold intToU64 wrapInt
  congr 1
  norm_num
  omega

/-- Outside split-transmit, `VFOA` and `vfo_A_last` of the current band after the
call are the clamped value of `Freq` at line 54. -/
theorem selectFrequency_VFOA (newFreq : Int) (t : TunerState) (hs : ¬ splitTransmit t) :
    (selectFrequency newFreq t).VFOA =
      (if intToU64 (((toU64 (t.VFOA - t.VFOA % fstepOf t) : Nat) : Int) +
            newFreq * (fstepOf t : Int)) ≤ bottomFreq then bottomFreq
       else intToU64 (((toU64 (t.VFOA - t.VFOA % fstepOf t) : Nat) : Int) +
            newFreq * (fstepOf t : Int))) ∧
    ((selectFrequency newFreq t).bandmem t.curr_band).vfo_A_last =
      (selectFrequency newFreq t).VFOA := by
  unfold selectFrequency
  simp only [if_neg hs, intToU64_add_wrapInt, Function.update_same, and_self]

/-- Where the sum over the integers lies in the range of `uint64_t`, the call leaves
`VFOA` at the larger of the lower limit and that sum. -/
theorem selectFrequency_VFOA_in_range (newFreq : Int) (t : TunerState)
    (hs : ¬ splitTransmit t) (hV : t.VFOA < 2 ^ 64)
    (h0 : 0 ≤ ((t.VFOA - t.VFOA % fstepOf t : Nat) : Int) + newFreq * (fstepOf t : Int))
    (h1 : ((t.VFOA - t.VFOA % fstepOf t : Nat) : Int) + newFreq * (fstepOf t : Int) < 2 ^ 64) :
    ((selectFrequency newFreq t).VFOA : Int) =
      max (bottomFreq : Int)
        (((t.VFOA - t.VFOA % fstepOf t : Nat) : Int) + newFreq * (fstepOf t : Int)) := by
  have hF : toU64 (t.VFOA - t.VFOA % fstepOf t) = t.VFOA - t.VFOA % fstepOf t :=
    toU64_of_lt (by omega)
  rw [(selectFrequency_VFOA newFreq t hs).1, hF, intToU64_of_range _ h0 h1]
  generalize ((t.VFOA - t.VFOA % fstepOf t : Nat) : Int) + newFreq * (fstepOf t : Int) = M
    at h0 h1
  unfold bottomFreq
  push_cast
  split <;> omega

/-! ## Properties of `selectFrequency` (C38 and C39) -/

/-- C38 (evaluation at the failing input). With `VFOA = 0`, a step of 1000 Hz and
one count down, the sum over the integers is -1000 and the claimed result is the
lower limit 1000000; the unsigned `Freq` wraps to `2 ^ 64 - 1000`, the test of line
53 does not hold, and that value is stored in `VFOA` and in `vfo_A_last`. The same
happens from `VFOA = 1000000` with a step of 10000 Hz and 101 counts down. -/
theorem selectFrequency_wraps_below_zero :
    ¬ splitTransmit (tunerSample 0 1000) ∧ fstepOf (tunerSample 0 1000) = 1000 ∧
    max (bottomFreq : Int) ((((0 : Nat) - 0 % 1000 : Nat) : Int) + (-1) * 1000) = 1000000 ∧
    (selectFrequency (-1) (tunerSample 0 1000)).VFOA = 2 ^ 64 - 1000 ∧
    ((selectFrequency (-1) (tunerSample 0 1000)).bandmem
      (tunerSample 0 1000).curr_band).vfo_A_last = 2 ^ 64 - 1000 ∧
    max (bottomFreq : Int) ((((1000000 : Nat) - 1000000 % 10000 : Nat) : Int) +
      (-101) * 10000) = 1000000 ∧
    (selectFrequency (-101) (tunerSample 1000000 10000)).VFOA = 2 ^ 64 - 10000 := by
  refine ⟨by decide, by decide, by decide, by decide, by decide, by decide, by decide⟩

/-- C39 (counterexample). Outside split-transmit and with a step of 1000 Hz,
`selectFrequency(0)` raises a `VFOA` of 500000 to the lower limit 1000000, and it
changes a `VFOA` of 14074500 to 14074000. -/
theorem selectFrequency_zero_changes_VFOA :
    ¬ splitTransmit (tunerSample 500000 1000) ∧ 0 < fstepOf (tunerSample 500000 1000) ∧
    (tunerSample 500000 1000).VFOA = 500000 ∧
    (selectFrequency 0 (tunerSample 500000 1000)).VFOA = 1000000 ∧
    (tunerSample 14074500 1000).VFOA = 14074500 ∧
    (selectFrequency 0 (tunerSample 14074500 1000)).VFOA = 14074000 := by
  refine ⟨by decide, by decide, by decide, by decide, by decide, by decide⟩

/-- C39 (amended). For every `VFOA` that is a multiple of the tuning step
`fstep > 0`, `selectFrequency(0)` outside split-transmit leaves `VFOA` at the larger
of the lower limit 1000000 and its value before the call; so a `VFOA` at or above
the lower limit is left equal to its value before the call. -/
theorem selectFrequency_zero_keeps_aligned_VFOA (t : TunerState)
    (hs : ¬ splitTransmit t) (_hf : 0 < fstepOf t) (hV : t.VFOA < 2 ^ 64)
    (hd : fstepOf t ∣ t.VFOA) :
    (selectFrequency 0 t).VFOA = max bottomFreq t.VFOA ∧
    (bottomFreq ≤ t.VFOA → (selectFrequency 0 t).VFOA = t.VFOA) := by
  have hmod : t.VFOA % fstepOf t = 0 := Nat.mod_eq_zero_of_dvd hd
  have hF : toU64 (t.VFOA - t.VFOA % fstepOf t) = t.VFOA := by
    rw [hmod]; exact toU64_of_lt hV
  have hI : intToU64 (((toU64 (t.VFOA - t.VFOA % fstepOf t) : Nat) : Int) +
      0 * (fstepOf t : Int)) = t.VFOA := by
    rw [hF, intToU64_of_range _ (by omega) (by push_cast; omega)]
    simp
  have hmain : (selectFrequency 0 t).VFOA = max bottomFreq t.VFOA := by
    rw [(selectFrequency_VFOA 0 t hs).1, hI]
    split <;> omega
  refine ⟨hmain, fun hb => ?_⟩
  rw [hmain]
  omega

/-- Instance of C39: `VFOA = 14074000` with a step of 1000 Hz is left as it is. -/
theorem selectFrequency_zero_keeps_aligned_VFOA_witness :
    ¬ splitTransmit (tunerSample 14074000 1000) ∧ 0 < fstepOf (tunerSample 14074000 1000) ∧
    (tunerSample 14074000 1000).VFOA < 2 ^ 64 ∧
    fstepOf (tunerSample 14074000 1000) ∣ (tunerSample 14074000 1000).VFOA ∧
    bottomFreq ≤ (tunerSample 14074000 1000).VFOA ∧
    (selectFrequency 0 (tunerSample 14074000 1000)).VFOA = 14074000 :=
  ⟨by decide, by decide, by decide, by decide, by decide,
    (selectFrequency_zero_keeps_aligned_VFOA (tunerSample 14074000 1000) (by decide)
      (by decide) (by decide) (by decide)).2 (by decide)⟩

end CIV
